import Mathlib

/-!
Shallow embedding of the Shelly device-control layer
(`src/sc_utility/sc_shelly_control.py`) of the `sc_utility` repository,
together with proofs of the testable properties of its specification.

Modelling conventions:
* Python dictionaries holding device / component records become Lean
  structures with one field per dictionary key.
* JSON payloads are values of the inductive type `JVal`; numeric readings
  are rationals (`ℚ`).
* Network I/O is an oracle (`NetEnv`): a ping predicate plus one response
  function per transport primitive, indexed by the attempt number so that
  retry behaviour is observable.
* Raised Python exceptions become the `.error` branch of `Except`;
  a returned value becomes `.ok`.
* The helpers of the missing module `sc_common.py` (`ping_host`,
  `is_valid_hostname`, `select_file_location`) are abstracted as
  parameters of the model: a ping oracle, a hostname-validity predicate,
  and the identity on sanitized file names.
-/

namespace Shelly

/-- JSON-like values, the payload universe of the transport layer and of the
simulation files. -/
inductive JVal where
  | null : JVal
  | bool (b : Bool) : JVal
  | num (q : ℚ) : JVal
  | str (s : String) : JVal
  | arr (xs : List JVal) : JVal
  | obj (kvs : List (String × JVal)) : JVal

/-- Python truthiness of a JSON value: `None`, `False`, `0`, `""`, `[]` and
`{}` are falsy, everything else truthy. -/
def jtruthy : JVal → Bool
  | .null => false
  | .bool b => b
  | .num q => decide (q ≠ 0)
  | .str s => !s.isEmpty
  | .arr xs => !xs.isEmpty
  | .obj kvs => !kvs.isEmpty

/-- Lookup of a string key in a JSON object, `none` when the value is not an
object or the key is absent (Python `d.get(k)` on a dict). -/
def JVal.getKey : JVal → String → Option JVal
  | .obj kvs, k => (kvs.find? (fun kv => kv.1 = k)).map Prod.snd
  | _, _ => none

/-- Python `d.get(k, {})` followed by use as a dictionary: returns the entries
when the key is absent (default `{}`) or maps to an object, and `none`
(Python would raise `AttributeError`) when the key maps to a non-object or
the receiver itself is not a dictionary. -/
def JVal.getObjD : JVal → String → Option (List (String × JVal))
  | .obj kvs, k =>
      match (kvs.find? (fun kv => kv.1 = k)).map Prod.snd with
      | none => some []
      | some (.obj inner) => some inner
      | some _ => none
  | _, _ => none

/-- Lookup in an association list of JSON object entries. -/
def jfind (kvs : List (String × JVal)) (k : String) : Option JVal :=
  (kvs.find? (fun kv => kv.1 = k)).map Prod.snd

/-- Decode of a JSON value used in a boolean position, defaulting truthiness
for non-boolean values (the Python code stores the raw value and only ever
uses it in boolean positions). -/
def asBool : JVal → Bool
  | .bool b => b
  | v => jtruthy v

/-- Decode of an optional numeric reading: numbers survive, anything else is
an unset reading. -/
def asNumOpt : Option JVal → Option ℚ
  | some (.num q) => some q
  | _ => none

/-- Decode of an optional string field. -/
def asStrOpt : Option JVal → Option String
  | some (.str s) => some s
  | _ => none

/-- Runtime device record: one entry of `ShellyControl.devices`, with one
field per key installed by `_get_device_attributes` / `_add_device`. -/
structure DeviceRec where
  index : Nat
  model : String
  clientName : String
  id : Int
  simulate : Bool
  simulationFile : Option String
  modelName : String
  label : String
  url : Option String
  hostname : Option String
  port : Int
  generation : Int
  protocol : String
  inputsCount : Nat
  outputsCount : Nat
  metersCount : Nat
  metersSeperate : Bool
  temperatureMonitoring : Bool
  online : Bool
  macAddress : Option String
  temperature : Option ℚ
  uptime : Option ℚ
  restartRequired : Option Bool
  totalPower : ℚ
  totalEnergy : ℚ
  deriving Repr, DecidableEq

/-- Runtime input record: one entry of `ShellyControl.inputs`. -/
structure InputRec where
  deviceIndex : Nat
  componentIndex : Nat
  id : Int
  name : String
  state : Bool
  deriving Repr, DecidableEq

/-- Runtime output record: one entry of `ShellyControl.outputs`. -/
structure OutputRec where
  deviceIndex : Nat
  componentIndex : Nat
  id : Int
  name : String
  hasMeter : Bool
  state : Bool
  temperature : Option ℚ
  deriving Repr, DecidableEq

/-- Runtime meter record: one entry of `ShellyControl.meters`.  The spurious
`state` field mirrors the `State` key that `_add_device_components` also sets
on meters. -/
structure MeterRec where
  deviceIndex : Nat
  componentIndex : Nat
  id : Int
  name : String
  onOutput : Bool
  state : Bool
  power : Option ℚ
  voltage : Option ℚ
  current : Option ℚ
  powerFactor : Option ℚ
  energy : Option ℚ
  deriving Repr, DecidableEq

/-- Whole mutable state of a `ShellyControl` object: the registry lists, the
registry-wide transport settings, and the simulation-file store (the part of
the filesystem the object reads and writes, a map from file name to parsed
JSON content). -/
structure ShellyState where
  devices : List DeviceRec
  inputs : List InputRec
  outputs : List OutputRec
  meters : List MeterRec
  responseTimeout : ℚ
  retryCount : Nat
  retryDelay : ℚ
  pingAllowed : Bool
  files : List (String × JVal)

/-- Truthiness of an optional rational, as Python sees the stored value:
`None` and `0` are falsy. -/
def optTruthy : Option ℚ → Bool
  | none => false
  | some q => decide (q ≠ 0)

/-- Loop of `_calculate_device_totals` over `self.meters`: accumulates total
power and energy of the meters belonging to the device, unset readings
counted as zero. -/
def sumMeterReadings (idx : Nat) : List MeterRec → ℚ × ℚ → ℚ × ℚ
  | [], acc => acc
  | m :: ms, acc =>
      if m.deviceIndex = idx then
        sumMeterReadings idx ms (acc.1 + m.power.getD 0, acc.2 + m.energy.getD 0)
      else
        sumMeterReadings idx ms acc

/-- Loop of `_calculate_device_totals` over `self.outputs`: counts the
outputs of the device whose `Temperature` is truthy and sums those
temperatures. -/
def sumOutputTemps (idx : Nat) : List OutputRec → ℚ × ℚ → ℚ × ℚ
  | [], acc => acc
  | o :: os, acc =>
      if o.deviceIndex = idx ∧ optTruthy o.temperature then
        sumOutputTemps idx os (acc.1 + 1, acc.2 + o.temperature.getD 0)
      else
        sumOutputTemps idx os acc

/-- Embedding of `ShellyControl._calculate_device_totals`: updates the
device's `TotalPower` / `TotalEnergy` when it has meters, and its
`Temperature` when temperature monitoring is on, it has outputs, and at
least one output reports a truthy temperature. -/
def calculate_device_totals (st : ShellyState) (d : DeviceRec) : DeviceRec :=
  let d1 :=
    if d.metersCount > 0 then
      let pe := sumMeterReadings d.index st.meters (0, 0)
      { d with totalPower := pe.1, totalEnergy := pe.2 }
    else d
  if d1.temperatureMonitoring ∧ d1.outputsCount > 0 then
    let ct := sumOutputTemps d1.index st.outputs (0, 0)
    if ct.1 > 0 then { d1 with temperature := some (ct.2 / ct.1) } else d1
  else d1

/-- Meters of a given device, in list order. -/
def metersOf (st : ShellyState) (idx : Nat) : List MeterRec :=
  st.meters.filter (fun m => m.deviceIndex = idx)

/-- Outputs of a given device, in list order. -/
def outputsOf (st : ShellyState) (idx : Nat) : List OutputRec :=
  st.outputs.filter (fun o => o.deviceIndex = idx)

/-- Specification-side total power: sum of the device's meters' power
readings with unset readings counted as zero. -/
def specTotalPower (st : ShellyState) (d : DeviceRec) : ℚ :=
  ((metersOf st d.index).map (fun m => m.power.getD 0)).sum

/-- Specification-side total energy: sum of the device's meters' energy
readings with unset readings counted as zero. -/
def specTotalEnergy (st : ShellyState) (d : DeviceRec) : ℚ :=
  ((metersOf st d.index).map (fun m => m.energy.getD 0)).sum

/-- Modelled from the spec: arithmetic mean of the non-null `Temperature`
values of the device's outputs, unset when no output reports a temperature.
This is the quantity claim C5 asserts the code computes. -/
def specMeanNonNullTemp (st : ShellyState) (d : DeviceRec) : Option ℚ :=
  let ts := ((outputsOf st d.index).filterMap (fun o => o.temperature))
  if ts.isEmpty then none else some (ts.sum / ts.length)

/-- Temperatures that the code actually averages: the truthy (non-null and
non-zero) output temperatures of the device. -/
def truthyTemps (st : ShellyState) (d : DeviceRec) : List ℚ :=
  ((st.outputs.filter (fun o => o.deviceIndex = d.index ∧ optTruthy o.temperature)).map
    (fun o => o.temperature.getD 0))

/-- Failure conditions of the device-control layer.  Raised Python exceptions
become `.error` values: `RuntimeError`s keep the branch that produced them,
`TimeoutError` is `timeoutErr`, and Python exceptions that no handler
catches (`TypeError`, `IndexError`, stray `AttributeError`) are recorded as
such. -/
inductive TFail where
  | notFound
  | timeoutErr
  | connectionErr
  | requestErr
  | badStatus
  | emptyResult
  | rpcError
  | combinedMetersUnsupported
  | unsupportedProtocol
  | extractError
  | typeError
  | indexError
  | attributeError
  | metersIncomplete
  | noSimPath
  | simFileMissing
  deriving Repr, DecidableEq

/-- Outcome of one HTTP attempt as `requests` reports it to the caller. -/
inductive ReqOutcome where
  | timeout
  | connError
  | reqError
  | http (status : Nat) (body : JVal)

/-- Network oracle: the missing `SCCommon.ping_host` reachability probe plus
the responses of the two HTTP primitives, keyed by hostname, port, request
(URL suffix resp. RPC payload) and by the attempt number, so retries are
observable. -/
structure NetEnv where
  ping : String → Bool
  rest : String → Int → String → Nat → ReqOutcome
  rpc : String → Int → JVal → Nat → ReqOutcome

/-- Parse step of `_rest_request` on an HTTP 200 body: a falsy body is the
"empty result" fatal error. -/
def restParse (body : JVal) : Except TFail JVal :=
  if jtruthy body then .ok body else .error .emptyResult

/-- Parse step of `_rpc_request` on an HTTP 200 body: the `result` field must
be truthy, otherwise a populated `error.message` is surfaced as an RPC error
and an absent one as an empty result. -/
def rpcParse (body : JVal) : Except TFail JVal :=
  match body with
  | .obj kvs =>
      let r := (jfind kvs "result").getD .null
      if jtruthy r then .ok r
      else
        match (JVal.obj kvs).getObjD "error" with
        | none => .error .attributeError
        | some errObj =>
            if jtruthy ((jfind errObj "message").getD .null) then .error .rpcError
            else .error .emptyResult
  | _ => .error .attributeError

/-- Shared retry loop of `_rest_request` / `_rpc_request`.  `k` is the number
of timeouts still tolerated before the Timeout failure (initially the
configured retry count), `a` the attempts made so far and `s` the sleeps
performed so far.  Returns the outcome together with the final attempt and
sleep counters. -/
def requestLoop (resp : Nat → ReqOutcome) (parse : JVal → Except TFail JVal) :
    Nat → Nat → Nat → Except TFail JVal × Nat × Nat
  | k, a, s =>
    match resp a with
    | .timeout =>
        match k with
        | 0 => (.error .timeoutErr, a + 1, s)
        | k' + 1 => requestLoop resp parse k' (a + 1) (s + 1)
    | .connError => (.error .connectionErr, a + 1, s)
    | .reqError => (.error .requestErr, a + 1, s)
    | .http status body =>
        if 400 ≤ status then (.error .requestErr, a + 1, s)
        else if status ≠ 200 then (.error .badStatus, a + 1, s)
        else
          match parse body with
          | .ok dataV => (.ok dataV, a + 1, s)
          | .error e => (.error e, a + 1, s)

/-- Identity accepted by `get_device`: an already-resolved device record, a
numeric ID, or a name. -/
inductive DevIdentity where
  | ref (d : DeviceRec)
  | byId (n : Int)
  | byName (s : String)

/-- Embedding of `ShellyControl.get_device`: a record is returned unchanged,
otherwise the first device whose ID (for numeric identities) or client name
(for string identities) matches is returned; a miss raises the not-found
error.  The Python comparison `device["ID"] == identity or
device["ClientName"] == identity` can only match the field of the same type
as the identity. -/
def get_device (st : ShellyState) : DevIdentity → Except TFail DeviceRec
  | .ref d => .ok d
  | .byId n =>
      match st.devices.find? (fun d => d.id = n) with
      | some d => .ok d
      | none => .error .notFound
  | .byName s =>
      match st.devices.find? (fun d => d.clientName = s) with
      | some d => .ok d
      | none => .error .notFound

/-- Loop body of `is_device_online` over the enumerated device list:
simulated devices (or all devices when pinging is disabled) are marked
online; the selected device (all devices when none is selected) is pinged
and marked accordingly.  Returns the updated records and whether an offline
device was found. -/
def onlineScan (env : NetEnv) (pingAllowed : Bool) (sel : Option DeviceRec) :
    List DeviceRec → Nat → List DeviceRec × Bool
  | [], _ => ([], false)
  | d :: ds, i =>
      let step : DeviceRec × Bool :=
        if d.simulate ∨ pingAllowed = false then
          ({ d with online := true }, false)
        else if sel.all (fun s => s.index = i) then
          let up := env.ping (d.hostname.getD "")
          ({ d with online := up }, !up)
        else (d, false)
      let rest := onlineScan env pingAllowed sel ds (i + 1)
      (step.1 :: rest.1, step.2 || rest.2)

/-- Embedding of `ShellyControl.is_device_online`: resolves the optional
identity, scans the device list updating every `Online` flag the Python loop
touches, and returns whether no scanned device was offline. -/
def is_device_online (env : NetEnv) (st : ShellyState) (identity : Option DevIdentity) :
    ShellyState × Except TFail Bool :=
  match identity with
  | some ident =>
      match get_device st ident with
      | .error e => (st, .error e)
      | .ok sel =>
          let scan := onlineScan env st.pingAllowed (some sel) st.devices 0
          ({ st with devices := scan.1 }, .ok (!scan.2))
  | none =>
      let scan := onlineScan env st.pingAllowed none st.devices 0
      ({ st with devices := scan.1 }, .ok (!scan.2))

/-- Result of one transport primitive: the threaded registry state, the
Python return value or raised failure, and the attempt / sleep counters of
the retry loop. -/
structure ReqRes where
  st : ShellyState
  out : Except TFail (Bool × JVal)
  attempts : Nat
  sleeps : Nat

/-- Embedding of `ShellyControl._rest_request`: pings the device first (via
its ID, as the source does), returns the offline tuple without attempting a
request if the probe fails, and otherwise runs the shared retry loop on HTTP
GET outcomes. -/
def rest_request (env : NetEnv) (st : ShellyState) (device : DeviceRec) (urlArgs : String) :
    ReqRes :=
  match is_device_online env st (some (.byId device.id)) with
  | (st1, .error e) => ⟨st1, .error e, 0, 0⟩
  | (st1, .ok false) => ⟨st1, .ok (false, .obj []), 0, 0⟩
  | (st1, .ok true) =>
      let resp := env.rest (device.hostname.getD "") device.port urlArgs
      let r := requestLoop resp restParse st1.retryCount 0 0
      match r.1 with
      | .ok dataV => ⟨st1, .ok (true, dataV), r.2.1, r.2.2⟩
      | .error e => ⟨st1, .error e, r.2.1, r.2.2⟩

/-- Embedding of `ShellyControl._rpc_request`: pings the device first (via
the device record itself), returns the offline tuple if the probe fails, and
otherwise runs the shared retry loop on HTTP POST outcomes. -/
def rpc_request (env : NetEnv) (st : ShellyState) (device : DeviceRec) (payload : JVal) :
    ReqRes :=
  match is_device_online env st (some (.ref device)) with
  | (st1, .error e) => ⟨st1, .error e, 0, 0⟩
  | (st1, .ok false) => ⟨st1, .ok (false, .obj []), 0, 0⟩
  | (st1, .ok true) =>
      let resp := env.rpc (device.hostname.getD "") device.port payload
      let r := requestLoop resp rpcParse st1.retryCount 0 0
      match r.1 with
      | .ok dataV => ⟨st1, .ok (true, dataV), r.2.1, r.2.2⟩
      | .error e => ⟨st1, .error e, r.2.1, r.2.2⟩

/-- Lookup in the association-list entries of a `.get(k, {})`-style access on
an object already known to be a dictionary. -/
def objGetObjD (kvs : List (String × JVal)) (k : String) : Option (List (String × JVal)) :=
  match jfind kvs k with
  | none => some []
  | some (.obj inner) => some inner
  | some _ => none

/-- Decode of a value stored in an `Option Bool` field with a Python
`.get(key, default)` access: a missing key yields the default, `null` an
unset value, and any other stored value its truthiness. -/
def decodeBoolD (dflt : Bool) : Option JVal → Option Bool
  | none => some dflt
  | some .null => none
  | some (.bool b) => some b
  | some v => some (jtruthy v)

/-- JSON encoding of an optional string field. -/
def jstrOpt : Option String → JVal
  | none => .null
  | some s => .str s

/-- JSON encoding of an optional numeric field. -/
def jnumOpt : Option ℚ → JVal
  | none => .null
  | some q => .num q

/-- JSON encoding of an optional boolean field. -/
def jboolOpt : Option Bool → JVal
  | none => .null
  | some b => .bool b

/-- Inputs of a given device, in list order. -/
def inputsOf (st : ShellyState) (idx : Nat) : List InputRec :=
  st.inputs.filter (fun i => i.deviceIndex = idx)

/-- Object entries of the JSON serialization of an input record. -/
def encodeInputEntries (c : InputRec) : List (String × JVal) :=
  [("DeviceIndex", .num c.deviceIndex), ("ComponentIndex", .num c.componentIndex),
   ("ID", .num c.id), ("Name", .str c.name), ("State", .bool c.state)]

/-- JSON serialization of an input record, as written to a simulation file. -/
def encodeInput (c : InputRec) : JVal := .obj (encodeInputEntries c)

/-- Object entries of the JSON serialization of an output record. -/
def encodeOutputEntries (c : OutputRec) : List (String × JVal) :=
  [("DeviceIndex", .num c.deviceIndex), ("ComponentIndex", .num c.componentIndex),
   ("ID", .num c.id), ("Name", .str c.name), ("HasMeter", .bool c.hasMeter),
   ("State", .bool c.state), ("Temperature", jnumOpt c.temperature)]

/-- JSON serialization of an output record, as written to a simulation
file. -/
def encodeOutput (c : OutputRec) : JVal := .obj (encodeOutputEntries c)

/-- Object entries of the JSON serialization of a meter record. -/
def encodeMeterEntries (c : MeterRec) : List (String × JVal) :=
  [("DeviceIndex", .num c.deviceIndex), ("ComponentIndex", .num c.componentIndex),
   ("ID", .num c.id), ("Name", .str c.name), ("OnOutput", .bool c.onOutput),
   ("State", .bool c.state), ("Power", jnumOpt c.power), ("Voltage", jnumOpt c.voltage),
   ("Current", jnumOpt c.current), ("PowerFactor", jnumOpt c.powerFactor),
   ("Energy", jnumOpt c.energy)]

/-- JSON serialization of a meter record, as written to a simulation file. -/
def encodeMeter (c : MeterRec) : JVal := .obj (encodeMeterEntries c)

/-- Object entries of the consolidated device information of
`get_device_information`: a copy of the device record in which the
`Inputs` / `Outputs` / `Meters` count keys are overwritten by the component
lists of the device. -/
def encodeDeviceEntries (st : ShellyState) (d : DeviceRec) : List (String × JVal) :=
  [("Index", .num d.index), ("Model", .str d.model), ("ClientName", .str d.clientName),
   ("ID", .num d.id), ("Simulate", .bool d.simulate),
   ("SimulationFile", jstrOpt d.simulationFile), ("ModelName", .str d.modelName),
   ("Label", .str d.label), ("URL", jstrOpt d.url), ("Hostname", jstrOpt d.hostname),
   ("Port", .num d.port), ("Generation", .num d.generation),
   ("Protocol", .str d.protocol),
   ("Inputs", .arr ((inputsOf st d.index).map encodeInput)),
   ("Outputs", .arr ((outputsOf st d.index).map encodeOutput)),
   ("Meters", .arr ((metersOf st d.index).map encodeMeter)),
   ("MetersSeperate", .bool d.metersSeperate),
   ("TemperatureMonitoring", .bool d.temperatureMonitoring),
   ("Online", .bool d.online), ("MacAddress", jstrOpt d.macAddress),
   ("Temperature", jnumOpt d.temperature), ("Uptime", jnumOpt d.uptime),
   ("RestartRequired", jboolOpt d.restartRequired), ("TotalPower", .num d.totalPower),
   ("TotalEnergy", .num d.totalEnergy)]

/-- JSON document `_export_device_information_to_json` writes. -/
def encodeDeviceInfo (st : ShellyState) (d : DeviceRec) : JVal :=
  .obj (encodeDeviceEntries st d)

/-- Lookup of a simulation file in the file store. -/
def fileLookup (files : List (String × JVal)) (p : String) : Option JVal :=
  (files.find? (fun kv => kv.1 = p)).map Prod.snd

/-- Write of a simulation file into the file store, replacing an existing
entry of the same name. -/
def fileWrite (files : List (String × JVal)) (p : String) (v : JVal) : List (String × JVal) :=
  if (files.find? (fun kv => kv.1 = p)).isSome then
    files.map (fun kv => if kv.1 = p then (p, v) else kv)
  else files ++ [(p, v)]

/-- Embedding of `ShellyControl._export_device_information_to_json`: a no-op
returning `False` outside simulation mode, an error without a simulation
file path, otherwise the consolidated device information is written to the
device's simulation file. -/
def export_device_information_to_json (st : ShellyState) (d : DeviceRec) :
    ShellyState × Except TFail Bool :=
  if d.simulate = false then (st, .ok false)
  else
    match d.simulationFile with
    | none => (st, .error .noSimPath)
    | some p => ({ st with files := fileWrite st.files p (encodeDeviceInfo st d) }, .ok true)

/-- Keys of the runtime device dictionary, in the insertion order of
`_get_device_attributes`. -/
def deviceKeys : List String :=
  ["Index", "Model", "ClientName", "ID", "Simulate", "SimulationFile", "ModelName", "Label",
   "URL", "Hostname", "Port", "Generation", "Protocol", "Inputs", "Outputs", "Meters",
   "MetersSeperate", "TemperatureMonitoring", "Online", "MacAddress", "Temperature",
   "Uptime", "RestartRequired", "TotalPower", "TotalEnergy"]

/-- Allow-list of device-level keys that
`_import_device_information_from_json` is willing to restore.  Note the
spelling `MACAddress`, which differs from the `MacAddress` key of the device
record. -/
def deviceImportAllowed : List String := ["Online", "MACAddress", "Uptime", "RestartRequired"]

/-- Assignment `device[key] = value` for the keys the import loop can reach.
Only `Online`, `Uptime`, `RestartRequired` and `MacAddress` are modelled as
assignable runtime fields; for every other key the record is returned
unchanged (the import allow-list never lets the loop reach them). -/
def setDeviceKey (d : DeviceRec) (k : String) (v : JVal) : DeviceRec :=
  if k = "Online" then { d with online := asBool v }
  else if k = "Uptime" then { d with uptime := asNumOpt (some v) }
  else if k = "RestartRequired" then { d with restartRequired := decodeBoolD false (some v) }
  else if k = "MacAddress" then { d with macAddress := asStrOpt (some v) }
  else d

/-- Device-level loop of `_import_device_information_from_json`: every entry
of the file whose key is both in the allow-list and a key of the device
record is assigned onto the device. -/
def applyDeviceImport (d : DeviceRec) : List (String × JVal) → DeviceRec
  | [] => d
  | (k, v) :: rest =>
      let d1 := if deviceImportAllowed.contains k ∧ deviceKeys.contains k then
                  setDeviceKey d k v
                else d
      applyDeviceImport d1 rest

/-- Python iteration over a JSON value: lists yield their elements; a
non-empty dictionary or string yields keys / characters on which the
subsequent `.get` raises `AttributeError`; other values are not iterable
(`TypeError`). -/
def iterElems : JVal → Except TFail (List JVal)
  | .arr xs => .ok xs
  | .obj kvs => if kvs.isEmpty then .ok [] else .error .attributeError
  | .str s => if s.isEmpty then .ok [] else .error .attributeError
  | _ => .error .typeError

/-- Matching test of the import loops: the stored `ComponentIndex` of a live
component equals the `ComponentIndex` entry of an imported one (a missing
entry, Python `None`, never equals an integer). -/
def ciMatches (ci : Nat) (e : List (String × JVal)) : Bool :=
  match jfind e "ComponentIndex" with
  | some (.num q) => q = (ci : ℚ)
  | _ => false

/-- Decode of a value imported into an optional numeric reading. -/
def decodeNumField : JVal → Option ℚ
  | .num q => some q
  | _ => none

/-- Import of one input element of a simulation file onto the matching live
inputs of the device. -/
def applyImportedInput (idx : Nat) (e : List (String × JVal)) (ins : List InputRec) :
    List InputRec :=
  ins.map (fun di =>
    if di.deviceIndex = idx ∧ ciMatches di.componentIndex e then
      { di with state := match jfind e "State" with
                         | none => di.state
                         | some v => asBool v }
    else di)

/-- Input-import loop of `_import_device_information_from_json`: each
element read from the file must behave as a dictionary; it is applied to
the matching live input. -/
def importInputsLoop (idx : Nat) : List JVal → List InputRec → Except TFail (List InputRec)
  | [], ins => .ok ins
  | .obj e :: rest, ins => importInputsLoop idx rest (applyImportedInput idx e ins)
  | _ :: _, _ => .error .attributeError

/-- Import of one output element of a simulation file onto the matching live
outputs of the device: the state is always restored, the temperature only
when the device monitors temperature. -/
def applyImportedOutput (idx : Nat) (tempMon : Bool) (e : List (String × JVal))
    (outs : List OutputRec) : List OutputRec :=
  outs.map (fun o =>
    if o.deviceIndex = idx ∧ ciMatches o.componentIndex e then
      let o1 := { o with state := match jfind e "State" with
                                  | none => o.state
                                  | some v => asBool v }
      if tempMon then
        { o1 with temperature := match jfind e "Temperature" with
                                 | none => o1.temperature
                                 | some v => decodeNumField v }
      else o1
    else o)

/-- Output-import loop of `_import_device_information_from_json`. -/
def importOutputsLoop (idx : Nat) (tempMon : Bool) :
    List JVal → List OutputRec → Except TFail (List OutputRec)
  | [], outs => .ok outs
  | .obj e :: rest, outs => importOutputsLoop idx tempMon rest (applyImportedOutput idx tempMon e outs)
  | _ :: _, _ => .error .attributeError

/-- Assignment of the allow-listed reading keys of one imported meter element
onto a live meter record. -/
def applyMeterEntries (m : MeterRec) : List (String × JVal) → MeterRec
  | [] => m
  | (k, v) :: rest =>
      let m1 :=
        if k = "Power" then { m with power := decodeNumField v }
        else if k = "Voltage" then { m with voltage := decodeNumField v }
        else if k = "Current" then { m with current := decodeNumField v }
        else if k = "PowerFactor" then { m with powerFactor := decodeNumField v }
        else if k = "Energy" then { m with energy := decodeNumField v }
        else m
      applyMeterEntries m1 rest

/-- Import of one meter element onto the first matching live meter (the
Python loop breaks after the first match). -/
def applyImportedMeter (idx : Nat) (e : List (String × JVal)) :
    List MeterRec → List MeterRec
  | [] => []
  | m :: ms =>
      if m.deviceIndex = idx ∧ ciMatches m.componentIndex e then
        applyMeterEntries m e :: ms
      else m :: applyImportedMeter idx e ms

/-- Meter-import loop of `_import_device_information_from_json`. -/
def importMetersLoop (idx : Nat) : List JVal → List MeterRec → Except TFail (List MeterRec)
  | [], ms => .ok ms
  | .obj e :: rest, ms => importMetersLoop idx rest (applyImportedMeter idx e ms)
  | _ :: _, _ => .error .attributeError

/-- Replacement of the device record stored at a given registry position. -/
def setDeviceAt (ds : List DeviceRec) (i : Nat) (d : DeviceRec) : List DeviceRec :=
  ds.set i d

/-- Embedding of `ShellyControl._import_device_information_from_json`: a
no-op outside simulation mode; without a file the device information is
exported instead (when requested) or an error raised; with a file, the
allow-listed device fields and the per-component states and readings are
restored into the live model and the device totals recomputed. -/
def import_device_information_from_json (st : ShellyState) (d : DeviceRec)
    (createIfNoFile : Bool) : ShellyState × Except TFail Bool :=
  if d.simulate = false then (st, .ok false)
  else
    match d.simulationFile with
    | none => (st, .error .noSimPath)
    | some p =>
        match fileLookup st.files p with
        | none =>
            if createIfNoFile then export_device_information_to_json st d
            else (st, .error .simFileMissing)
        | some (.obj kvs) =>
            let d1 := applyDeviceImport d kvs
            let stepInputs : Except TFail (List InputRec) :=
              if (jfind kvs "Inputs").isSome ∧ d.inputsCount > 0 then
                match iterElems ((jfind kvs "Inputs").getD .null) with
                | .error e => .error e
                | .ok xs => importInputsLoop d.index xs st.inputs
              else .ok st.inputs
            match stepInputs with
            | .error e => (st, .error e)
            | .ok ins1 =>
                let stepOutputs : Except TFail (List OutputRec) :=
                  if (jfind kvs "Outputs").isSome ∧ d.outputsCount > 0 then
                    match iterElems ((jfind kvs "Outputs").getD .null) with
                    | .error e => .error e
                    | .ok xs => importOutputsLoop d.index d.temperatureMonitoring xs st.outputs
                  else .ok st.outputs
                match stepOutputs with
                | .error e => (st, .error e)
                | .ok outs1 =>
                    let stepMeters : Except TFail (List MeterRec) :=
                      if (jfind kvs "Meters").isSome ∧ d.metersCount > 0 then
                        match iterElems ((jfind kvs "Meters").getD .null) with
                        | .error e => .error e
                        | .ok xs => importMetersLoop d.index xs st.meters
                      else .ok st.meters
                    match stepMeters with
                    | .error e => (st, .error e)
                    | .ok ms1 =>
                        let st1 := { st with devices := setDeviceAt st.devices d.index d1,
                                             inputs := ins1, outputs := outs1, meters := ms1 }
                        let d2 := calculate_device_totals st1 d1
                        ({ st1 with devices := setDeviceAt st1.devices d.index d2 }, .ok true)
        | some _ => (st, .error .attributeError)

/-- RPC payload of the `Shelly.GetStatus` call. -/
def rpcStatusPayload : JVal := .obj [("id", .num 0), ("method", .str "Shelly.GetStatus")]

/-- RPC payload of a per-channel `EM1.GetStatus` / `EM1Data.GetStatus`
call. -/
def emPayload (method : String) (i : Nat) : JVal :=
  .obj [("id", .num 0), ("method", .str method), ("params", .obj [("id", .num i)])]

/-- RPC payload of the `Switch.Set` output command. -/
def switchSetPayload (ci : Nat) (turnOn : Bool) : JVal :=
  .obj [("id", .num 0), ("method", .str "Switch.Set"),
        ("params", .obj [("id", .num ci), ("on", .bool turnOn)])]

/-- URL suffix of the REST output command `relay/{n}?turn=on|off`. -/
def relayArgs (ci : Nat) (turnOn : Bool) : String :=
  "relay/" ++ toString ci ++ (if turnOn then "?turn=on" else "?turn=off")

/-- Per-channel meter loop of `get_device_status`: for each meter channel a
paired `EM1.GetStatus` / `EM1Data.GetStatus` RPC call, appending each
response to its list only when the transport reported success. -/
def emLoop (env : NetEnv) (device : DeviceRec) :
    Nat → Nat → ShellyState → List JVal → List JVal →
    ShellyState × Except TFail (List JVal × List JVal)
  | 0, _, st, em, emd => (st, .ok (em, emd))
  | n + 1, i, st, em, emd =>
      let r1 := rpc_request env st device (emPayload "EM1.GetStatus" i)
      match r1.out with
      | .error e => (r1.st, .error e)
      | .ok (ok1, d1) =>
          let em1 := if ok1 then em ++ [d1] else em
          let r2 := rpc_request env r1.st device (emPayload "EM1Data.GetStatus" i)
          match r2.out with
          | .error e => (r2.st, .error e)
          | .ok (ok2, d2) =>
              let emd1 := if ok2 then emd ++ [d2] else emd
              emLoop env device n (i + 1) r2.st em1 emd1

/-- Fetch phase of `get_device_status` for a non-simulated device: the
protocol-specific status request(s), plus the fail-fast rejection of
combined metering on REST devices. -/
def fetchPhase (env : NetEnv) (st : ShellyState) (device : DeviceRec) :
    ShellyState × Except TFail (Bool × JVal × List JVal × List JVal) :=
  if device.protocol = "RPC" then
    let r := rpc_request env st device rpcStatusPayload
    match r.out with
    | .error e => (r.st, .error e)
    | .ok (res, body) =>
        if device.metersSeperate then
          match emLoop env device device.metersCount 0 r.st [] [] with
          | (st2, .error e) => (st2, .error e)
          | (st2, .ok (em, emd)) => (st2, .ok (res, body, em, emd))
        else (r.st, .ok (res, body, [], []))
  else if device.protocol = "REST" then
    let r := rest_request env st device "status"
    match r.out with
    | .error e => (r.st, .error e)
    | .ok (res, body) =>
        if device.metersSeperate = false then (r.st, .error .combinedMetersUnsupported)
        else (r.st, .ok (res, body, [], []))
  else (st, .error .unsupportedProtocol)

/-- System-field reconciliation of an RPC status payload onto the device
record (`sys.mac`, `sys.uptime`, `sys.restart_required`). -/
def reconcileDeviceRPC (d : DeviceRec) (body : JVal) : Except TFail DeviceRec :=
  match body.getObjD "sys" with
  | none => .error .extractError
  | some sys =>
      .ok { d with macAddress := asStrOpt (jfind sys "mac"),
                   uptime := asNumOpt (jfind sys "uptime"),
                   restartRequired := decodeBoolD false (jfind sys "restart_required") }

/-- Reconciliation of one input from an RPC status payload
(`input:{n}.state`, defaulting to false). -/
def reconcileInputRPC (d : DeviceRec) (body : JVal) (inp : InputRec) : Except TFail InputRec :=
  if inp.deviceIndex = d.index then
    match body.getObjD ("input:" ++ toString inp.componentIndex) with
    | none => .error .extractError
    | some o =>
        .ok { inp with state := match jfind o "state" with
                                | none => false
                                | some v => asBool v }
  else .ok inp

/-- Reconciliation of one output from an RPC status payload
(`switch:{n}.output`, and `switch:{n}.temperature.tC` when the device
monitors temperature). -/
def reconcileOutputRPC (d : DeviceRec) (body : JVal) (o : OutputRec) : Except TFail OutputRec :=
  if o.deviceIndex = d.index then
    match body.getObjD ("switch:" ++ toString o.componentIndex) with
    | none => .error .extractError
    | some sw =>
        let o1 := { o with state := match jfind sw "output" with
                                    | none => false
                                    | some v => asBool v }
        if d.temperatureMonitoring then
          match objGetObjD sw "temperature" with
          | none => .error .extractError
          | some t => .ok { o1 with temperature := asNumOpt (jfind t "tC") }
        else .ok o1
  else .ok o

/-- Reconciliation of one meter from an RPC status payload.  With separate
meters the source first compares the lengths of the collected per-channel
response lists against the meter count with `<=` and raises its fatal meter
error when either comparison holds; only past that guard would it read the
readings.  With combined meters the readings come from the `switch:{n}`
section. -/
def reconcileMeterRPC (d : DeviceRec) (body : JVal) (em emd : List JVal) (m : MeterRec) :
    Except TFail MeterRec :=
  if m.deviceIndex = d.index then
    if d.metersSeperate then
      if em.length ≤ d.metersCount ∨ emd.length ≤ d.metersCount then .error .metersIncomplete
      else
        match body.getObjD "params" with
        | none => .error .extractError
        | some p =>
            match emd.get? m.componentIndex with
            | none => .error .indexError
            | some ev =>
                match ev.getObjD "params" with
                | none => .error .extractError
                | some ep =>
                    .ok { m with power := asNumOpt (jfind p "act_power"),
                                 voltage := asNumOpt (jfind p "voltage"),
                                 current := asNumOpt (jfind p "current"),
                                 powerFactor := asNumOpt (jfind p "pf"),
                                 energy := asNumOpt (jfind ep "total_act_energy") }
    else
      match body.getObjD ("switch:" ++ toString m.componentIndex) with
      | none => .error .extractError
      | some sw =>
          match objGetObjD sw "aenergy" with
          | none => .error .extractError
          | some ae =>
              .ok { m with power := asNumOpt (jfind sw "apower"),
                           voltage := asNumOpt (jfind sw "voltage"),
                           current := asNumOpt (jfind sw "current"),
                           powerFactor := asNumOpt (jfind sw "pf"),
                           energy := asNumOpt (jfind ae "total") }
  else .ok m

/-- System-field reconciliation of a REST status payload onto the device
record (`mac`, `uptime`, `update.has_update`, optional `temperature`). -/
def reconcileDeviceREST (d : DeviceRec) (body : JVal) : Except TFail DeviceRec :=
  match body with
  | .obj kvs =>
      let d1 := { d with macAddress := asStrOpt (jfind kvs "mac"),
                         uptime := asNumOpt (jfind kvs "uptime") }
      match objGetObjD kvs "update" with
      | none => .error .extractError
      | some up =>
          let d2 := { d1 with restartRequired := decodeBoolD false (jfind up "has_update") }
          .ok (if d.temperatureMonitoring then
                 { d2 with temperature := asNumOpt (jfind kvs "temperature") }
               else d2)
  | _ => .error .extractError

/-- Reconciliation of one input from a REST status payload.  The source
calls `.get(component_index, {})` on the `inputs` value: a dictionary value
(whose JSON keys are strings) never holds the integer key, so the state
defaults to false, while the usual list value has no `.get` and raises
`AttributeError`, caught as an extraction error. -/
def reconcileInputREST (d : DeviceRec) (kvs : List (String × JVal)) (inp : InputRec) :
    Except TFail InputRec :=
  if inp.deviceIndex = d.index then
    match jfind kvs "inputs" with
    | some (.obj _) => .ok { inp with state := false }
    | _ => .error .extractError
  else .ok inp

/-- Python indexing `value[i]`: list indexing with an out-of-range error,
string indexing (whose character then fails the subsequent `.get`),
dictionary indexing with an integer key (a `KeyError`, caught), and a
`TypeError` on anything else. -/
def pyIndex : JVal → Nat → Except TFail JVal
  | .arr xs, i =>
      match xs.get? i with
      | some v => .ok v
      | none => .error .indexError
  | .str s, i => if i < s.length then .ok (.str "") else .error .indexError
  | .obj _, _ => .error .extractError
  | _, _ => .error .typeError

/-- Entries of a payload element used as a dictionary; anything else raises
`AttributeError` on `.get`, caught as an extraction error. -/
def elemFields : JVal → Except TFail (List (String × JVal))
  | .obj kvs => .ok kvs
  | _ => .error .extractError

/-- Reconciliation of one output from a REST status payload
(`relays[n].ison`, temperature copied from the device field). -/
def reconcileOutputREST (d : DeviceRec) (kvs : List (String × JVal)) (o : OutputRec) :
    Except TFail OutputRec :=
  if o.deviceIndex = d.index then
    match pyIndex ((jfind kvs "relays").getD (.arr [])) o.componentIndex with
    | .error e => .error e
    | .ok elem =>
        match elemFields elem with
        | .error e => .error e
        | .ok ef =>
            let o1 := { o with state := match jfind ef "ison" with
                                        | none => false
                                        | some v => asBool v }
            .ok (if d.temperatureMonitoring then { o1 with temperature := d.temperature } else o1)
  else .ok o

/-- Python `len` of a JSON value; numbers and booleans have no length
(`TypeError`). -/
def pyLen : JVal → Except TFail Nat
  | .arr xs => .ok xs.length
  | .str s => .ok s.length
  | .obj kvs => .ok kvs.length
  | _ => .error .typeError

/-- Reconciliation of one meter from a REST status payload: the meter list
lives under `emeters` when that key holds a non-empty value and under
`meters` otherwise; current and power factor are never available. -/
def reconcileMeterREST (d : DeviceRec) (kvs : List (String × JVal)) (m : MeterRec) :
    Except TFail MeterRec :=
  if m.deviceIndex = d.index then
    match pyLen ((jfind kvs "emeters").getD (.arr [])) with
    | .error e => .error e
    | .ok n =>
        let mkey := if n > 0 then "emeters" else "meters"
        match pyIndex ((jfind kvs mkey).getD (.arr [])) m.componentIndex with
        | .error e => .error e
        | .ok elem =>
            match elemFields elem with
            | .error e => .error e
            | .ok ef =>
                .ok { m with power := asNumOpt (jfind ef "power"),
                             voltage := asNumOpt (jfind ef "voltage"),
                             energy := asNumOpt (jfind ef "total"),
                             current := none, powerFactor := none }
  else .ok m

/-- Reconciliation phase of `get_device_status` on a successful transport
response: device fields first, then inputs, outputs and meters, then the
derived totals, written back into the registry. -/
def reconcilePhase (st : ShellyState) (device : DeviceRec) (body : JVal)
    (em emd : List JVal) : ShellyState × Except TFail Bool :=
  let devRes : Except TFail (DeviceRec × List InputRec × List OutputRec × List MeterRec) :=
    if device.protocol = "RPC" then do
      let d1 ← reconcileDeviceRPC device body
      let ins ← st.inputs.mapM (reconcileInputRPC device body)
      let outs ← st.outputs.mapM (reconcileOutputRPC device body)
      let ms ← st.meters.mapM (reconcileMeterRPC device body em emd)
      pure (d1, ins, outs, ms)
    else
      match body with
      | .obj kvs => do
          let d1 ← reconcileDeviceREST device body
          let ins ← st.inputs.mapM (reconcileInputREST d1 kvs)
          let outs ← st.outputs.mapM (reconcileOutputREST d1 kvs)
          let ms ← st.meters.mapM (reconcileMeterREST d1 kvs)
          pure (d1, ins, outs, ms)
      | _ => .error .extractError
  match devRes with
  | .error e => (st, .error e)
  | .ok (d1, ins, outs, ms) =>
      let st1 := { st with devices := setDeviceAt st.devices device.index d1,
                           inputs := ins, outputs := outs, meters := ms }
      let d2 := calculate_device_totals st1 d1
      ({ st1 with devices := setDeviceAt st1.devices device.index d2 }, .ok true)

/-- Embedding of `ShellyControl.get_device_status`: resolves the device,
takes the simulation shortcut when the device is simulated, otherwise runs
the protocol-specific fetch phase, returns the offline observation as a
plain `false`, and reconciles a successful response into the registry. -/
def get_device_status (env : NetEnv) (st : ShellyState) (identity : DevIdentity) :
    ShellyState × Except TFail Bool :=
  match get_device st identity with
  | .error e => (st, .error e)
  | .ok device =>
      if device.simulate then
        match import_device_information_from_json st device true with
        | (st1, .error e) => (st1, .error e)
        | (st1, .ok _) => (st1, .ok true)
      else
        match fetchPhase env st device with
        | (st1, .error e) => (st1, .error e)
        | (st1, .ok (false, _, _, _)) => (st1, .ok false)
        | (st1, .ok (true, body, em, emd)) =>
            let dcur := (st1.devices.get? device.index).getD device
            reconcilePhase st1 dcur body em emd

/-- Identity accepted by `get_device_component`: an already-resolved record
(modelled as its registry position), a numeric ID, or a name. -/
inductive CompIdentity where
  | ref (idx : Nat)
  | byId (n : Int)
  | byName (s : String)

/-- Embedding of `ShellyControl.get_device_component` restricted to the
output list: resolves an identity to the position of the first output whose
ID (numeric identity) or name (string identity) matches. -/
def get_output_component (st : ShellyState) : CompIdentity → Except TFail Nat
  | .ref i => if i < st.outputs.length then .ok i else .error .notFound
  | .byId n =>
      match st.outputs.findIdx? (fun o => o.id = n) with
      | some i => .ok i
      | none => .error .notFound
  | .byName s =>
      match st.outputs.findIdx? (fun o => o.name = s) with
      | some i => .ok i
      | none => .error .notFound

/-- In-place update of the stored state of the output at a given position. -/
def setOutputState : List OutputRec → Nat → Bool → List OutputRec
  | [], _, _ => []
  | o :: os, 0, b => { o with state := b } :: os
  | o :: os, n + 1, b => o :: setOutputState os n b

/-- Final phase of `change_output` once the command has (actually or
trivially) succeeded: store the new state on the output, export the snapshot
when simulating, and report whether the state differs from its prior
value. -/
def finishChange (st : ShellyState) (oi : Nat) (di : Nat) (newState currentState : Bool)
    (simulate : Bool) : ShellyState × Except TFail (Bool × Bool) :=
  let st2 := { st with outputs := setOutputState st.outputs oi newState }
  if simulate then
    match st2.devices.get? di with
    | none => (st2, .error .indexError)
    | some dev =>
        match export_device_information_to_json st2 dev with
        | (st3, .error e) => (st3, .error e)
        | (st3, .ok _) => (st3, .ok (true, decide (newState ≠ currentState)))
  else (st2, .ok (true, decide (newState ≠ currentState)))

/-- Embedding of `ShellyControl.change_output`: resolves the target output
and its device, notes the prior state, for live devices re-fetches the
status (returning the offline tuple when the device is unreachable) and
issues the protocol-specific mutate call, and on success stores the new
state, exports the simulation snapshot when simulating, and reports whether
the state actually changed. -/
def change_output (env : NetEnv) (st : ShellyState) (identity : CompIdentity)
    (newState : Bool) : ShellyState × Except TFail (Bool × Bool) :=
  match get_output_component st identity with
  | .error e => (st, .error e)
  | .ok oi =>
      match st.outputs.get? oi with
      | none => (st, .error .notFound)
      | some outp =>
          match st.devices.get? outp.deviceIndex with
          | none => (st, .error .indexError)
          | some device =>
              let current := outp.state
              if device.simulate then
                finishChange st oi outp.deviceIndex newState current true
              else
                match get_device_status env st (.ref device) with
                | (st1, .error e) => (st1, .error e)
                | (st1, .ok false) => (st1, .ok (false, false))
                | (st1, .ok true) =>
                    let device1 := (st1.devices.get? outp.deviceIndex).getD device
                    if device1.protocol = "RPC" then
                      let r := rpc_request env st1 device1
                        (switchSetPayload outp.componentIndex newState)
                      match r.out with
                      | .error e => (r.st, .error e)
                      | .ok (false, _) => (r.st, .ok (false, false))
                      | .ok (true, _) =>
                          finishChange r.st oi outp.deviceIndex newState current false
                    else if device1.protocol = "REST" then
                      let r := rest_request env st1 device1
                        (relayArgs outp.componentIndex newState)
                      match r.out with
                      | .error e => (r.st, .error e)
                      | .ok (false, _) => (r.st, .ok (false, false))
                      | .ok (true, _) =>
                          finishChange r.st oi outp.deviceIndex newState current false
                    else (st1, .error .unsupportedProtocol)

/-- One entry of the bundled `shelly_models.json` catalog (missing from the
sources; its schema is the one documented in the spec and consumed by
`_get_device_attributes`, every field optional with the source's
defaults). -/
structure ModelEntry where
  model : String
  name : Option String
  url : Option String
  generation : Option Int
  protocol : Option String
  inputs : Option Nat
  outputs : Option Nat
  meters : Option Nat
  metersSeperate : Option Bool
  temperatureMonitoring : Option Bool
  deriving Repr, DecidableEq

/-- Per-component configuration entry (`Inputs[]` / `Outputs[]` / `Meters[]`
list items).  A `some ""` name or `some 0` ID models a key explicitly
present with a falsy value; `none` models an omitted key. -/
structure ComponentConfig where
  id : Option Int
  name : Option String
  deriving Repr, DecidableEq

/-- One device entry of the consumed configuration. -/
structure DeviceConfig where
  model : Option String
  name : Option String
  id : Option Int
  simulate : Option Bool
  hostname : Option String
  port : Option Int
  inputs : Option (List ComponentConfig)
  outputs : Option (List ComponentConfig)
  meters : Option (List ComponentConfig)
  deriving Repr, DecidableEq

/-- Registry-wide configuration consumed by `_add_devices_from_config`. -/
structure ShellySettings where
  responseTimeout : Option ℚ
  retryCount : Option Nat
  retryDelay : Option ℚ
  pingAllowed : Option Bool
  devices : Option (List DeviceConfig)

/-- Component kinds of the registry. -/
inductive CompType where
  | inputs
  | outputs
  | meters
  deriving Repr, DecidableEq

/-- Failure conditions of registry construction, each at the device (and
component) position where the source raises. -/
inductive BuildErr where
  | noModels (i : Nat)
  | modelNotFound (i : Nat)
  | metersMismatch (i : Nat)
  | hostnameMissing (i : Nat)
  | hostnameInvalid (i : Nat)
  | deviceNameDup (i : Nat)
  | deviceIdDup (i : Nat)
  | devicePresence (i : Nat)
  | invalidDeviceIndex (i : Nat)
  | compCount (i : Nat) (t : CompType)
  | compNameDup (i : Nat) (t : CompType) (k : Nat)
  | compIdDup (i : Nat) (t : CompType) (k : Nat)
  | compPresence (i : Nat) (t : CompType) (k : Nat)
  | importFailed (i : Nat) (e : TFail)
  deriving Repr, DecidableEq

/-- Model key looked up for a configured device: Python applies `str` to the
`Model` value, so an omitted key becomes the string `"None"`. -/
def modelKeyOf (cfg : DeviceConfig) : String := cfg.model.getD "None"

/-- Catalog lookup by model identifier. -/
def modelEntryFor (models : List ModelEntry) (key : String) : Option ModelEntry :=
  models.find? (fun m => m.model = key)

/-- Embedding of `ShellyControl._get_device_attributes`: builds the device
template from the catalog entry (with the source's defaults for missing
catalog fields) and validates that combined metering implies equal meter and
output counts. -/
def get_device_attributes (models : List ModelEntry) (i : Nat) (numDevices : Nat)
    (modelKey : String) : Except BuildErr DeviceRec :=
  if models.isEmpty then .error (.noModels i)
  else
    match modelEntryFor models modelKey with
    | none => .error (.modelNotFound i)
    | some entry =>
        let dev : DeviceRec :=
          { index := numDevices, model := modelKey, clientName := "", id := 0,
            simulate := false, simulationFile := none,
            modelName := entry.name.getD "Unknown Model Name", label := "",
            url := entry.url, hostname := none, port := 80,
            generation := entry.generation.getD 3, protocol := entry.protocol.getD "RPC",
            inputsCount := entry.inputs.getD 1, outputsCount := entry.outputs.getD 1,
            metersCount := entry.meters.getD 0,
            metersSeperate := entry.metersSeperate.getD false,
            temperatureMonitoring := entry.temperatureMonitoring.getD true,
            online := false, macAddress := none, temperature := none, uptime := none,
            restartRequired := none, totalPower := 0, totalEnergy := 0 }
        if dev.metersSeperate = false ∧ dev.metersCount ≠ dev.outputsCount then
          .error (.metersMismatch i)
        else .ok dev

/-- The device template `_get_device_attributes` builds from a resolved
model entry, named for reuse in the construction lemmas. -/
def attrsOf (entry : ModelEntry) (numDevices : Nat) (modelKey : String) : DeviceRec :=
  { index := numDevices, model := modelKey, clientName := "", id := 0,
    simulate := false, simulationFile := none,
    modelName := entry.name.getD "Unknown Model Name", label := "",
    url := entry.url, hostname := none, port := 80,
    generation := entry.generation.getD 3, protocol := entry.protocol.getD "RPC",
    inputsCount := entry.inputs.getD 1, outputsCount := entry.outputs.getD 1,
    metersCount := entry.meters.getD 0,
    metersSeperate := entry.metersSeperate.getD false,
    temperatureMonitoring := entry.temperatureMonitoring.getD true,
    online := false, macAddress := none, temperature := none, uptime := none,
    restartRequired := none, totalPower := 0, totalEnergy := 0 }

/-- Simulation file name of a device: the client name (or an ID-based
fallback when the name is falsy) with every non-alphanumeric character
replaced by an underscore, plus the `.json` suffix.  The missing
`SCCommon.select_file_location` is modelled as the identity on this name. -/
def simulationFileName (clientName : String) (id : Int) : String :=
  let base := if clientName = "" then "ShellyDevice_" ++ toString id else clientName
  (base.map (fun c => if c.isAlphanum then c else '_')) ++ ".json"

/-- Default name of the `k`-th freshly numbered component of a type, where
`listLen` is the current length of that type's registry list. -/
def componentIdentity (stem : String) (listLen : Nat) (cfg : Option ComponentConfig) :
    Int × String :=
  match cfg with
  | none => ((listLen : Int) + 1, stem ++ " " ++ toString (listLen + 1))
  | some c => (c.id.getD ((listLen : Int) + 1),
               c.name.getD (stem ++ " " ++ toString (listLen + 1)))

/-- Uniqueness and presence checks of `_add_device_components` for one new
component against the names and IDs already stored in its type's registry
list, in source order: name uniqueness, then ID uniqueness, then
presence. -/
def componentChecks (i : Nat) (t : CompType) (k : Nat) (names : List String)
    (ids : List Int) (cid : Int) (cname : String) : Option BuildErr :=
  if names.contains cname then some (.compNameDup i t k)
  else if ids.contains cid then some (.compIdDup i t k)
  else if cid = 0 ∧ cname = "" then some (.compPresence i t k)
  else none

/-- Component loop of `_add_device_components` for inputs. -/
def addInputsLoop (i : Nat) (cfgOpt : Option (List ComponentConfig)) :
    Nat → Nat → List InputRec → Except BuildErr (List InputRec)
  | 0, _, acc => .ok acc
  | n + 1, k, acc =>
      let idname := componentIdentity "Input" acc.length (cfgOpt.bind (fun l => l.get? k))
      match componentChecks i .inputs k (acc.map (fun c => c.name)) (acc.map (fun c => c.id))
          idname.1 idname.2 with
      | some e => .error e
      | none =>
          addInputsLoop i cfgOpt n (k + 1)
            (acc ++ [{ deviceIndex := i, componentIndex := k, id := idname.1,
                       name := idname.2, state := false }])

/-- Component loop of `_add_device_components` for outputs. -/
def addOutputsLoop (i : Nat) (metersSeperate : Bool) (cfgOpt : Option (List ComponentConfig)) :
    Nat → Nat → List OutputRec → Except BuildErr (List OutputRec)
  | 0, _, acc => .ok acc
  | n + 1, k, acc =>
      let idname := componentIdentity "Output" acc.length (cfgOpt.bind (fun l => l.get? k))
      match componentChecks i .outputs k (acc.map (fun c => c.name)) (acc.map (fun c => c.id))
          idname.1 idname.2 with
      | some e => .error e
      | none =>
          addOutputsLoop i metersSeperate cfgOpt n (k + 1)
            (acc ++ [{ deviceIndex := i, componentIndex := k, id := idname.1,
                       name := idname.2, hasMeter := !metersSeperate, state := false,
                       temperature := none }])

/-- Component loop of `_add_device_components` for meters. -/
def addMetersLoop (i : Nat) (metersSeperate : Bool) (cfgOpt : Option (List ComponentConfig)) :
    Nat → Nat → List MeterRec → Except BuildErr (List MeterRec)
  | 0, _, acc => .ok acc
  | n + 1, k, acc =>
      let idname := componentIdentity "Meter" acc.length (cfgOpt.bind (fun l => l.get? k))
      match componentChecks i .meters k (acc.map (fun c => c.name)) (acc.map (fun c => c.id))
          idname.1 idname.2 with
      | some e => .error e
      | none =>
          addMetersLoop i metersSeperate cfgOpt n (k + 1)
            (acc ++ [{ deviceIndex := i, componentIndex := k, id := idname.1,
                       name := idname.2, onOutput := !metersSeperate, state := false,
                       power := none, voltage := none, current := none,
                       powerFactor := none, energy := none }])

/-- Embedding of `ShellyControl._add_device_components`: validates the
device index, the declared component count when an explicit list is
configured, and materializes the components with sequential defaults and
per-component uniqueness / presence checks. -/
def add_device_components (st : ShellyState) (device_index : Nat) (t : CompType)
    (cfgOpt : Option (List ComponentConfig)) : Except BuildErr ShellyState :=
  match st.devices.get? device_index with
  | none => .error (.invalidDeviceIndex device_index)
  | some device =>
      let expected := match t with
        | .inputs => device.inputsCount
        | .outputs => device.outputsCount
        | .meters => device.metersCount
      let badCount := match cfgOpt with
        | none => false
        | some l => decide (l.length ≠ expected)
      if badCount then .error (.compCount device_index t)
      else
        match t with
        | .inputs =>
            (addInputsLoop device_index cfgOpt expected 0 st.inputs).map
              (fun l => { st with inputs := l })
        | .outputs =>
            (addOutputsLoop device_index device.metersSeperate cfgOpt expected 0 st.outputs).map
              (fun l => { st with outputs := l })
        | .meters =>
            (addMetersLoop device_index device.metersSeperate cfgOpt expected 0 st.meters).map
              (fun l => { st with meters := l })

/-- Device record `_add_device` assembles for one configured device from
the model template: the configured identity with its defaults, the label,
the network address, and (in simulation mode) the derived simulation file
name. -/
def mkConfiguredDevice (attrs : DeviceRec) (i : Nat) (cfg : DeviceConfig) : DeviceRec :=
  let clientName := cfg.name.getD ("Shelly Device " ++ toString (i + 1))
  let idv := cfg.id.getD ((i : Int) + 1)
  let simulate := cfg.simulate.getD false
  let dev : DeviceRec :=
    { attrs with index := i, clientName := clientName, id := idv, simulate := simulate,
                 label := clientName ++ " (ID: " ++ toString idv ++ ")",
                 hostname := cfg.hostname, port := cfg.port.getD 80 }
  if simulate then { dev with simulationFile := some (simulationFileName clientName idv) }
  else dev

/-- Embedding of `ShellyControl._add_device`: builds the device template
from the catalog, fills in the configured identity with its defaults,
validates (in source order) hostname presence outside simulation mode,
hostname validity, name uniqueness, ID uniqueness and ID/name presence,
derives the simulation file name, appends the device, materializes its
components, and finally reads (or creates) the simulation file. -/
def add_device (models : List ModelEntry) (validHost : String → Bool) (st : ShellyState)
    (cfg : DeviceConfig) : Except BuildErr ShellyState :=
  let device_index := st.devices.length
  match get_device_attributes models device_index st.devices.length (modelKeyOf cfg) with
  | .error e => .error e
  | .ok attrs =>
      let clientName := cfg.name.getD ("Shelly Device " ++ toString (device_index + 1))
      let idv := cfg.id.getD ((device_index : Int) + 1)
      let simulate := cfg.simulate.getD false
      if simulate = false ∧ cfg.hostname.getD "" = "" then
        .error (.hostnameMissing device_index)
      else if cfg.hostname.getD "" ≠ "" ∧ validHost (cfg.hostname.getD "") = false then
        .error (.hostnameInvalid device_index)
      else if st.devices.any (fun d => d.clientName = clientName) then
        .error (.deviceNameDup device_index)
      else if st.devices.any (fun d => d.id = idv) then
        .error (.deviceIdDup device_index)
      else if idv = 0 ∧ clientName = "" then
        .error (.devicePresence device_index)
      else
        let dev1 := mkConfiguredDevice attrs device_index cfg
        let st1 := { st with devices := st.devices ++ [dev1] }
        match add_device_components st1 device_index .inputs cfg.inputs with
        | .error e => .error e
        | .ok st2 =>
            match add_device_components st2 device_index .outputs cfg.outputs with
            | .error e => .error e
            | .ok st3 =>
                match add_device_components st3 device_index .meters cfg.meters with
                | .error e => .error e
                | .ok st4 =>
                    match import_device_information_from_json st4 dev1 true with
                    | (_, .error e) => .error (.importFailed device_index e)
                    | (st5, .ok _) => .ok st5

/-- Device loop of `_add_devices_from_config`. -/
def addDevicesLoop (models : List ModelEntry) (validHost : String → Bool) :
    List DeviceConfig → ShellyState → Except BuildErr ShellyState
  | [], st => .ok st
  | c :: cs, st =>
      match add_device models validHost st c with
      | .error e => .error e
      | .ok st1 => addDevicesLoop models validHost cs st1

/-- Embedding of `ShellyControl._add_devices_from_config`: loads the
registry-wide settings with their defaults, unconditionally clears the
registry, and adds every configured device in order. -/
def add_devices_from_config (models : List ModelEntry) (validHost : String → Bool)
    (st : ShellyState) (settings : ShellySettings) : Except BuildErr ShellyState :=
  let st0 := { st with
    responseTimeout := settings.responseTimeout.getD st.responseTimeout,
    retryCount := settings.retryCount.getD st.retryCount,
    retryDelay := settings.retryDelay.getD st.retryDelay,
    pingAllowed := settings.pingAllowed.getD true,
    devices := [], inputs := [], outputs := [], meters := [] }
  addDevicesLoop models validHost (settings.devices.getD []) st0

/-- Static part of a device record: everything except the runtime-observed
fields that status refreshes overwrite. -/
def DeviceRec.static (d : DeviceRec) : DeviceRec :=
  { d with online := false, macAddress := none, temperature := none, uptime := none,
           restartRequired := none, totalPower := 0, totalEnergy := 0 }

/-- Static part of an input record (everything except the state). -/
def InputRec.static (c : InputRec) : InputRec := { c with state := false }

/-- Static part of an output record (everything except state and
temperature). -/
def OutputRec.static (c : OutputRec) : OutputRec := { c with state := false, temperature := none }

/-- Static part of a meter record (everything except the readings). -/
def MeterRec.static (c : MeterRec) : MeterRec :=
  { c with power := none, voltage := none, current := none, powerFactor := none, energy := none }

/-- Static projection of a registry state: the structure a status refresh or
output command never changes — device and component skeletons plus the
registry-wide transport settings. -/
def ShellyState.staticProj (st : ShellyState) :
    List DeviceRec × List InputRec × List OutputRec × List MeterRec × ℚ × Nat × ℚ × Bool :=
  (st.devices.map DeviceRec.static, st.inputs.map InputRec.static,
   st.outputs.map OutputRec.static, st.meters.map MeterRec.static,
   st.responseTimeout, st.retryCount, st.retryDelay, st.pingAllowed)

/-- Default client name synthesized for the device at a position
(spec: `"Shelly Device {index+1}"`). -/
def specDefaultName (i : Nat) : String := "Shelly Device " ++ toString (i + 1)

/-- Effective client name of a configured device: the configured one or the
synthesized default. -/
def specEffName (i : Nat) (cfg : DeviceConfig) : String := cfg.name.getD (specDefaultName i)

/-- Effective numeric ID of a configured device: the configured one or the
position-based default. -/
def specEffId (i : Nat) (cfg : DeviceConfig) : Int := cfg.id.getD ((i : Int) + 1)

/-- Configured component list of a device for one component type. -/
def specCompCfg (cfg : DeviceConfig) : CompType → Option (List ComponentConfig)
  | .inputs => cfg.inputs
  | .outputs => cfg.outputs
  | .meters => cfg.meters

/-- Display stem of the synthesized default component names. -/
def specStem : CompType → String
  | .inputs => "Input"
  | .outputs => "Output"
  | .meters => "Meter"

/-- Component count a device's model descriptor declares for one type (zero
when the model cannot be resolved; construction fails earlier in that
case). -/
def specDeclCount (models : List ModelEntry) (cfg : DeviceConfig) (t : CompType) : Nat :=
  match modelEntryFor models (modelKeyOf cfg) with
  | none => 0
  | some entry =>
      match t with
      | .inputs => entry.inputs.getD 1
      | .outputs => entry.outputs.getD 1
      | .meters => entry.meters.getD 0

/-- Number of components of one type contributed by the devices before a
given position: the length of that type's registry list when the device at
the position starts materializing its components. -/
def specTotalBefore (models : List ModelEntry) (cfgs : List DeviceConfig) (i : Nat)
    (t : CompType) : Nat :=
  (((cfgs.take i).map (fun c => specDeclCount models c t)).sum)

/-- Effective identity (ID, name) of the `k`-th component of one type of the
device at position `i`: the configured entry's fields, with sequentially
numbered defaults based on the global position in the type's registry
list. -/
def specCompIdent (models : List ModelEntry) (cfgs : List DeviceConfig) (t : CompType)
    (i : Nat) (cfg : DeviceConfig) (k : Nat) : Int × String :=
  let pos := specTotalBefore models cfgs i t + k
  match (specCompCfg cfg t).bind (fun l => l.get? k) with
  | none => ((pos : Int) + 1, specStem t ++ " " ++ toString (pos + 1))
  | some c => (c.id.getD ((pos : Int) + 1), c.name.getD (specStem t ++ " " ++ toString (pos + 1)))

/-- Effective identities of all components of one type that precede the
`k`-th component of the device at position `i` in the type's registry
list. -/
def specPrevIdents (models : List ModelEntry) (cfgs : List DeviceConfig) (t : CompType)
    (i : Nat) (cfg : DeviceConfig) (k : Nat) : List (Int × String) :=
  ((cfgs.take i).enum.flatMap (fun p =>
      (List.range (specDeclCount models p.2 t)).map
        (fun l => specCompIdent models cfgs t p.1 p.2 l)))
    ++ (List.range k).map (fun l => specCompIdent models cfgs t i cfg l)

/-- First violated per-component check (name uniqueness, then ID uniqueness,
then presence) of one component, in spec order. -/
def specCompErrAt (models : List ModelEntry) (cfgs : List DeviceConfig) (t : CompType)
    (i : Nat) (cfg : DeviceConfig) (k : Nat) : Option BuildErr :=
  let cur := specCompIdent models cfgs t i cfg k
  let prev := specPrevIdents models cfgs t i cfg k
  if prev.any (fun p => p.2 = cur.2) then some (.compNameDup i t k)
  else if prev.any (fun p => p.1 = cur.1) then some (.compIdDup i t k)
  else if cur.1 = 0 ∧ cur.2 = "" then some (.compPresence i t k)
  else none

/-- First violated check of one component type of a device: the declared
count when an explicit list is configured, then the per-component checks in
channel order. -/
def specCompTypeErr (models : List ModelEntry) (cfgs : List DeviceConfig) (i : Nat)
    (cfg : DeviceConfig) (t : CompType) : Option BuildErr :=
  let declared := specDeclCount models cfg t
  let badCount := match specCompCfg cfg t with
    | none => false
    | some l => decide (l.length ≠ declared)
  if badCount then some (.compCount i t)
  else (List.range declared).findSome? (fun k => specCompErrAt models cfgs t i cfg k)

/-- First violated device-level check of the device at position `i`, in spec
order: model resolution, the meters/outputs agreement of the descriptor,
hostname presence outside simulation, hostname validity, name uniqueness,
ID uniqueness, then presence of at least one of ID and name. -/
def specDeviceErr (models : List ModelEntry) (validHost : String → Bool)
    (cfgs : List DeviceConfig) (i : Nat) (cfg : DeviceConfig) : Option BuildErr :=
  if models.isEmpty then some (.noModels i)
  else
    match modelEntryFor models (modelKeyOf cfg) with
    | none => some (.modelNotFound i)
    | some entry =>
        if entry.metersSeperate.getD false = false ∧
            entry.meters.getD 0 ≠ entry.outputs.getD 1 then some (.metersMismatch i)
        else if cfg.simulate.getD false = false ∧ cfg.hostname.getD "" = "" then
          some (.hostnameMissing i)
        else if cfg.hostname.getD "" ≠ "" ∧ validHost (cfg.hostname.getD "") = false then
          some (.hostnameInvalid i)
        else if (cfgs.take i).enum.any (fun p => specEffName p.1 p.2 = specEffName i cfg) then
          some (.deviceNameDup i)
        else if (cfgs.take i).enum.any (fun p => specEffId p.1 p.2 = specEffId i cfg) then
          some (.deviceIdDup i)
        else if specEffId i cfg = 0 ∧ specEffName i cfg = "" then
          some (.devicePresence i)
        else none

/-- First violated check of the device at position `i`, device-level checks
before the inputs, outputs and meters component checks. -/
def specDeviceFullErr (models : List ModelEntry) (validHost : String → Bool)
    (cfgs : List DeviceConfig) (i : Nat) (cfg : DeviceConfig) : Option BuildErr :=
  (specDeviceErr models validHost cfgs i cfg).orElse (fun _ =>
    (specCompTypeErr models cfgs i cfg .inputs).orElse (fun _ =>
      (specCompTypeErr models cfgs i cfg .outputs).orElse (fun _ =>
        specCompTypeErr models cfgs i cfg .meters)))

/-- First construction error of a configured device list, scanning devices
in order and stopping at the first violated check. -/
def specFirstError (models : List ModelEntry) (validHost : String → Bool)
    (cfgs : List DeviceConfig) : Option BuildErr :=
  cfgs.enum.findSome? (fun p => specDeviceFullErr models validHost cfgs p.1 p.2)

/-- Positional scan form of the first construction error: the device checks
of a remaining configuration list starting at a position. -/
def specErrScan (models : List ModelEntry) (validHost : String → Bool)
    (cfgs : List DeviceConfig) : Nat → List DeviceConfig → Option BuildErr
  | _, [] => none
  | i, c :: rest =>
      (specDeviceFullErr models validHost cfgs i c).orElse
        (fun _ => specErrScan models validHost cfgs (i + 1) rest)

/-- Violation of one of the invariants §3 of the specification states for a
configured device list: device name or ID uniqueness, ID/name presence,
component-count agreement with the model descriptor, meter/output count
agreement for combined metering, hostname presence outside simulation mode,
and component name / ID uniqueness and presence within each type list. -/
def sec3Violated (models : List ModelEntry) (cfgs : List DeviceConfig) : Bool :=
  -- device name and ID uniqueness, and ID/name presence
  (cfgs.enum.any (fun p => (cfgs.take p.1).enum.any
      (fun q => specEffName q.1 q.2 = specEffName p.1 p.2))) ||
  (cfgs.enum.any (fun p => (cfgs.take p.1).enum.any
      (fun q => specEffId q.1 q.2 = specEffId p.1 p.2))) ||
  (cfgs.enum.any (fun p => specEffId p.1 p.2 = 0 ∧ specEffName p.1 p.2 = "")) ||
  -- a device without a network address must be in simulation mode
  (cfgs.any (fun c => c.simulate.getD false = false ∧ c.hostname.getD "" = "")) ||
  -- declared component counts must match explicit component lists
  (cfgs.enum.any (fun p => [CompType.inputs, CompType.outputs, CompType.meters].any (fun t =>
      match specCompCfg p.2 t with
      | none => false
      | some l => decide (l.length ≠ specDeclCount models p.2 t)))) ||
  -- combined metering requires equal meter and output counts
  (cfgs.any (fun c =>
      match modelEntryFor models (modelKeyOf c) with
      | none => false
      | some entry => entry.metersSeperate.getD false = false ∧
          entry.meters.getD 0 ≠ entry.outputs.getD 1)) ||
  -- component name / ID uniqueness and presence within each type list
  (cfgs.enum.any (fun p => [CompType.inputs, CompType.outputs, CompType.meters].any (fun t =>
      (List.range (specDeclCount models p.2 t)).any
        (fun k => (specCompErrAt models cfgs t p.1 p.2 k).isSome))))

/-- Neutral device record used to build concrete test fixtures. -/
def baseDevice : DeviceRec :=
  { index := 0, model := "M1", clientName := "Dev", id := 1, simulate := false,
    simulationFile := none, modelName := "Model One", label := "Dev (ID: 1)", url := none,
    hostname := some "host", port := 80, generation := 2, protocol := "RPC",
    inputsCount := 0, outputsCount := 0, metersCount := 0, metersSeperate := false,
    temperatureMonitoring := false, online := false, macAddress := none, temperature := none,
    uptime := none, restartRequired := none, totalPower := 0, totalEnergy := 0 }

/-- Empty registry with the source's default transport settings. -/
def baseState : ShellyState :=
  { devices := [], inputs := [], outputs := [], meters := [], responseTimeout := 5,
    retryCount := 1, retryDelay := 2, pingAllowed := true, files := [] }

/-- Oracle on which every request attempt times out and every ping fails. -/
def envDead : NetEnv :=
  { ping := fun _ => false, rest := fun _ _ _ _ => .timeout, rpc := fun _ _ _ _ => .timeout }

/-- Oracle on which pings succeed but every request attempt times out. -/
def envAllTimeout : NetEnv :=
  { ping := fun _ => true, rest := fun _ _ _ _ => .timeout, rpc := fun _ _ _ _ => .timeout }

/-- Device fixture of the aggregate-totals example: three meters. -/
def devTotals : DeviceRec := { baseDevice with metersCount := 3 }

/-- Meter fixture reading a given power. -/
def mkMeter (ci : Nat) (p : Option ℚ) : MeterRec :=
  { deviceIndex := 0, componentIndex := ci, id := (ci : Int) + 1,
    name := "Meter " ++ toString (ci + 1), onOutput := true, state := false, power := p,
    voltage := none, current := none, powerFactor := none, energy := p }

/-- Registry fixture of the aggregate-totals example: meters reading
5 W, 3 W and an unset value. -/
def stTotals : ShellyState :=
  { baseState with devices := [devTotals],
                   meters := [mkMeter 0 (some 5), mkMeter 1 (some 3), mkMeter 2 none] }

/-- Device fixture of the temperature-average example: temperature
monitoring with two outputs. -/
def devTemp : DeviceRec := { baseDevice with outputsCount := 2, temperatureMonitoring := true }

/-- Output fixture reporting a given temperature. -/
def mkOutput (ci : Nat) (t : Option ℚ) : OutputRec :=
  { deviceIndex := 0, componentIndex := ci, id := (ci : Int) + 1,
    name := "Output " ++ toString (ci + 1), hasMeter := true, state := false, temperature := t }

/-- Registry fixture of the temperature-average example: one output at 0 °C
and one at 10 °C. -/
def stTemp : ShellyState :=
  { baseState with devices := [devTemp], outputs := [mkOutput 0 (some 0), mkOutput 1 (some 10)] }

/-- Method name of an RPC payload, used by oracle fixtures to dispatch. -/
def getMethod (p : JVal) : String :=
  match p.getKey "method" with
  | some (.str s) => s
  | _ => ""

/-- Device fixture of the separate-meters status call: an RPC device with
one output and one separate meter channel. -/
def devEM : DeviceRec :=
  { baseDevice with outputsCount := 1, metersCount := 1, metersSeperate := true }

/-- Registry fixture of the separate-meters status call. -/
def stEM : ShellyState :=
  { baseState with devices := [devEM],
                   outputs := [mkOutput 0 none],
                   meters := [mkMeter 0 none] }

/-- Oracle fixture of the separate-meters status call: the device pings as
online and every RPC call succeeds — `Shelly.GetStatus` with system and
switch sections, and both per-channel meter calls with readings. -/
def envEM : NetEnv :=
  { ping := fun _ => true,
    rest := fun _ _ _ _ => .timeout,
    rpc := fun _ _ p _ =>
      if getMethod p = "Shelly.GetStatus" then
        .http 200 (.obj [("result", .obj
          [("sys", .obj [("mac", .str "AA:BB"), ("uptime", .num 12)]),
           ("switch:0", .obj [("output", .bool true)])])])
      else if getMethod p = "EM1.GetStatus" then
        .http 200 (.obj [("result", .obj [("act_power", .num 5), ("voltage", .num 230)])])
      else if getMethod p = "EM1Data.GetStatus" then
        .http 200 (.obj [("result", .obj [("total_act_energy", .num 7)])])
      else
        .http 200 (.obj [("result", .obj [("was_on", .bool false)])]) }

/-- Device fixture of the offline command scenario: a live RPC device with
one output and combined metering. -/
def devOffline : DeviceRec :=
  { baseDevice with outputsCount := 1, metersCount := 1, metersSeperate := false }

/-- Registry fixture of the offline command scenario. -/
def stOffline : ShellyState :=
  { baseState with devices := [devOffline],
                   outputs := [mkOutput 0 none],
                   meters := [mkMeter 0 none] }

/-- Simulated device fixture of the idempotence and round-trip scenarios. -/
def devSim : DeviceRec :=
  { baseDevice with simulate := true, hostname := none, outputsCount := 1,
                    simulationFile := some "Dev.json" }

/-- Registry fixture of the idempotence and round-trip scenarios. -/
def stSim : ShellyState :=
  { baseState with devices := [devSim], outputs := [mkOutput 0 none] }

/-- Catalog fixture: a single RPC model with one input, one output and one
combined meter. -/
def modelsFix : List ModelEntry :=
  [{ model := "M1", name := some "Model One", url := none, generation := some 2,
     protocol := some "RPC", inputs := some 1, outputs := some 1, meters := some 1,
     metersSeperate := some false, temperatureMonitoring := some false }]

/-- Valid configuration fixture: one simulated device of the catalog
model. -/
def cfgOk : DeviceConfig :=
  { model := some "M1", name := some "Dev", id := some 1, simulate := some true,
    hostname := none, port := none, inputs := none, outputs := none, meters := none }

/-- Configuration fixture referencing a model absent from the catalog. -/
def cfgBadModel : DeviceConfig :=
  { model := some "X", name := some "Dev", id := some 1, simulate := some false,
    hostname := some "host", port := none, inputs := none, outputs := none, meters := none }

/-- Configuration fixture that explicitly supplies a falsy name and a falsy
ID. -/
def cfgFalsy : DeviceConfig :=
  { model := some "M1", name := some "", id := some 0, simulate := some true,
    hostname := none, port := none, inputs := none, outputs := none, meters := none }

/-- Settings fixture wrapping a device list with the default global keys. -/
def mkSettings (cfgs : List DeviceConfig) : ShellySettings :=
  { responseTimeout := none, retryCount := none, retryDelay := none, pingAllowed := none,
    devices := some cfgs }

/-- Whether the model descriptor of a configured device declares separate
metering. -/
def specMetersSep (models : List ModelEntry) (cfg : DeviceConfig) : Bool :=
  match modelEntryFor models (modelKeyOf cfg) with
  | none => false
  | some entry => entry.metersSeperate.getD false

/-- Device record that construction stores for the configured device at a
position, expressed through the effective identities. -/
def builtDevice (models : List ModelEntry) (i : Nat) (cfg : DeviceConfig) : DeviceRec :=
  match get_device_attributes models i i (modelKeyOf cfg) with
  | .error _ => baseDevice
  | .ok attrs => mkConfiguredDevice attrs i cfg

/-- Device list after the first `i` configured devices are added. -/
def builtDevices (models : List ModelEntry) (cfgs : List DeviceConfig) (i : Nat) :
    List DeviceRec :=
  (cfgs.take i).enum.map (fun p => builtDevice models p.1 p.2)

/-- Input record construction stores for channel `k` of the device at a
position. -/
def mkBuiltInput (models : List ModelEntry) (cfgs : List DeviceConfig)
    (p : Nat × DeviceConfig) (k : Nat) : InputRec :=
  { deviceIndex := p.1, componentIndex := k,
    id := (specCompIdent models cfgs .inputs p.1 p.2 k).1,
    name := (specCompIdent models cfgs .inputs p.1 p.2 k).2, state := false }

/-- Input list after the first `i` configured devices are added. -/
def builtInputs (models : List ModelEntry) (cfgs : List DeviceConfig) (i : Nat) :
    List InputRec :=
  (cfgs.take i).enum.flatMap (fun p =>
    (List.range (specDeclCount models p.2 .inputs)).map (mkBuiltInput models cfgs p))

/-- Output record construction stores for channel `k` of the device at a
position. -/
def mkBuiltOutput (models : List ModelEntry) (cfgs : List DeviceConfig)
    (p : Nat × DeviceConfig) (k : Nat) : OutputRec :=
  { deviceIndex := p.1, componentIndex := k,
    id := (specCompIdent models cfgs .outputs p.1 p.2 k).1,
    name := (specCompIdent models cfgs .outputs p.1 p.2 k).2,
    hasMeter := !(specMetersSep models p.2), state := false, temperature := none }

/-- Output list after the first `i` configured devices are added. -/
def builtOutputs (models : List ModelEntry) (cfgs : List DeviceConfig) (i : Nat) :
    List OutputRec :=
  (cfgs.take i).enum.flatMap (fun p =>
    (List.range (specDeclCount models p.2 .outputs)).map (mkBuiltOutput models cfgs p))

/-- Meter record construction stores for channel `k` of the device at a
position. -/
def mkBuiltMeter (models : List ModelEntry) (cfgs : List DeviceConfig)
    (p : Nat × DeviceConfig) (k : Nat) : MeterRec :=
  { deviceIndex := p.1, componentIndex := k,
    id := (specCompIdent models cfgs .meters p.1 p.2 k).1,
    name := (specCompIdent models cfgs .meters p.1 p.2 k).2,
    onOutput := !(specMetersSep models p.2), state := false, power := none, voltage := none,
    current := none, powerFactor := none, energy := none }

/-- Meter list after the first `i` configured devices are added. -/
def builtMeters (models : List ModelEntry) (cfgs : List DeviceConfig) (i : Nat) :
    List MeterRec :=
  (cfgs.take i).enum.flatMap (fun p =>
    (List.range (specDeclCount models p.2 .meters)).map (mkBuiltMeter models cfgs p))

/-- Invariant of the construction fold after the first `i` configured
devices succeeded: the registry lists are the built ones and the file store
holds only simulation files of already-processed simulated devices. -/
def BuildInv (models : List ModelEntry) (cfgs : List DeviceConfig) (i : Nat)
    (st : ShellyState) : Prop :=
  st.devices = builtDevices models cfgs i ∧
  st.inputs = builtInputs models cfgs i ∧
  st.outputs = builtOutputs models cfgs i ∧
  st.meters = builtMeters models cfgs i ∧
  (∀ pv ∈ st.files, ∃ j, j < i ∧ ∃ cfg, cfgs.get? j = some cfg ∧
      cfg.simulate.getD false = true ∧
      pv.1 = simulationFileName (specEffName j cfg) (specEffId j cfg))

/-- Context in which a device keeps probing as offline: pinging is enabled
and the registry stores, at the device's index, a record with the same
static fields. -/
def OfflineCtx (env : NetEnv) (device : DeviceRec) (st : ShellyState) : Prop :=
  st.pingAllowed = true ∧
  ∃ dj, st.devices.get? device.index = some dj ∧ dj.static = device.static

/-- Distinctness of the derived simulation file names of the simulated
configured devices. -/
def DistinctSimFiles (cfgs : List DeviceConfig) : Prop :=
  ∀ j1 j2 c1 c2, j1 < j2 → cfgs.get? j1 = some c1 → cfgs.get? j2 = some c2 →
    c1.simulate.getD false = true → c2.simulate.getD false = true →
    simulationFileName (specEffName j1 c1) (specEffId j1 c1) ≠
      simulationFileName (specEffName j2 c2) (specEffId j2 c2)

/-- First stage of `_calculate_device_totals`: the totals update applied
when the device has meters. -/
def calcStage1 (st : ShellyState) (d : DeviceRec) : DeviceRec :=
  if d.metersCount > 0 then
    { d with totalPower := (sumMeterReadings d.index st.meters (0, 0)).1,
             totalEnergy := (sumMeterReadings d.index st.meters (0, 0)).2 }
  else d

/-- Correspondence of two fallible reconciliation results up to a static
projection: both fail with the same error, or both succeed with results of
the same static part. -/
def ExceptRel {α : Type} (sf : α → α) : Except TFail α → Except TFail α → Prop
  | .error e, .error e2 => e = e2
  | .ok x, .ok y => sf x = sf y
  | _, _ => False

/-- Correspondence of two fallible list-reconciliation results up to a
static projection. -/
def ExceptRelL {α : Type} (sf : α → α) : Except TFail (List α) → Except TFail (List α) → Prop
  | .error e, .error e2 => e = e2
  | .ok xs, .ok ys => xs.map sf = ys.map sf
  | _, _ => False

/-! ## Lemmas about the derived aggregates -/

theorem sumMeterReadings_eq (idx : Nat) (ms : List MeterRec) (p e : ℚ) :
    sumMeterReadings idx ms (p, e) =
      (p + ((ms.filter (fun m => m.deviceIndex = idx)).map (fun m => m.power.getD 0)).sum,
       e + ((ms.filter (fun m => m.deviceIndex = idx)).map (fun m => m.energy.getD 0)).sum) := by
  induction ms generalizing p e with
  | nil => simp [sumMeterReadings]
  | cons m ms ih =>
      by_cases h : m.deviceIndex = idx
      · rw [sumMeterReadings, if_pos h, ih]
        have hf : (m :: ms).filter (fun x => x.deviceIndex = idx) =
            m :: ms.filter (fun x => x.deviceIndex = idx) := by
          simp [List.filter_cons, h]
        rw [hf]
        simp only [List.map_cons, List.sum_cons, Prod.mk.injEq]
        constructor <;> ring
      · rw [sumMeterReadings, if_neg h, ih]
        have hf : (m :: ms).filter (fun x => x.deviceIndex = idx) =
            ms.filter (fun x => x.deviceIndex = idx) := by
          simp [List.filter_cons, h]
        rw [hf]

theorem sumOutputTemps_eq (idx : Nat) (os : List OutputRec) (c s : ℚ) :
    sumOutputTemps idx os (c, s) =
      (c + ((os.filter (fun o => o.deviceIndex = idx ∧ optTruthy o.temperature)).length : ℚ),
       s + ((os.filter (fun o => o.deviceIndex = idx ∧ optTruthy o.temperature)).map
              (fun o => o.temperature.getD 0)).sum) := by
  induction os generalizing c s with
  | nil => simp [sumOutputTemps]
  | cons o os ih =>
      by_cases h : o.deviceIndex = idx ∧ optTruthy o.temperature
      · rw [sumOutputTemps, if_pos h, ih]
        have hf : (o :: os).filter (fun x => x.deviceIndex = idx ∧ optTruthy x.temperature) =
            o :: os.filter (fun x => x.deviceIndex = idx ∧ optTruthy x.temperature) := by
          simp [List.filter_cons, h.1, h.2]
        rw [hf]
        simp only [List.length_cons, List.map_cons, List.sum_cons, Prod.mk.injEq]
        constructor
        · push_cast; ring
        · ring
      · rw [sumOutputTemps, if_neg h, ih]
        have hf : (o :: os).filter (fun x => x.deviceIndex = idx ∧ optTruthy x.temperature) =
            os.filter (fun x => x.deviceIndex = idx ∧ optTruthy x.temperature) := by
          simp only [List.filter_cons]
          rw [if_neg (by simpa using h)]
        rw [hf]

theorem tempStage_keeps_totals (st : ShellyState) (dd : DeviceRec) :
    (if dd.temperatureMonitoring ∧ dd.outputsCount > 0 then
      (if (sumOutputTemps dd.index st.outputs (0, 0)).1 > 0 then
        { dd with temperature := some ((sumOutputTemps dd.index st.outputs (0, 0)).2 /
            (sumOutputTemps dd.index st.outputs (0, 0)).1) }
       else dd)
     else dd).totalPower = dd.totalPower ∧
    (if dd.temperatureMonitoring ∧ dd.outputsCount > 0 then
      (if (sumOutputTemps dd.index st.outputs (0, 0)).1 > 0 then
        { dd with temperature := some ((sumOutputTemps dd.index st.outputs (0, 0)).2 /
            (sumOutputTemps dd.index st.outputs (0, 0)).1) }
       else dd)
     else dd).totalEnergy = dd.totalEnergy := by
  by_cases h2 : dd.temperatureMonitoring ∧ dd.outputsCount > 0
  · rw [if_pos h2]
    by_cases h3 : (sumOutputTemps dd.index st.outputs (0, 0)).1 > 0
    · rw [if_pos h3]; exact ⟨rfl, rfl⟩
    · rw [if_neg h3]; exact ⟨rfl, rfl⟩
  · rw [if_neg h2]; exact ⟨rfl, rfl⟩

/-- Zeta-reduced closed form of `_calculate_device_totals`. -/
theorem calculate_device_totals_eq (st : ShellyState) (d : DeviceRec) :
    calculate_device_totals st d =
      (if (calcStage1 st d).temperatureMonitoring ∧ (calcStage1 st d).outputsCount > 0 then
        (if (sumOutputTemps (calcStage1 st d).index st.outputs (0, 0)).1 > 0 then
          { calcStage1 st d with
            temperature := some ((sumOutputTemps (calcStage1 st d).index st.outputs (0, 0)).2 /
              (sumOutputTemps (calcStage1 st d).index st.outputs (0, 0)).1) }
         else calcStage1 st d)
       else calcStage1 st d) := rfl

/-- C4: for every device with at least one meter, `_calculate_device_totals`
sets the device TotalPower to the sum of its meters' Power values (unset
counted as zero) and its TotalEnergy to the sum of its meters' Energy
values (unset counted as zero). -/
theorem device_totals_sum (st : ShellyState) (d : DeviceRec) (h : 0 < d.metersCount) :
    (calculate_device_totals st d).totalPower = specTotalPower st d ∧
    (calculate_device_totals st d).totalEnergy = specTotalEnergy st d := by
  rw [calculate_device_totals_eq]
  have hs := tempStage_keeps_totals st (calcStage1 st d)
  refine ⟨hs.1.trans ?_, hs.2.trans ?_⟩
  · unfold calcStage1
    rw [if_pos h, sumMeterReadings_eq]
    simp [specTotalPower, metersOf]
  · unfold calcStage1
    rw [if_pos h, sumMeterReadings_eq]
    simp [specTotalEnergy, metersOf]

/-- Witness of C4 on the fixture of the spec's example: meters reading 5 W,
3 W and an unset value yield a total power of 8 W. -/
theorem device_totals_sum_witness :
    0 < devTotals.metersCount ∧
    (calculate_device_totals stTotals devTotals).totalPower = specTotalPower stTotals devTotals ∧
    specTotalPower stTotals devTotals = 8 :=
  ⟨by decide, (device_totals_sum stTotals devTotals (by decide)).1, by
    simp [specTotalPower, metersOf, stTotals, devTotals, mkMeter, baseDevice, baseState]
    norm_num⟩

/-- C5, counterexample: with outputs reporting 0 °C and 10 °C the code
stores 10 °C (a zero temperature is falsy and excluded), not the 5 °C mean
of the non-null temperatures the claim asserts. -/
theorem device_temperature_mean_counterexample :
    (calculate_device_totals stTemp devTemp).temperature ≠ specMeanNonNullTemp stTemp devTemp ∧
    (calculate_device_totals stTemp devTemp).temperature = some 10 ∧
    specMeanNonNullTemp stTemp devTemp = some 5 := by
  have hcode : (calculate_device_totals stTemp devTemp).temperature = some 10 := by
    simp only [calculate_device_totals, stTemp, devTemp, sumOutputTemps, mkOutput, optTruthy,
      baseDevice, calcStage1]
    norm_num
  have hspec : specMeanNonNullTemp stTemp devTemp = some 5 := by
    have hts : (outputsOf stTemp devTemp.index).filterMap (fun o => o.temperature) =
        [0, 10] := rfl
    unfold specMeanNonNullTemp
    rw [hts]
    simp [List.sum_cons, List.sum_nil]
    norm_num
  refine ⟨?_, hcode, hspec⟩
  rw [hcode, hspec]
  intro hcontra
  have : (10 : ℚ) = 5 := Option.some.inj hcontra
  norm_num at this

/-- C5, amended: for every device with temperature monitoring and at least
one output, `_calculate_device_totals` sets the device Temperature to the
arithmetic mean of the outputs' truthy (non-null and non-zero) temperatures,
and leaves it unchanged (hence unset if previously unset) when every output
temperature is null or zero. -/
theorem device_temperature_mean_truthy (st : ShellyState) (d : DeviceRec)
    (hm : d.temperatureMonitoring = true) (ho : 0 < d.outputsCount) :
    (truthyTemps st d ≠ [] →
      (calculate_device_totals st d).temperature =
        some ((truthyTemps st d).sum / ((truthyTemps st d).length : ℚ))) ∧
    (truthyTemps st d = [] → (calculate_device_totals st d).temperature = d.temperature) := by
  have hidx : (calcStage1 st d).index = d.index := by unfold calcStage1; split <;> rfl
  have htm : (calcStage1 st d).temperatureMonitoring = d.temperatureMonitoring := by
    unfold calcStage1; split <;> rfl
  have hoc : (calcStage1 st d).outputsCount = d.outputsCount := by
    unfold calcStage1; split <;> rfl
  have htp : (calcStage1 st d).temperature = d.temperature := by
    unfold calcStage1; split <;> rfl
  rw [calculate_device_totals_eq, htm, hoc, hidx]
  rw [if_pos (show d.temperatureMonitoring = true ∧ d.outputsCount > 0 from ⟨hm, ho⟩)]
  rw [sumOutputTemps_eq]
  constructor
  · intro hne
    have hlen : 0 < (truthyTemps st d).length := List.length_pos.mpr hne
    have hlenf : 0 < ((st.outputs.filter
        (fun o => o.deviceIndex = d.index ∧ optTruthy o.temperature)).length : ℚ) := by
      have h1 : 0 < (st.outputs.filter
          (fun o => o.deviceIndex = d.index ∧ optTruthy o.temperature)).length := by
        unfold truthyTemps at hlen
        rwa [List.length_map] at hlen
      exact_mod_cast h1
    rw [if_pos (by simpa using hlenf)]
    simp [truthyTemps]
  · intro hnil
    have hlen0 : ((st.outputs.filter
        (fun o => o.deviceIndex = d.index ∧ optTruthy o.temperature)).length : ℚ) = 0 := by
      have h1 : (truthyTemps st d).length = 0 := by rw [hnil]; rfl
      have h2 : (st.outputs.filter
          (fun o => o.deviceIndex = d.index ∧ optTruthy o.temperature)).length = 0 := by
        unfold truthyTemps at h1
        rwa [List.length_map] at h1
      exact_mod_cast h2
    rw [if_neg (by rw [zero_add, hlen0]; exact lt_irrefl 0)]
    exact htp

/-- Witness of C5's amended statement: with truthy temperatures 0 °C
(excluded) and 10 °C the device temperature becomes 10 °C. -/
theorem device_temperature_mean_truthy_witness :
    devTemp.temperatureMonitoring = true ∧ 0 < devTemp.outputsCount ∧
    truthyTemps stTemp devTemp ≠ [] ∧
    (calculate_device_totals stTemp devTemp).temperature =
      some ((truthyTemps stTemp devTemp).sum / ((truthyTemps stTemp devTemp).length : ℚ)) :=
  ⟨by decide, by decide, by decide,
   (device_temperature_mean_truthy stTemp devTemp (by decide) (by decide)).1 (by decide)⟩

/-! ## Lemmas about the simulation-file import allow-list -/

theorem applyDeviceImport_shape (kvs : List (String × JVal)) (d : DeviceRec) :
    ∃ ob uo ro, applyDeviceImport d kvs =
      { d with online := ob, uptime := uo, restartRequired := ro } := by
  induction kvs generalizing d with
  | nil => exact ⟨d.online, d.uptime, d.restartRequired, rfl⟩
  | cons kv rest ih =>
      obtain ⟨k, v⟩ := kv
      have hstep : applyDeviceImport d ((k, v) :: rest) =
          applyDeviceImport
            (if deviceImportAllowed.contains k ∧ deviceKeys.contains k then
               setDeviceKey d k v
             else d) rest := rfl
      by_cases hk : deviceImportAllowed.contains k ∧ deviceKeys.contains k
      · have hmem : k ∈ deviceImportAllowed := List.mem_of_elem_eq_true hk.1
        have hcases : k = "Online" ∨ k = "MACAddress" ∨ k = "Uptime" ∨
            k = "RestartRequired" := by
          simpa [deviceImportAllowed] using hmem
        rw [hstep, if_pos hk]
        rcases hcases with h | h | h | h
        · subst h
          have hset : setDeviceKey d "Online" v = { d with online := asBool v } := rfl
          rw [hset]
          obtain ⟨ob, uo, ro, hrec⟩ := ih { d with online := asBool v }
          exact ⟨ob, uo, ro, hrec⟩
        · exfalso
          have h2 := hk.2
          rw [h] at h2
          exact absurd h2 (by decide)
        · subst h
          have hset : setDeviceKey d "Uptime" v = { d with uptime := asNumOpt (some v) } := rfl
          rw [hset]
          obtain ⟨ob, uo, ro, hrec⟩ := ih { d with uptime := asNumOpt (some v) }
          exact ⟨ob, uo, ro, hrec⟩
        · subst h
          have hset : setDeviceKey d "RestartRequired" v =
              { d with restartRequired := decodeBoolD false (some v) } := rfl
          rw [hset]
          obtain ⟨ob, uo, ro, hrec⟩ := ih { d with restartRequired := decodeBoolD false (some v) }
          exact ⟨ob, uo, ro, hrec⟩
      · rw [hstep, if_neg hk]
        exact ih d

/-- C10: importing a simulation file never modifies the device's MacAddress
(or any other device field beyond Online, Uptime and RestartRequired): the
allow-list key `MACAddress` differs from the record key `MacAddress`, and
the import requires an allow-listed key to exist in the device record, so the
intersection of the allow-list with the device keys is exactly
`Online`, `Uptime`, `RestartRequired` — even though the exported file does
store the `MacAddress` key. -/
theorem import_never_restores_mac :
    (∀ (d : DeviceRec) (kvs : List (String × JVal)),
       (applyDeviceImport d kvs).macAddress = d.macAddress ∧
       ∃ ob uo ro, applyDeviceImport d kvs =
         { d with online := ob, uptime := uo, restartRequired := ro }) ∧
    deviceImportAllowed.filter (fun k => deviceKeys.contains k) =
      ["Online", "Uptime", "RestartRequired"] ∧
    ∀ (st : ShellyState) (d : DeviceRec),
      (encodeDeviceInfo st d).getKey "MacAddress" = some (jstrOpt d.macAddress) := by
  refine ⟨fun d kvs => ?_, by decide, fun st d => rfl⟩
  obtain ⟨ob, uo, ro, h⟩ := applyDeviceImport_shape kvs d
  exact ⟨by rw [h], ⟨ob, uo, ro, h⟩⟩

/-! ## Lemmas about the retry loop -/

theorem requestLoop_all_timeout (resp : Nat → ReqOutcome) (parse : JVal → Except TFail JVal)
    (h : ∀ i, resp i = .timeout) :
    ∀ k a s, requestLoop resp parse k a s = (.error .timeoutErr, a + k + 1, s + k) := by
  intro k
  induction k with
  | zero => intro a s; rw [requestLoop, h a]; rfl
  | succ k ih =>
      intro a s
      rw [requestLoop, h a]
      show requestLoop resp parse k (a + 1) (s + 1) = _
      rw [ih (a + 1) (s + 1)]
      simp only [Prod.mk.injEq]
      exact ⟨trivial, by omega, by omega⟩

/-- C3: a REST or RPC transport request on a reachable device whose every
attempt times out raises the Timeout failure after exactly
`retry_count + 1` attempts, sleeping `retry_count` times so that the
cumulative sleep is `retry_count × retry_delay`. -/
theorem transport_timeout_retries (env : NetEnv) (st : ShellyState) (d : DeviceRec)
    (args : String) (payload : JVal)
    (hrest : ∀ i, env.rest (d.hostname.getD "") d.port args i = .timeout)
    (hrpc : ∀ i, env.rpc (d.hostname.getD "") d.port payload i = .timeout) :
    (∀ st1, is_device_online env st (some (.byId d.id)) = (st1, .ok true) →
       (rest_request env st d args).out = .error .timeoutErr ∧
       (rest_request env st d args).attempts = st.retryCount + 1 ∧
       (rest_request env st d args).sleeps = st.retryCount ∧
       ((rest_request env st d args).sleeps : ℚ) * st.retryDelay =
         (st.retryCount : ℚ) * st.retryDelay) ∧
    (∀ st1, is_device_online env st (some (.ref d)) = (st1, .ok true) →
       (rpc_request env st d payload).out = .error .timeoutErr ∧
       (rpc_request env st d payload).attempts = st.retryCount + 1 ∧
       (rpc_request env st d payload).sleeps = st.retryCount ∧
       ((rpc_request env st d payload).sleeps : ℚ) * st.retryDelay =
         (st.retryCount : ℚ) * st.retryDelay) := by
  have hrcGen : ∀ (ident : DevIdentity) (st1 : ShellyState),
      is_device_online env st (some ident) = (st1, .ok true) →
      st1.retryCount = st.retryCount ∧ st1.retryDelay = st.retryDelay := by
    intro ident st1 heq
    unfold is_device_online at heq
    dsimp only at heq
    cases hgd : get_device st ident with
    | error e =>
        rw [hgd] at heq
        exact absurd (congrArg Prod.snd heq) (by simp)
    | ok sel =>
        rw [hgd] at heq
        have h1 := congrArg Prod.fst heq
        dsimp only at h1
        rw [← h1]
        exact ⟨rfl, rfl⟩
  constructor
  · intro st1 heq
    obtain ⟨hrc, _⟩ := hrcGen _ st1 heq
    unfold rest_request
    rw [heq]
    dsimp only
    rw [requestLoop_all_timeout _ restParse hrest st1.retryCount 0 0]
    dsimp only
    rw [hrc]
    refine ⟨rfl, by omega, by omega, by rw [Nat.zero_add]⟩
  · intro st1 heq
    obtain ⟨hrc, _⟩ := hrcGen _ st1 heq
    unfold rpc_request
    rw [heq]
    dsimp only
    rw [requestLoop_all_timeout _ rpcParse hrpc st1.retryCount 0 0]
    dsimp only
    rw [hrc]
    refine ⟨rfl, by omega, by omega, by rw [Nat.zero_add]⟩

/-- Witness of C3: with a retry count of 1, an always-timing-out REST call
makes two attempts and sleeps once. -/
theorem transport_timeout_retries_witness :
    (rest_request envAllTimeout stOffline devOffline "status").out = .error .timeoutErr ∧
    (rest_request envAllTimeout stOffline devOffline "status").attempts = 2 ∧
    (rest_request envAllTimeout stOffline devOffline "status").sleeps = 1 ∧
    (rpc_request envAllTimeout stOffline devOffline rpcStatusPayload).out =
      .error .timeoutErr := by
  have h := transport_timeout_retries envAllTimeout stOffline devOffline "status"
    rpcStatusPayload (fun i => rfl) (fun i => rfl)
  have h1 := h.1 ({ stOffline with devices := [{ devOffline with online := true }] }) rfl
  have h2 := h.2 ({ stOffline with devices := [{ devOffline with online := true }] }) rfl
  exact ⟨h1.1, h1.2.1, h1.2.2.1, h2.1⟩

/-- C7, code bug: on an RPC device with separate meters whose
`Shelly.GetStatus`, `EM1.GetStatus` and `EM1Data.GetStatus` calls all
succeed (every paired per-channel response present), `get_device_status`
still raises the fatal meter error, because the source compares the
response-list lengths against the meter count with `<=` — which also holds
when every channel answered. -/
theorem separate_meters_status_bug :
    (get_device_status envEM stEM (.ref devEM)).2 = .error .metersIncomplete ∧
    (fetchPhase envEM stEM devEM).2 = .ok (true,
      .obj [("sys", .obj [("mac", .str "AA:BB"), ("uptime", .num 12)]),
            ("switch:0", .obj [("output", .bool true)])],
      [.obj [("act_power", .num 5), ("voltage", .num 230)]],
      [.obj [("total_act_energy", .num 7)]]) := by
  exact ⟨rfl, rfl⟩

/-! ## Lemmas about the liveness probe and the offline observation -/

theorem static_simulate {d1 d2 : DeviceRec} (h : d1.static = d2.static) :
    d1.simulate = d2.simulate := congrArg (fun x => x.simulate) h

theorem static_hostname {d1 d2 : DeviceRec} (h : d1.static = d2.static) :
    d1.hostname = d2.hostname := congrArg (fun x => x.hostname) h

theorem static_index {d1 d2 : DeviceRec} (h : d1.static = d2.static) :
    d1.index = d2.index := congrArg (fun x => x.index) h

theorem onlineScan_map_static (env : NetEnv) (pa : Bool) (sel : Option DeviceRec) :
    ∀ (ds : List DeviceRec) (i0 : Nat),
      (onlineScan env pa sel ds i0).1.map DeviceRec.static = ds.map DeviceRec.static := by
  intro ds
  induction ds with
  | nil => intro i0; rfl
  | cons d ds ih =>
      intro i0
      rw [onlineScan]
      by_cases h1 : d.simulate ∨ pa = false
      · simp only [if_pos h1, List.map_cons, ih]
        exact congrArg (fun x => x :: ds.map DeviceRec.static) rfl
      · rw [if_neg h1]
        by_cases h2 : sel.all (fun s => s.index = i0)
        · simp only [if_pos h2, List.map_cons, ih]
          exact congrArg (fun x => x :: ds.map DeviceRec.static) rfl
        · simp only [if_neg h2, List.map_cons, ih]

theorem onlineScan_finds_offline (env : NetEnv) (sel : DeviceRec) :
    ∀ (ds : List DeviceRec) (i0 j : Nat) (dj : DeviceRec),
      ds.get? j = some dj → dj.simulate = false →
      env.ping (dj.hostname.getD "") = false → sel.index = i0 + j →
      (onlineScan env true (some sel) ds i0).2 = true := by
  intro ds
  induction ds with
  | nil => intro i0 j dj hget; exact absurd hget (by simp)
  | cons d ds ih =>
      intro i0 j dj hget hsim hping hsel
      rw [onlineScan]
      cases j with
      | zero =>
          have hd : d = dj := by simpa using hget
          subst hd
          rw [if_neg (by simp [hsim])]
          rw [if_pos (by simp [hsel])]
          simp [hping]
      | succ k =>
          have hget2 : ds.get? k = some dj := by simpa using hget
          have hrest := ih (i0 + 1) k dj hget2 hsim hping (by omega)
          rcases h1 : (if d.simulate ∨ true = false then ({ d with online := true }, false)
            else if (some sel).all (fun s => s.index = i0) then
              ({ d with online := env.ping (d.hostname.getD "") },
                !env.ping (d.hostname.getD ""))
            else (d, false)) with ⟨dd, bb⟩
          simp only [h1, hrest, Bool.or_true]

theorem rpc_request_offline (env : NetEnv) (device : DeviceRec) (st : ShellyState)
    (payload : JVal) (hctx : OfflineCtx env device st) (hsim : device.simulate = false)
    (hping : env.ping (device.hostname.getD "") = false) :
    ∃ ds', rpc_request env st device payload =
        ⟨{ st with devices := ds' }, .ok (false, .obj []), 0, 0⟩ ∧
      ds'.map DeviceRec.static = st.devices.map DeviceRec.static := by
  obtain ⟨hpa, dj, hget, hstat⟩ := hctx
  have hsimj : dj.simulate = false := (static_simulate hstat).trans hsim
  have hpingj : env.ping (dj.hostname.getD "") = false := by
    rw [static_hostname hstat]; exact hping
  have hscan : (onlineScan env st.pingAllowed (some device) st.devices 0).2 = true := by
    rw [hpa]
    exact onlineScan_finds_offline env device st.devices 0 device.index dj hget hsimj hpingj
      (by omega)
  refine ⟨(onlineScan env st.pingAllowed (some device) st.devices 0).1, ?_,
    onlineScan_map_static env st.pingAllowed (some device) st.devices 0⟩
  unfold rpc_request is_device_online
  dsimp only [get_device]
  rw [hscan]
  rfl

theorem rest_request_offline (env : NetEnv) (device : DeviceRec) (st : ShellyState)
    (args : String) (hctx : OfflineCtx env device st) (hsim : device.simulate = false)
    (hping : env.ping (device.hostname.getD "") = false)
    (hfind : st.devices.find? (fun x => x.id = device.id) = some device) :
    ∃ ds', rest_request env st device args =
        ⟨{ st with devices := ds' }, .ok (false, .obj []), 0, 0⟩ ∧
      ds'.map DeviceRec.static = st.devices.map DeviceRec.static := by
  obtain ⟨hpa, dj, hget, hstat⟩ := hctx
  have hsimj : dj.simulate = false := (static_simulate hstat).trans hsim
  have hpingj : env.ping (dj.hostname.getD "") = false := by
    rw [static_hostname hstat]; exact hping
  have hscan : (onlineScan env st.pingAllowed (some device) st.devices 0).2 = true := by
    rw [hpa]
    exact onlineScan_finds_offline env device st.devices 0 device.index dj hget hsimj hpingj
      (by omega)
  refine ⟨(onlineScan env st.pingAllowed (some device) st.devices 0).1, ?_,
    onlineScan_map_static env st.pingAllowed (some device) st.devices 0⟩
  unfold rest_request is_device_online
  dsimp only [get_device]
  rw [hfind]
  dsimp only
  rw [hscan]
  rfl

theorem offlineCtx_of_map_static (env : NetEnv) (device : DeviceRec) (st : ShellyState)
    (ds' : List DeviceRec) (hctx : OfflineCtx env device st)
    (hmap : ds'.map DeviceRec.static = st.devices.map DeviceRec.static) :
    OfflineCtx env device { st with devices := ds' } := by
  obtain ⟨hpa, dj, hget, hstat⟩ := hctx
  refine ⟨hpa, ?_⟩
  have h1 : (ds'.map DeviceRec.static).get? device.index =
      (st.devices.map DeviceRec.static).get? device.index := by rw [hmap]
  rw [List.get?_map, List.get?_map, hget] at h1
  cases hget2 : ds'.get? device.index with
  | none => rw [hget2] at h1; exact absurd h1 (by simp)
  | some dk =>
      rw [hget2] at h1
      simp only [Option.map_some'] at h1
      exact ⟨dk, rfl, (Option.some.inj h1).trans hstat⟩

theorem emLoop_offline (env : NetEnv) (device : DeviceRec)
    (hsim : device.simulate = false) (hping : env.ping (device.hostname.getD "") = false) :
    ∀ (n i : Nat) (st : ShellyState) (em emd : List JVal), OfflineCtx env device st →
      ∃ ds', emLoop env device n i st em emd = ({ st with devices := ds' }, .ok (em, emd)) ∧
        ds'.map DeviceRec.static = st.devices.map DeviceRec.static := by
  intro n
  induction n with
  | zero =>
      intro i st em emd hctx
      exact ⟨st.devices, by rw [emLoop], rfl⟩
  | succ n ih =>
      intro i st em emd hctx
      obtain ⟨ds1, heq1, hmap1⟩ := rpc_request_offline env device st
        (emPayload "EM1.GetStatus" i) hctx hsim hping
      have hctx1 := offlineCtx_of_map_static env device st ds1 hctx hmap1
      obtain ⟨ds2, heq2, hmap2⟩ := rpc_request_offline env device { st with devices := ds1 }
        (emPayload "EM1Data.GetStatus" i) hctx1 hsim hping
      have hctx2 := offlineCtx_of_map_static env device { st with devices := ds1 } ds2 hctx1 hmap2
      obtain ⟨ds3, heq3, hmap3⟩ := ih (i + 1) { st with devices := ds2 } em emd hctx2
      refine ⟨ds3, ?_, ?_⟩
      · rw [emLoop, heq1]
        dsimp only
        rw [heq2]
        dsimp only
        simp only [Bool.false_eq_true, if_false]
        exact heq3
      · rw [hmap3]
        dsimp only
        rw [hmap2]
        dsimp only
        exact hmap1

/-- C2: issuing `change_output` against a non-simulated device whose
liveness probe reports it unreachable returns `(False, False)` without any
exception, leaving every component record (and the file store) untouched;
only the devices' Online flags are rewritten by the probe. -/
theorem change_output_offline_tuple (env : NetEnv) (st : ShellyState) (oi : Nat)
    (outp : OutputRec) (device : DeviceRec) (b : Bool)
    (h1 : st.outputs.get? oi = some outp)
    (h2 : st.devices.get? outp.deviceIndex = some device)
    (hidx : device.index = outp.deviceIndex)
    (hsim : device.simulate = false)
    (hping2 : st.pingAllowed = true)
    (hdown : env.ping (device.hostname.getD "") = false)
    (hsupp : device.protocol = "RPC" ∨ (device.protocol = "REST" ∧
        device.metersSeperate = true ∧
        st.devices.find? (fun x => x.id = device.id) = some device)) :
    ∃ ds', change_output env st (.ref oi) b = ({ st with devices := ds' }, .ok (false, false)) ∧
      ds'.map DeviceRec.static = st.devices.map DeviceRec.static := by
  have hctx : OfflineCtx env device st := ⟨hping2, device, by rw [hidx]; exact h2, rfl⟩
  have hlt : oi < st.outputs.length := by
    rcases List.get?_eq_some.mp h1 with ⟨h, _⟩
    exact h
  -- the status fetch observes the device offline
  have hfetch : ∃ ds', fetchPhase env st device = ({ st with devices := ds' }, .ok (false, .obj [], [], [])) ∧
      ds'.map DeviceRec.static = st.devices.map DeviceRec.static := by
    rcases hsupp with hrpc | ⟨hrest, hms, hfind⟩
    · obtain ⟨ds1, heq1, hmap1⟩ := rpc_request_offline env device st rpcStatusPayload hctx
        hsim hdown
      have hctx1 := offlineCtx_of_map_static env device st ds1 hctx hmap1
      by_cases hms : device.metersSeperate
      · obtain ⟨ds2, heq2, hmap2⟩ := emLoop_offline env device hsim hdown device.metersCount 0
          { st with devices := ds1 } [] [] hctx1
        refine ⟨ds2, ?_, by dsimp only at hmap2 ⊢; rw [hmap2, hmap1]⟩
        unfold fetchPhase
        rw [if_pos hrpc, heq1]
        dsimp only
        rw [if_pos hms, heq2]
      · refine ⟨ds1, ?_, hmap1⟩
        unfold fetchPhase
        rw [if_pos hrpc, heq1]
        dsimp only
        rw [if_neg hms]
    · obtain ⟨ds1, heq1, hmap1⟩ := rest_request_offline env device st "status" hctx hsim hdown
        hfind
      refine ⟨ds1, ?_, hmap1⟩
      have hnotrpc : ¬ device.protocol = "RPC" := by rw [hrest]; decide
      unfold fetchPhase
      rw [if_neg hnotrpc, if_pos hrest, heq1]
      dsimp only
      rw [if_neg (by rw [hms]; decide)]
  obtain ⟨ds', hfeq, hfmap⟩ := hfetch
  refine ⟨ds', ?_, hfmap⟩
  unfold change_output
  dsimp only [get_output_component]
  rw [if_pos hlt]
  dsimp only
  rw [h1]
  dsimp only
  rw [h2]
  dsimp only
  rw [if_neg (by rw [hsim]; decide)]
  unfold get_device_status
  dsimp only [get_device]
  rw [if_neg (by rw [hsim]; decide), hfeq]

/-- Witness of C2: the fixture RPC device with a failing ping yields
`(False, False)` and untouched component lists. -/
theorem change_output_offline_tuple_witness :
    ∃ ds', change_output envDead stOffline (.ref 0) true =
      ({ stOffline with devices := ds' }, .ok (false, false)) ∧
      ds'.map DeviceRec.static = stOffline.devices.map DeviceRec.static :=
  change_output_offline_tuple envDead stOffline 0 (mkOutput 0 none) devOffline true rfl rfl rfl
    rfl rfl rfl (Or.inl rfl)

/-! ## Lemmas about registry construction errors -/

theorem get_device_attributes_err_shape (models : List ModelEntry) (i n : Nat) (key : String)
    (e : BuildErr) (h : get_device_attributes models i n key = .error e) :
    e = .noModels i ∨ e = .modelNotFound i ∨ e = .metersMismatch i := by
  unfold get_device_attributes at h
  by_cases h1 : models.isEmpty
  · rw [if_pos h1] at h
    exact Or.inl (Except.error.inj h).symm
  · rw [if_neg h1] at h
    cases h2 : modelEntryFor models key with
    | none => rw [h2] at h; exact Or.inr (Or.inl (Except.error.inj h).symm)
    | some entry =>
        rw [h2] at h
        dsimp only at h
        split at h
        · exact Or.inr (Or.inr (Except.error.inj h).symm)
        · exact absurd h (by simp)

theorem componentChecks_err_shape (i : Nat) (t : CompType) (k : Nat) (names : List String)
    (ids : List Int) (cid : Int) (cname : String) (e : BuildErr)
    (h : componentChecks i t k names ids cid cname = some e) :
    e = .compNameDup i t k ∨ e = .compIdDup i t k ∨ e = .compPresence i t k := by
  unfold componentChecks at h
  split at h
  · exact Or.inl (Option.some.inj h).symm
  · split at h
    · exact Or.inr (Or.inl (Option.some.inj h).symm)
    · split at h
      · exact Or.inr (Or.inr (Option.some.inj h).symm)
      · exact absurd h (by simp)

theorem addInputsLoop_err_shape (i : Nat) (cfgOpt : Option (List ComponentConfig)) :
    ∀ (n k : Nat) (acc : List InputRec) (e : BuildErr),
      addInputsLoop i cfgOpt n k acc = .error e →
      ∃ t j, e = .compNameDup i t j ∨ e = .compIdDup i t j ∨ e = .compPresence i t j := by
  intro n
  induction n with
  | zero => intro k acc e h; exact absurd h (by rw [addInputsLoop]; simp)
  | succ n ih =>
      intro k acc e h
      rw [addInputsLoop] at h
      cases hc : componentChecks i .inputs k (acc.map (fun c => c.name))
          (acc.map (fun c => c.id))
          (componentIdentity "Input" acc.length (cfgOpt.bind (fun l => l.get? k))).1
          (componentIdentity "Input" acc.length (cfgOpt.bind (fun l => l.get? k))).2 with
      | some e2 =>
          rw [hc] at h
          obtain ⟨h1⟩ := Except.error.inj h
          exact ⟨.inputs, k, by
            have := componentChecks_err_shape _ _ _ _ _ _ _ _ hc
            simpa using this⟩
      | none =>
          rw [hc] at h
          exact ih (k + 1) _ e h

theorem addOutputsLoop_err_shape (i : Nat) (ms : Bool) (cfgOpt : Option (List ComponentConfig)) :
    ∀ (n k : Nat) (acc : List OutputRec) (e : BuildErr),
      addOutputsLoop i ms cfgOpt n k acc = .error e →
      ∃ t j, e = .compNameDup i t j ∨ e = .compIdDup i t j ∨ e = .compPresence i t j := by
  intro n
  induction n with
  | zero => intro k acc e h; exact absurd h (by rw [addOutputsLoop]; simp)
  | succ n ih =>
      intro k acc e h
      rw [addOutputsLoop] at h
      cases hc : componentChecks i .outputs k (acc.map (fun c => c.name))
          (acc.map (fun c => c.id))
          (componentIdentity "Output" acc.length (cfgOpt.bind (fun l => l.get? k))).1
          (componentIdentity "Output" acc.length (cfgOpt.bind (fun l => l.get? k))).2 with
      | some e2 =>
          rw [hc] at h
          obtain ⟨h1⟩ := Except.error.inj h
          exact ⟨.outputs, k, by
            have := componentChecks_err_shape _ _ _ _ _ _ _ _ hc
            simpa using this⟩
      | none =>
          rw [hc] at h
          exact ih (k + 1) _ e h

theorem addMetersLoop_err_shape (i : Nat) (ms : Bool) (cfgOpt : Option (List ComponentConfig)) :
    ∀ (n k : Nat) (acc : List MeterRec) (e : BuildErr),
      addMetersLoop i ms cfgOpt n k acc = .error e →
      ∃ t j, e = .compNameDup i t j ∨ e = .compIdDup i t j ∨ e = .compPresence i t j := by
  intro n
  induction n with
  | zero => intro k acc e h; exact absurd h (by rw [addMetersLoop]; simp)
  | succ n ih =>
      intro k acc e h
      rw [addMetersLoop] at h
      cases hc : componentChecks i .meters k (acc.map (fun c => c.name))
          (acc.map (fun c => c.id))
          (componentIdentity "Meter" acc.length (cfgOpt.bind (fun l => l.get? k))).1
          (componentIdentity "Meter" acc.length (cfgOpt.bind (fun l => l.get? k))).2 with
      | some e2 =>
          rw [hc] at h
          obtain ⟨h1⟩ := Except.error.inj h
          exact ⟨.meters, k, by
            have := componentChecks_err_shape _ _ _ _ _ _ _ _ hc
            simpa using this⟩
      | none =>
          rw [hc] at h
          exact ih (k + 1) _ e h

theorem add_device_components_not_presence (st : ShellyState) (di : Nat) (t : CompType)
    (cfgOpt : Option (List ComponentConfig)) (e : BuildErr)
    (h : add_device_components st di t cfgOpt = .error e) :
    ∀ j, e ≠ .devicePresence j := by
  intro j hcontra
  subst hcontra
  unfold add_device_components at h
  cases hget : st.devices.get? di with
  | none => rw [hget] at h; exact absurd (Except.error.inj h) (by simp)
  | some device =>
      rw [hget] at h
      dsimp only at h
      split at h
      · exact absurd (Except.error.inj h) (by simp)
      · cases t with
        | inputs =>
            dsimp only at h
            cases hl : addInputsLoop di cfgOpt device.inputsCount 0 st.inputs with
            | ok l => rw [hl] at h; exact absurd h (by simp [Except.map])
            | error e2 =>
                rw [hl] at h
                simp only [Except.map] at h
                obtain ⟨t2, j2, hsh⟩ := addInputsLoop_err_shape di cfgOpt _ 0 st.inputs e2 hl
                rw [Except.error.inj h] at hsh
                rcases hsh with h3 | h3 | h3 <;> exact absurd h3 (by simp)
        | outputs =>
            dsimp only at h
            cases hl : addOutputsLoop di device.metersSeperate cfgOpt device.outputsCount 0
                st.outputs with
            | ok l => rw [hl] at h; exact absurd h (by simp [Except.map])
            | error e2 =>
                rw [hl] at h
                simp only [Except.map] at h
                obtain ⟨t2, j2, hsh⟩ := addOutputsLoop_err_shape di device.metersSeperate cfgOpt
                  _ 0 st.outputs e2 hl
                rw [Except.error.inj h] at hsh
                rcases hsh with h3 | h3 | h3 <;> exact absurd h3 (by simp)
        | meters =>
            dsimp only at h
            cases hl : addMetersLoop di device.metersSeperate cfgOpt device.metersCount 0
                st.meters with
            | ok l => rw [hl] at h; exact absurd h (by simp [Except.map])
            | error e2 =>
                rw [hl] at h
                simp only [Except.map] at h
                obtain ⟨t2, j2, hsh⟩ := addMetersLoop_err_shape di device.metersSeperate cfgOpt
                  _ 0 st.meters e2 hl
                rw [Except.error.inj h] at hsh
                rcases hsh with h3 | h3 | h3 <;> exact absurd h3 (by simp)

theorem specDefaultName_ne_empty (n : Nat) : specDefaultName n ≠ "" := by
  unfold specDefaultName
  intro h
  have h2 := congrArg String.length h
  rw [String.length_append] at h2
  have h3 : ("Shelly Device " : String).length = 14 := rfl
  rw [h3] at h2
  simp at h2

theorem calcStage1_shape (st : ShellyState) (d : DeviceRec) :
    ∃ tp te, calcStage1 st d = { d with totalPower := tp, totalEnergy := te } := by
  unfold calcStage1
  split
  · exact ⟨_, _, rfl⟩
  · exact ⟨d.totalPower, d.totalEnergy, rfl⟩

theorem calc_totals_shape (st : ShellyState) (d : DeviceRec) :
    ∃ tq tp te, calculate_device_totals st d =
      { d with temperature := tq, totalPower := tp, totalEnergy := te } := by
  obtain ⟨tp, te, h1⟩ := calcStage1_shape st d
  rw [calculate_device_totals_eq, h1]
  split
  · split
    · exact ⟨_, tp, te, rfl⟩
    · exact ⟨d.temperature, tp, te, rfl⟩
  · exact ⟨d.temperature, tp, te, rfl⟩

theorem add_device_components_ok_frame (st : ShellyState) (di : Nat) (t : CompType)
    (cfgOpt : Option (List ComponentConfig)) (st' : ShellyState)
    (h : add_device_components st di t cfgOpt = .ok st') :
    st'.devices = st.devices ∧ st'.files = st.files := by
  unfold add_device_components at h
  cases hget : st.devices.get? di with
  | none => rw [hget] at h; exact absurd h (by simp)
  | some device =>
      rw [hget] at h
      dsimp only at h
      split at h
      · exact absurd h (by simp)
      · cases t with
        | inputs =>
            dsimp only at h
            cases hl : addInputsLoop di cfgOpt device.inputsCount 0 st.inputs with
            | error e => rw [hl] at h; exact absurd h (by simp [Except.map])
            | ok l =>
                rw [hl] at h
                simp only [Except.map] at h
                rw [← Except.ok.inj h]
                exact ⟨rfl, rfl⟩
        | outputs =>
            dsimp only at h
            cases hl : addOutputsLoop di device.metersSeperate cfgOpt device.outputsCount 0
                st.outputs with
            | error e => rw [hl] at h; exact absurd h (by simp [Except.map])
            | ok l =>
                rw [hl] at h
                simp only [Except.map] at h
                rw [← Except.ok.inj h]
                exact ⟨rfl, rfl⟩
        | meters =>
            dsimp only at h
            cases hl : addMetersLoop di device.metersSeperate cfgOpt device.metersCount 0
                st.meters with
            | error e => rw [hl] at h; exact absurd h (by simp [Except.map])
            | ok l =>
                rw [hl] at h
                simp only [Except.map] at h
                rw [← Except.ok.inj h]
                exact ⟨rfl, rfl⟩

theorem import_ok_devices (st : ShellyState) (dev : DeviceRec) (c : Bool) (st' : ShellyState)
    (r : Bool) (h : import_device_information_from_json st dev c = (st', .ok r)) :
    st'.devices = st.devices ∨
    ∃ d2, st'.devices = setDeviceAt st.devices dev.index d2 ∧
      d2.clientName = dev.clientName ∧ d2.id = dev.id := by
  unfold import_device_information_from_json at h
  by_cases hs : dev.simulate = false
  · rw [if_pos hs] at h
    exact Or.inl (congrArg (fun p => p.1.devices) h).symm
  · rw [if_neg hs] at h
    cases hsf : dev.simulationFile with
    | none =>
        rw [hsf] at h
        exact absurd (congrArg Prod.snd h) (by simp)
    | some p =>
        rw [hsf] at h
        dsimp only at h
        cases hfl : fileLookup st.files p with
        | none =>
            rw [hfl] at h
            dsimp only at h
            split at h
            · unfold export_device_information_to_json at h
              rw [if_neg hs, hsf] at h
              exact Or.inl (congrArg (fun q => q.1.devices) h).symm
            · exact absurd (congrArg Prod.snd h) (by simp)
        | some v =>
            rw [hfl] at h
            cases v with
            | obj kvs =>
                dsimp only at h
                split at h
                · exact absurd (congrArg Prod.snd h) (by simp)
                · split at h
                  · exact absurd (congrArg Prod.snd h) (by simp)
                  · split at h
                    · exact absurd (congrArg Prod.snd h) (by simp)
                    · right
                      have hdev := (congrArg (fun q => q.1.devices) h).symm
                      dsimp only at hdev
                      unfold setDeviceAt at hdev
                      rw [List.set_set] at hdev
                      obtain ⟨ob, uo, ro, hsh⟩ := applyDeviceImport_shape kvs dev
                      obtain ⟨tq, tp, te, hc⟩ := calc_totals_shape _ (applyDeviceImport dev kvs)
                      refine ⟨_, hdev, ?_, ?_⟩
                      · rw [hc, hsh]
                      · rw [hc, hsh]
            | null => exact absurd (congrArg Prod.snd h) (by simp)
            | bool bv => exact absurd (congrArg Prod.snd h) (by simp)
            | num q => exact absurd (congrArg Prod.snd h) (by simp)
            | str s => exact absurd (congrArg Prod.snd h) (by simp)
            | arr xs => exact absurd (congrArg Prod.snd h) (by simp)

theorem get?_set_self_of_lt {α : Type} (l : List α) (n : Nat) (a : α) (h : n < l.length) :
    (l.set n a).get? n = some a := by
  rw [List.get?_eq_getElem?]
  exact List.getElem?_set_eq_of_lt a h

theorem mkConfiguredDevice_index (attrs : DeviceRec) (i : Nat) (cfg : DeviceConfig) :
    (mkConfiguredDevice attrs i cfg).index = i := by
  unfold mkConfiguredDevice; dsimp only; split <;> rfl

theorem mkConfiguredDevice_clientName (attrs : DeviceRec) (i : Nat) (cfg : DeviceConfig) :
    (mkConfiguredDevice attrs i cfg).clientName =
      cfg.name.getD ("Shelly Device " ++ toString (i + 1)) := by
  unfold mkConfiguredDevice; dsimp only; split <;> rfl

theorem mkConfiguredDevice_id (attrs : DeviceRec) (i : Nat) (cfg : DeviceConfig) :
    (mkConfiguredDevice attrs i cfg).id = cfg.id.getD ((i : Int) + 1) := by
  unfold mkConfiguredDevice; dsimp only; split <;> rfl

/-- C9: the "Device must have either an ID or a Name" branch of
`_add_device` can only fire when the configuration explicitly supplies a
falsy Name and a falsy ID; omitted keys are defaulted
(`"Shelly Device {index+1}"` and `index+1`) and can never trigger it, and on
success the stored device carries those defaults. -/
theorem presence_error_requires_explicit_falsy (models : List ModelEntry)
    (validHost : String → Bool) (st : ShellyState) (cfg : DeviceConfig) :
    (∀ i, add_device models validHost st cfg = .error (.devicePresence i) →
       cfg.name = some "" ∧ cfg.id = some 0) ∧
    ((cfg.name = none ∨ cfg.id = none) →
       ∀ i, add_device models validHost st cfg ≠ .error (.devicePresence i)) ∧
    (∀ st', add_device models validHost st cfg = .ok st' →
       ∃ d, st'.devices.get? st.devices.length = some d ∧
         (cfg.name = none → d.clientName = specDefaultName st.devices.length) ∧
         (cfg.id = none → d.id = (st.devices.length : Int) + 1)) := by
  have partA : ∀ i, add_device models validHost st cfg = .error (.devicePresence i) →
      cfg.name = some "" ∧ cfg.id = some 0 := by
    intro i h
    unfold add_device at h
    dsimp only at h
    cases hga : get_device_attributes models st.devices.length st.devices.length
        (modelKeyOf cfg) with
    | error e =>
        rw [hga] at h
        dsimp only at h
        rcases get_device_attributes_err_shape _ _ _ _ _ hga with h2 | h2 | h2 <;>
          (rw [h2] at h; exact absurd (Except.error.inj h) (by simp))
    | ok attrs =>
        rw [hga] at h
        dsimp only at h
        split at h
        · exact absurd (Except.error.inj h) (by simp)
        · split at h
          · exact absurd (Except.error.inj h) (by simp)
          · split at h
            · exact absurd (Except.error.inj h) (by simp)
            · split at h
              · exact absurd (Except.error.inj h) (by simp)
              · split at h
                · next c5 =>
                    constructor
                    · cases hname : cfg.name with
                      | none =>
                          exfalso
                          have h2 := c5.2
                          rw [hname] at h2
                          exact specDefaultName_ne_empty st.devices.length h2
                      | some s =>
                          have h2 := c5.2
                          rw [hname] at h2
                          simp only [Option.getD_some] at h2
                          rw [h2]
                    · cases hid : cfg.id with
                      | none =>
                          exfalso
                          have h2 := c5.1
                          rw [hid] at h2
                          simp only [Option.getD_none] at h2
                          omega
                      | some n =>
                          have h2 := c5.1
                          rw [hid] at h2
                          simp only [Option.getD_some] at h2
                          rw [h2]
                · split at h
                  · rename_i e2 heq
                    exact absurd (Except.error.inj h).symm
                      (fun hcontra => add_device_components_not_presence _ _ _ _ _ heq i
                        hcontra.symm)
                  · split at h
                    · rename_i e2 heq
                      exact absurd (Except.error.inj h).symm
                        (fun hcontra => add_device_components_not_presence _ _ _ _ _ heq i
                          hcontra.symm)
                    · split at h
                      · rename_i e2 heq
                        exact absurd (Except.error.inj h).symm
                          (fun hcontra => add_device_components_not_presence _ _ _ _ _ heq i
                            hcontra.symm)
                      · split at h
                        · exact absurd (Except.error.inj h) (by simp)
                        · exact absurd h (by simp)
  refine ⟨partA, ?_, ?_⟩
  · intro hor i h
    obtain ⟨hn, hi⟩ := partA i h
    rcases hor with h2 | h2
    · rw [h2] at hn; exact absurd hn (by simp)
    · rw [h2] at hi; exact absurd hi (by simp)
  · intro st' h
    unfold add_device at h
    dsimp only at h
    cases hga : get_device_attributes models st.devices.length st.devices.length
        (modelKeyOf cfg) with
    | error e =>
        rw [hga] at h
        exact absurd h (by simp)
    | ok attrs =>
        rw [hga] at h
        dsimp only at h
        split at h
        · exact absurd h (by simp)
        · split at h
          · exact absurd h (by simp)
          · split at h
            · exact absurd h (by simp)
            · split at h
              · exact absurd h (by simp)
              · split at h
                · exact absurd h (by simp)
                · split at h
                  · exact absurd h (by simp)
                  · next st2 hc1 =>
                    split at h
                    · exact absurd h (by simp)
                    · next st3 hc2 =>
                      split at h
                      · exact absurd h (by simp)
                      · next st4 hc3 =>
                        split at h
                        · exact absurd h (by simp)
                        · next st5 rr himp =>
                          have hst5 : st5 = st' := Except.ok.inj h
                          subst hst5
                          obtain ⟨hd1, _⟩ := add_device_components_ok_frame _ _ _ _ _ hc1
                          obtain ⟨hd2, _⟩ := add_device_components_ok_frame _ _ _ _ _ hc2
                          obtain ⟨hd3, _⟩ := add_device_components_ok_frame _ _ _ _ _ hc3
                          have hdev4 : st4.devices = st.devices ++
                              [mkConfiguredDevice attrs st.devices.length cfg] :=
                            hd3.trans (hd2.trans hd1)
                          rcases import_ok_devices _ _ _ _ _ himp with hsame |
                            ⟨d2, hset, hcn, hidq⟩
                          · refine ⟨mkConfiguredDevice attrs st.devices.length cfg, ?_, ?_, ?_⟩
                            · rw [hsame, hdev4]
                              exact List.get?_concat_length _ _
                            · intro hname
                              rw [mkConfiguredDevice_clientName, hname]
                              rfl
                            · intro hid
                              rw [mkConfiguredDevice_id, hid]
                              rfl
                          · refine ⟨d2, ?_, ?_, ?_⟩
                            · rw [hset, hdev4, mkConfiguredDevice_index]
                              unfold setDeviceAt
                              have hget0 : (st.devices ++
                                  [mkConfiguredDevice attrs st.devices.length cfg]).get?
                                    st.devices.length =
                                  some (mkConfiguredDevice attrs st.devices.length cfg) :=
                                List.get?_concat_length _ _
                              have hlt : st.devices.length < (st.devices ++
                                  [mkConfiguredDevice attrs st.devices.length cfg]).length := by
                                rw [List.length_append]
                                simp
                              exact get?_set_self_of_lt _ _ _ hlt
                            · intro hname
                              rw [hcn, mkConfiguredDevice_clientName, hname]
                              rfl
                            · intro hid
                              rw [hidq, mkConfiguredDevice_id, hid]
                              rfl

/-- Witness of C9: a configuration with an explicit empty name and zero ID
raises the presence error, and the theorem recovers those explicit falsy
values from it. -/
theorem presence_error_requires_explicit_falsy_witness :
    add_device modelsFix (fun _ => true) baseState cfgFalsy = .error (.devicePresence 0) ∧
    cfgFalsy.name = some "" ∧ cfgFalsy.id = some 0 :=
  ⟨rfl, (presence_error_requires_explicit_falsy modelsFix (fun _ => true) baseState
    cfgFalsy).1 0 rfl⟩

/-! ## Lemmas about the simulation round trip -/

theorem asNumOpt_jnumOpt (x : Option ℚ) : asNumOpt (some (jnumOpt x)) = x := by
  cases x <;> rfl

theorem decodeBoolD_jboolOpt (x : Option Bool) : decodeBoolD false (some (jboolOpt x)) = x := by
  cases x with
  | none => rfl
  | some b => cases b <;> rfl

theorem decodeNumField_jnumOpt (x : Option ℚ) : decodeNumField (jnumOpt x) = x := by
  cases x <;> rfl

theorem applyDeviceImport_encode_self (st : ShellyState) (d : DeviceRec) :
    applyDeviceImport d (encodeDeviceEntries st d) = d := by
  have h1 : applyDeviceImport d (encodeDeviceEntries st d) =
      { d with online := d.online,
               uptime := asNumOpt (some (jnumOpt d.uptime)),
               restartRequired := decodeBoolD false (some (jboolOpt d.restartRequired)) } := rfl
  rw [h1, asNumOpt_jnumOpt, decodeBoolD_jboolOpt]

theorem fileLookup_fileWrite (fs : List (String × JVal)) (p : String) (v : JVal) :
    fileLookup (fileWrite fs p v) p = some v := by
  unfold fileWrite
  by_cases h : (fs.find? (fun kv => kv.1 = p)).isSome
  · rw [if_pos h]
    induction fs with
    | nil => simp [List.find?] at h
    | cons kv fs ih =>
        by_cases hk : kv.1 = p
        · unfold fileLookup
          simp only [List.map_cons, if_pos hk]
          rw [List.find?_cons_of_pos _ (by simp)]
          rfl
        · have h2 : (fs.find? (fun kv => kv.1 = p)).isSome := by
            rw [List.find?_cons_of_neg _ (by simp [hk])] at h
            exact h
          unfold fileLookup at ih ⊢
          simp only [List.map_cons, if_neg hk]
          rw [List.find?_cons_of_neg _ (by simp [hk])]
          exact ih h2
  · rw [if_neg h]
    induction fs with
    | nil =>
        unfold fileLookup
        rw [List.nil_append, List.find?_cons_of_pos _ (by simp)]
        rfl
    | cons kv fs ih =>
        have hk : ¬ kv.1 = p := by
          intro hcontra
          exact h (by rw [List.find?_cons_of_pos _ (by simp [hcontra])]; rfl)
        have h2 : ¬ (fs.find? (fun kv => kv.1 = p)).isSome := by
          intro hcontra
          exact h (by rw [List.find?_cons_of_neg _ (by simp [hk])]; exact hcontra)
        unfold fileLookup at ih ⊢
        rw [List.cons_append, List.find?_cons_of_neg _ (by simp [hk])]
        exact ih h2

theorem setOutputState_get_self (outs : List OutputRec) (oi : Nat) (o : OutputRec) (b : Bool)
    (h : outs.get? oi = some o) :
    (setOutputState outs oi b).get? oi = some { o with state := b } := by
  induction outs generalizing oi with
  | nil => simp at h
  | cons x xs ih =>
      cases oi with
      | zero =>
          have hx : x = o := by simpa using h
          subst hx
          rfl
      | succ n =>
          have h2 : xs.get? n = some o := by simpa using h
          show (setOutputState xs n b).get? n = _
          exact ih n h2

theorem setOutputState_keys (outs : List OutputRec) (oi : Nat) (b : Bool) :
    (setOutputState outs oi b).map (fun o => (o.deviceIndex, o.componentIndex)) =
      outs.map (fun o => (o.deviceIndex, o.componentIndex)) := by
  induction outs generalizing oi with
  | nil => rfl
  | cons x xs ih =>
      cases oi with
      | zero => rfl
      | succ n =>
          show _ :: (setOutputState xs n b).map _ = _ :: xs.map _
          rw [ih n]

theorem setDeviceAt_same (ds : List DeviceRec) (i : Nat) (d : DeviceRec)
    (h : ds.get? i = some d) : setDeviceAt ds i d = ds := by
  unfold setDeviceAt
  induction ds generalizing i with
  | nil => simp at h
  | cons x xs ih =>
      cases i with
      | zero =>
          have hx : x = d := by simpa using h
          rw [List.set_cons_zero, hx]
      | succ n =>
          have h2 : xs.get? n = some d := by simpa using h
          rw [List.set_cons_succ, ih n h2]

theorem setDeviceAt_setDeviceAt (ds : List DeviceRec) (i : Nat) (d1 d2 : DeviceRec) :
    setDeviceAt (setDeviceAt ds i d1) i d2 = setDeviceAt ds i d2 :=
  List.set_set d1 d2 ds i

theorem ciMatches_num (ci cx : Nat) (e : List (String × JVal))
    (h : jfind e "ComponentIndex" = some (.num (cx : ℚ)))
    (hm : ciMatches ci e = true) : ci = cx := by
  unfold ciMatches at hm
  rw [h] at hm
  exact_mod_cast (of_decide_eq_true hm).symm

theorem applyImportedInput_id (idx : Nat) (x : InputRec) (ins : List InputRec)
    (huniq : ∀ d ∈ ins, d.deviceIndex = idx → d.componentIndex = x.componentIndex → d = x) :
    applyImportedInput idx (encodeInputEntries x) ins = ins := by
  unfold applyImportedInput
  have hmap : ∀ d ∈ ins,
      (if d.deviceIndex = idx ∧ ciMatches d.componentIndex (encodeInputEntries x) then
        { d with state := match jfind (encodeInputEntries x) "State" with
                          | none => d.state
                          | some v => asBool v }
      else d) = d := by
    intro d hd
    by_cases hcond : d.deviceIndex = idx ∧
        ciMatches d.componentIndex (encodeInputEntries x) = true
    · have hci : d.componentIndex = x.componentIndex :=
        ciMatches_num d.componentIndex x.componentIndex (encodeInputEntries x) rfl hcond.2
      have hd2 : d = x := huniq d hd hcond.1 hci
      rw [if_pos hcond, hd2]
      rfl
    · rw [if_neg hcond]
  calc ins.map _ = ins.map id := List.map_congr_left hmap
    _ = ins := List.map_id ins

theorem applyImportedOutput_id (idx : Nat) (tm : Bool) (x : OutputRec) (outs : List OutputRec)
    (huniq : ∀ d ∈ outs, d.deviceIndex = idx → d.componentIndex = x.componentIndex → d = x) :
    applyImportedOutput idx tm (encodeOutputEntries x) outs = outs := by
  unfold applyImportedOutput
  have hmap : ∀ d ∈ outs,
      (if d.deviceIndex = idx ∧ ciMatches d.componentIndex (encodeOutputEntries x) then
        let o1 := { d with state := match jfind (encodeOutputEntries x) "State" with
                                    | none => d.state
                                    | some v => asBool v }
        if tm then
          { o1 with temperature := match jfind (encodeOutputEntries x) "Temperature" with
                                   | none => o1.temperature
                                   | some v => decodeNumField v }
        else o1
      else d) = d := by
    intro d hd
    by_cases hcond : d.deviceIndex = idx ∧
        ciMatches d.componentIndex (encodeOutputEntries x) = true
    · have hci : d.componentIndex = x.componentIndex :=
        ciMatches_num d.componentIndex x.componentIndex (encodeOutputEntries x) rfl hcond.2
      have hd2 : d = x := huniq d hd hcond.1 hci
      rw [if_pos hcond, hd2]
      cases tm
      · rfl
      · show ({ x with state := x.state,
                       temperature := decodeNumField (jnumOpt x.temperature) } : OutputRec) = x
        rw [decodeNumField_jnumOpt]
    · rw [if_neg hcond]
  calc outs.map _ = outs.map id := List.map_congr_left hmap
    _ = outs := List.map_id outs

theorem applyMeterEntries_encode_self (m : MeterRec) :
    applyMeterEntries m (encodeMeterEntries m) = m := by
  show ({ m with power := decodeNumField (jnumOpt m.power),
                 voltage := decodeNumField (jnumOpt m.voltage),
                 current := decodeNumField (jnumOpt m.current),
                 powerFactor := decodeNumField (jnumOpt m.powerFactor),
                 energy := decodeNumField (jnumOpt m.energy) } : MeterRec) = m
  simp only [decodeNumField_jnumOpt]

theorem applyImportedMeter_id (idx : Nat) (x : MeterRec) (ms : List MeterRec)
    (huniq : ∀ d ∈ ms, d.deviceIndex = idx → d.componentIndex = x.componentIndex → d = x) :
    applyImportedMeter idx (encodeMeterEntries x) ms = ms := by
  induction ms with
  | nil => rfl
  | cons m rest ih =>
      unfold applyImportedMeter
      by_cases hcond : m.deviceIndex = idx ∧
          ciMatches m.componentIndex (encodeMeterEntries x) = true
      · have hci : m.componentIndex = x.componentIndex :=
          ciMatches_num m.componentIndex x.componentIndex (encodeMeterEntries x) rfl hcond.2
        have hm : m = x := huniq m (List.mem_cons_self _ _) hcond.1 hci
        rw [if_pos hcond, hm, applyMeterEntries_encode_self]
      · rw [if_neg hcond, ih (fun d hd => huniq d (List.mem_cons_of_mem _ hd))]

theorem importInputsLoop_encode_id (idx : Nat) (xs : List InputRec) (ins : List InputRec)
    (huniq : ∀ x ∈ xs, ∀ d ∈ ins,
      d.deviceIndex = idx → d.componentIndex = x.componentIndex → d = x) :
    importInputsLoop idx (xs.map encodeInput) ins = .ok ins := by
  induction xs generalizing ins with
  | nil => rfl
  | cons x rest ih =>
      have hstep : importInputsLoop idx ((x :: rest).map encodeInput) ins =
          importInputsLoop idx (rest.map encodeInput)
            (applyImportedInput idx (encodeInputEntries x) ins) := rfl
      rw [hstep, applyImportedInput_id idx x ins (huniq x (List.mem_cons_self _ _))]
      exact ih ins (fun y hy => huniq y (List.mem_cons_of_mem _ hy))

theorem importOutputsLoop_encode_id (idx : Nat) (tm : Bool) (xs : List OutputRec)
    (outs : List OutputRec)
    (huniq : ∀ x ∈ xs, ∀ d ∈ outs,
      d.deviceIndex = idx → d.componentIndex = x.componentIndex → d = x) :
    importOutputsLoop idx tm (xs.map encodeOutput) outs = .ok outs := by
  induction xs generalizing outs with
  | nil => rfl
  | cons x rest ih =>
      have hstep : importOutputsLoop idx tm ((x :: rest).map encodeOutput) outs =
          importOutputsLoop idx tm (rest.map encodeOutput)
            (applyImportedOutput idx tm (encodeOutputEntries x) outs) := rfl
      rw [hstep, applyImportedOutput_id idx tm x outs (huniq x (List.mem_cons_self _ _))]
      exact ih outs (fun y hy => huniq y (List.mem_cons_of_mem _ hy))

theorem importMetersLoop_encode_id (idx : Nat) (xs : List MeterRec) (ms : List MeterRec)
    (huniq : ∀ x ∈ xs, ∀ d ∈ ms,
      d.deviceIndex = idx → d.componentIndex = x.componentIndex → d = x) :
    importMetersLoop idx (xs.map encodeMeter) ms = .ok ms := by
  induction xs generalizing ms with
  | nil => rfl
  | cons x rest ih =>
      have hstep : importMetersLoop idx ((x :: rest).map encodeMeter) ms =
          importMetersLoop idx (rest.map encodeMeter)
            (applyImportedMeter idx (encodeMeterEntries x) ms) := rfl
      rw [hstep, applyImportedMeter_id idx x ms (huniq x (List.mem_cons_self _ _))]
      exact ih ms (fun y hy => huniq y (List.mem_cons_of_mem _ hy))

theorem importStepInputs_eval (stI : ShellyState) (device : DeviceRec)
    (hnodupI : (stI.inputs.map (fun x => (x.deviceIndex, x.componentIndex))).Nodup) :
    (if (jfind (encodeDeviceEntries stI device) "Inputs").isSome ∧ device.inputsCount > 0 then
      match iterElems ((jfind (encodeDeviceEntries stI device) "Inputs").getD .null) with
      | .error e => .error e
      | .ok xs => importInputsLoop device.index xs stI.inputs
    else .ok stI.inputs) = Except.ok stI.inputs := by
  have hfI : jfind (encodeDeviceEntries stI device) "Inputs" =
      some (.arr ((inputsOf stI device.index).map encodeInput)) := rfl
  by_cases hic : device.inputsCount > 0
  · rw [if_pos ⟨by rw [hfI]; rfl, hic⟩, hfI]
    show importInputsLoop device.index
      ((inputsOf stI device.index).map encodeInput) stI.inputs = _
    refine importInputsLoop_encode_id _ _ _ (fun x hx d hd hdi hci => ?_)
    have hx' : x ∈ stI.inputs.filter (fun i => i.deviceIndex = device.index) := hx
    have hmem := List.mem_filter.mp hx'
    have hxi : x.deviceIndex = device.index := of_decide_eq_true hmem.2
    have hkey : (d.deviceIndex, d.componentIndex) = (x.deviceIndex, x.componentIndex) := by
      rw [hdi, hxi, hci]
    exact List.inj_on_of_nodup_map hnodupI hd hmem.1 hkey
  · rw [if_neg (fun hc => hic hc.2)]

theorem importStepOutputs_eval (stI : ShellyState) (device : DeviceRec)
    (hnodupO : (stI.outputs.map (fun x => (x.deviceIndex, x.componentIndex))).Nodup) :
    (if (jfind (encodeDeviceEntries stI device) "Outputs").isSome ∧ device.outputsCount > 0 then
      match iterElems ((jfind (encodeDeviceEntries stI device) "Outputs").getD .null) with
      | .error e => .error e
      | .ok xs => importOutputsLoop device.index device.temperatureMonitoring xs stI.outputs
    else .ok stI.outputs) = Except.ok stI.outputs := by
  have hfO : jfind (encodeDeviceEntries stI device) "Outputs" =
      some (.arr ((outputsOf stI device.index).map encodeOutput)) := rfl
  by_cases hoc : device.outputsCount > 0
  · rw [if_pos ⟨by rw [hfO]; rfl, hoc⟩, hfO]
    show importOutputsLoop device.index device.temperatureMonitoring
      ((outputsOf stI device.index).map encodeOutput) stI.outputs = _
    refine importOutputsLoop_encode_id _ _ _ _ (fun x hx d hd hdi hci => ?_)
    have hx' : x ∈ stI.outputs.filter (fun o => o.deviceIndex = device.index) := hx
    have hmem := List.mem_filter.mp hx'
    have hxi : x.deviceIndex = device.index := of_decide_eq_true hmem.2
    have hkey : (d.deviceIndex, d.componentIndex) = (x.deviceIndex, x.componentIndex) := by
      rw [hdi, hxi, hci]
    exact List.inj_on_of_nodup_map hnodupO hd hmem.1 hkey
  · rw [if_neg (fun hc => hoc hc.2)]

theorem importStepMeters_eval (stI : ShellyState) (device : DeviceRec)
    (hnodupM : (stI.meters.map (fun x => (x.deviceIndex, x.componentIndex))).Nodup) :
    (if (jfind (encodeDeviceEntries stI device) "Meters").isSome ∧ device.metersCount > 0 then
      match iterElems ((jfind (encodeDeviceEntries stI device) "Meters").getD .null) with
      | .error e => .error e
      | .ok xs => importMetersLoop device.index xs stI.meters
    else .ok stI.meters) = Except.ok stI.meters := by
  have hfM : jfind (encodeDeviceEntries stI device) "Meters" =
      some (.arr ((metersOf stI device.index).map encodeMeter)) := rfl
  by_cases hmc : device.metersCount > 0
  · rw [if_pos ⟨by rw [hfM]; rfl, hmc⟩, hfM]
    show importMetersLoop device.index
      ((metersOf stI device.index).map encodeMeter) stI.meters = _
    refine importMetersLoop_encode_id _ _ _ (fun x hx d hd hdi hci => ?_)
    have hx' : x ∈ stI.meters.filter (fun m => m.deviceIndex = device.index) := hx
    have hmem := List.mem_filter.mp hx'
    have hxi : x.deviceIndex = device.index := of_decide_eq_true hmem.2
    have hkey : (d.deviceIndex, d.componentIndex) = (x.deviceIndex, x.componentIndex) := by
      rw [hdi, hxi, hci]
    exact List.inj_on_of_nodup_map hnodupM hd hmem.1 hkey
  · rw [if_neg (fun hc => hmc hc.2)]

theorem import_self_roundtrip (stI : ShellyState) (device : DeviceRec) (p : String) (c : Bool)
    (hsim : device.simulate = true) (hfile : device.simulationFile = some p)
    (hlook : fileLookup stI.files p = some (encodeDeviceInfo stI device))
    (hnodupI : (stI.inputs.map (fun x => (x.deviceIndex, x.componentIndex))).Nodup)
    (hnodupO : (stI.outputs.map (fun x => (x.deviceIndex, x.componentIndex))).Nodup)
    (hnodupM : (stI.meters.map (fun x => (x.deviceIndex, x.componentIndex))).Nodup) :
    import_device_information_from_json stI device c =
      ({ stI with
          devices := setDeviceAt stI.devices device.index (calculate_device_totals stI device) },
        Except.ok true) := by
  unfold import_device_information_from_json
  rw [if_neg (by simp [hsim] : ¬ device.simulate = false), hfile]
  dsimp only
  rw [hlook, show encodeDeviceInfo stI device = JVal.obj (encodeDeviceEntries stI device)
    from rfl]
  dsimp only
  rw [importStepInputs_eval stI device hnodupI]
  dsimp only
  rw [importStepOutputs_eval stI device hnodupO]
  dsimp only
  rw [importStepMeters_eval stI device hnodupM]
  dsimp only
  rw [applyDeviceImport_encode_self, setDeviceAt_setDeviceAt]
  rfl

theorem change_output_sim_eval (env : NetEnv) (st : ShellyState) (oi : Nat) (b : Bool)
    (outp : OutputRec) (device : DeviceRec) (p : String)
    (h1 : st.outputs.get? oi = some outp)
    (h2 : st.devices.get? outp.deviceIndex = some device)
    (hsim : device.simulate = true)
    (hfile : device.simulationFile = some p) :
    change_output env st (.ref oi) b =
      ({ st with
          outputs := setOutputState st.outputs oi b,
          files := fileWrite st.files p
            (encodeDeviceInfo { st with outputs := setOutputState st.outputs oi b } device) },
        Except.ok (true, decide (b ≠ outp.state))) := by
  obtain ⟨hlt, -⟩ := List.get?_eq_some.mp h1
  unfold change_output
  dsimp only [get_output_component]
  rw [if_pos hlt]
  dsimp only
  rw [h1]
  dsimp only
  rw [h2]
  dsimp only
  rw [if_pos hsim]
  unfold finishChange
  dsimp only
  rw [h2]
  dsimp only
  unfold export_device_information_to_json
  rw [if_neg (by simp [hsim] : ¬ device.simulate = false), hfile]
  rw [if_pos rfl]

theorem get_device_status_sim_eval (env : NetEnv) (st : ShellyState) (device : DeviceRec)
    (hsim : device.simulate = true) (st' : ShellyState)
    (himp : import_device_information_from_json st device true = (st', Except.ok true)) :
    get_device_status env st (.ref device) = (st', Except.ok true) := by
  unfold get_device_status
  dsimp only [get_device]
  rw [if_pos hsim, himp]

/-- C8: on a device in simulation mode whose live components carry
unambiguous (device index, component index) keys, setting an output via
`change_output` and then refreshing the device via `get_device_status`
succeeds and reads back exactly the state that was written: the
write-then-read round trip through the simulation file is the identity on
the output state.  Both equations hold for every pair of network oracles,
so neither operation consults the network. -/
theorem sim_round_trip (env env2 : NetEnv) (st : ShellyState) (oi : Nat) (b : Bool)
    (outp : OutputRec) (device : DeviceRec) (p : String)
    (h1 : st.outputs.get? oi = some outp)
    (h2 : st.devices.get? outp.deviceIndex = some device)
    (hsim : device.simulate = true)
    (hfile : device.simulationFile = some p)
    (hnodupI : (st.inputs.map (fun x => (x.deviceIndex, x.componentIndex))).Nodup)
    (hnodupO : (st.outputs.map (fun x => (x.deviceIndex, x.componentIndex))).Nodup)
    (hnodupM : (st.meters.map (fun x => (x.deviceIndex, x.componentIndex))).Nodup) :
    ∃ st1 c st2, change_output env st (.ref oi) b = (st1, .ok (true, c)) ∧
      get_device_status env2 st1 (.ref device) = (st2, .ok true) ∧
      (st2.outputs.get? oi).map (fun o => o.state) = some b := by
  have hkeysO : ((setOutputState st.outputs oi b).map
      (fun x => (x.deviceIndex, x.componentIndex))).Nodup := by
    rw [setOutputState_keys]
    exact hnodupO
  have hA := change_output_sim_eval env st oi b outp device p h1 h2 hsim hfile
  have hlook : fileLookup (fileWrite st.files p (encodeDeviceInfo
      { st with outputs := setOutputState st.outputs oi b } device)) p =
      some (encodeDeviceInfo { st with outputs := setOutputState st.outputs oi b } device) :=
    fileLookup_fileWrite _ _ _
  have himp := import_self_roundtrip
    ({ st with
        outputs := setOutputState st.outputs oi b,
        files := fileWrite st.files p
          (encodeDeviceInfo { st with outputs := setOutputState st.outputs oi b } device) })
    device p true hsim hfile hlook hnodupI hkeysO hnodupM
  have hgds := get_device_status_sim_eval env2 _ device hsim _ himp
  refine ⟨_, _, _, hA, hgds, ?_⟩
  show ((setOutputState st.outputs oi b).get? oi).map (fun o => o.state) = some b
  rw [setOutputState_get_self st.outputs oi outp b h1]
  rfl

/-- Witness of C8: the round trip on the concrete simulated fixture, issued
against the dead network oracle. -/
theorem sim_round_trip_witness :
    ∃ st1 c st2, change_output envDead stSim (.ref 0) true = (st1, .ok (true, c)) ∧
      get_device_status envDead st1 (.ref devSim) = (st2, .ok true) ∧
      (st2.outputs.get? 0).map (fun o => o.state) = some true :=
  sim_round_trip envDead envDead stSim 0 true (mkOutput 0 none) devSim "Dev.json"
    rfl rfl rfl rfl (by decide) (by decide) (by decide)

/-! ## Static congruence machinery for the idempotence claim -/

theorem static_protocol {d1 d2 : DeviceRec} (h : d1.static = d2.static) :
    d1.protocol = d2.protocol := congrArg (fun x => x.protocol) h

theorem static_port {d1 d2 : DeviceRec} (h : d1.static = d2.static) :
    d1.port = d2.port := congrArg (fun x => x.port) h

theorem static_id {d1 d2 : DeviceRec} (h : d1.static = d2.static) :
    d1.id = d2.id := congrArg (fun x => x.id) h

theorem static_metersSeperate {d1 d2 : DeviceRec} (h : d1.static = d2.static) :
    d1.metersSeperate = d2.metersSeperate := congrArg (fun x => x.metersSeperate) h

theorem static_metersCount {d1 d2 : DeviceRec} (h : d1.static = d2.static) :
    d1.metersCount = d2.metersCount := congrArg (fun x => x.metersCount) h

theorem static_tempMon {d1 d2 : DeviceRec} (h : d1.static = d2.static) :
    d1.temperatureMonitoring = d2.temperatureMonitoring :=
  congrArg (fun x => x.temperatureMonitoring) h

theorem istatic_deviceIndex {c1 c2 : InputRec} (h : c1.static = c2.static) :
    c1.deviceIndex = c2.deviceIndex := congrArg (fun x => x.deviceIndex) h

theorem istatic_componentIndex {c1 c2 : InputRec} (h : c1.static = c2.static) :
    c1.componentIndex = c2.componentIndex := congrArg (fun x => x.componentIndex) h

theorem ostatic_deviceIndex {c1 c2 : OutputRec} (h : c1.static = c2.static) :
    c1.deviceIndex = c2.deviceIndex := congrArg (fun x => x.deviceIndex) h

theorem ostatic_componentIndex {c1 c2 : OutputRec} (h : c1.static = c2.static) :
    c1.componentIndex = c2.componentIndex := congrArg (fun x => x.componentIndex) h

theorem mstatic_deviceIndex {c1 c2 : MeterRec} (h : c1.static = c2.static) :
    c1.deviceIndex = c2.deviceIndex := congrArg (fun x => x.deviceIndex) h

theorem mstatic_componentIndex {c1 c2 : MeterRec} (h : c1.static = c2.static) :
    c1.componentIndex = c2.componentIndex := congrArg (fun x => x.componentIndex) h

theorem sp_devices {st st' : ShellyState} (h : st'.staticProj = st.staticProj) :
    st'.devices.map DeviceRec.static = st.devices.map DeviceRec.static :=
  congrArg (fun p => p.1) h

theorem sp_inputs {st st' : ShellyState} (h : st'.staticProj = st.staticProj) :
    st'.inputs.map InputRec.static = st.inputs.map InputRec.static :=
  congrArg (fun p => p.2.1) h

theorem sp_outputs {st st' : ShellyState} (h : st'.staticProj = st.staticProj) :
    st'.outputs.map OutputRec.static = st.outputs.map OutputRec.static :=
  congrArg (fun p => p.2.2.1) h

theorem sp_meters {st st' : ShellyState} (h : st'.staticProj = st.staticProj) :
    st'.meters.map MeterRec.static = st.meters.map MeterRec.static :=
  congrArg (fun p => p.2.2.2.1) h

theorem sp_responseTimeout {st st' : ShellyState} (h : st'.staticProj = st.staticProj) :
    st'.responseTimeout = st.responseTimeout := congrArg (fun p => p.2.2.2.2.1) h

theorem sp_retryCount {st st' : ShellyState} (h : st'.staticProj = st.staticProj) :
    st'.retryCount = st.retryCount := congrArg (fun p => p.2.2.2.2.2.1) h

theorem sp_retryDelay {st st' : ShellyState} (h : st'.staticProj = st.staticProj) :
    st'.retryDelay = st.retryDelay := congrArg (fun p => p.2.2.2.2.2.2.1) h

theorem sp_pingAllowed {st st' : ShellyState} (h : st'.staticProj = st.staticProj) :
    st'.pingAllowed = st.pingAllowed := congrArg (fun p => p.2.2.2.2.2.2.2) h

theorem get?_map_congr {α β : Type} (f : α → β) {l l' : List α}
    (h : l'.map f = l.map f) (i : Nat) :
    (l'.get? i).map f = (l.get? i).map f := by
  rw [← List.get?_map, h, List.get?_map]

theorem setOutputState_map_static (outs : List OutputRec) (oi : Nat) (b : Bool) :
    (setOutputState outs oi b).map OutputRec.static = outs.map OutputRec.static := by
  induction outs generalizing oi with
  | nil => rfl
  | cons x xs ih =>
      cases oi with
      | zero => rfl
      | succ n =>
          show _ :: (setOutputState xs n b).map _ = _ :: xs.map _
          rw [ih n]

theorem onlineScan_snd_congr (env : NetEnv) (pa : Bool) (sel sel' : DeviceRec)
    (hsel : sel'.index = sel.index) :
    ∀ (ds ds' : List DeviceRec) (i : Nat),
      ds'.map DeviceRec.static = ds.map DeviceRec.static →
      (onlineScan env pa (some sel') ds' i).2 = (onlineScan env pa (some sel) ds i).2 := by
  intro ds
  induction ds with
  | nil =>
      intro ds' i h
      have : ds' = [] := by
        cases ds' with
        | nil => rfl
        | cons a l => simp at h
      subst this
      rfl
  | cons d tl ih =>
      intro ds' i h
      cases ds' with
      | nil => simp at h
      | cons d' tl' =>
          simp only [List.map_cons, List.cons.injEq] at h
          rw [onlineScan, onlineScan]
          have hsim : d'.simulate = d.simulate := static_simulate h.1
          have hhost : d'.hostname = d.hostname := static_hostname h.1
          have htl := ih tl' (i + 1) h.2
          by_cases h1 : d.simulate ∨ pa = false
          · rw [if_pos (by rw [hsim]; exact h1), if_pos h1]
            dsimp only
            rw [htl]
          · rw [if_neg (by rw [hsim]; exact h1), if_neg h1]
            by_cases h2 : (some sel).all (fun s => s.index = i)
            · rw [if_pos (by simp only [Option.all] at h2 ⊢; rw [hsel]; exact h2), if_pos h2]
              dsimp only
              rw [htl, hhost]
            · rw [if_neg (by simp only [Option.all] at h2 ⊢; rw [hsel]; exact h2), if_neg h2]
              dsimp only
              rw [htl]

theorem is_device_online_ref_eval (env : NetEnv) (st : ShellyState) (sel : DeviceRec) :
    is_device_online env st (some (.ref sel)) =
      ({ st with devices := (onlineScan env st.pingAllowed (some sel) st.devices 0).1 },
        .ok (!(onlineScan env st.pingAllowed (some sel) st.devices 0).2)) := rfl

theorem find_byId_map_static (n : Int) :
    ∀ (ds ds' : List DeviceRec),
      ds'.map DeviceRec.static = ds.map DeviceRec.static →
      (ds'.find? (fun d => d.id = n)).map DeviceRec.static =
        (ds.find? (fun d => d.id = n)).map DeviceRec.static := by
  intro ds
  induction ds with
  | nil =>
      intro ds' h
      have : ds' = [] := by
        cases ds' with
        | nil => rfl
        | cons a l => simp at h
      subst this
      rfl
  | cons d tl ih =>
      intro ds' h
      cases ds' with
      | nil => simp at h
      | cons d' tl' =>
          simp only [List.map_cons, List.cons.injEq] at h
          have hid : d'.id = d.id := static_id h.1
          by_cases hp : d.id = n
          · have e1 : d'.id = n := by rw [hid]; exact hp
            rw [List.find?_cons, List.find?_cons,
                show (decide (d'.id = n)) = true from decide_eq_true e1,
                show (decide (d.id = n)) = true from decide_eq_true hp]
            exact congrArg some h.1
          · have e1 : ¬ d'.id = n := by rw [hid]; exact hp
            rw [List.find?_cons, List.find?_cons,
                show (decide (d'.id = n)) = false from decide_eq_false e1,
                show (decide (d.id = n)) = false from decide_eq_false hp]
            exact ih tl' h.2

theorem staticProj_update (st st' : ShellyState) (ds : List DeviceRec) (ins : List InputRec)
    (outs : List OutputRec) (ms : List MeterRec)
    (hst : st'.staticProj = st.staticProj)
    (hds : ds.map DeviceRec.static = st'.devices.map DeviceRec.static)
    (hins : ins.map InputRec.static = st'.inputs.map InputRec.static)
    (houts : outs.map OutputRec.static = st'.outputs.map OutputRec.static)
    (hms : ms.map MeterRec.static = st'.meters.map MeterRec.static) :
    ({ st' with devices := ds, inputs := ins, outputs := outs, meters := ms }
      : ShellyState).staticProj = st.staticProj := by
  have h1 : ({ st' with devices := ds, inputs := ins, outputs := outs, meters := ms }
      : ShellyState).staticProj =
      (ds.map DeviceRec.static, ins.map InputRec.static, outs.map OutputRec.static,
       ms.map MeterRec.static, st'.responseTimeout, st'.retryCount, st'.retryDelay,
       st'.pingAllowed) := rfl
  have h2 : st'.staticProj =
      (st'.devices.map DeviceRec.static, st'.inputs.map InputRec.static,
       st'.outputs.map OutputRec.static, st'.meters.map MeterRec.static,
       st'.responseTimeout, st'.retryCount, st'.retryDelay, st'.pingAllowed) := rfl
  rw [h1, ← hst, h2, hds, hins, houts, hms]

theorem is_device_online_byId_none (env : NetEnv) (st : ShellyState) (n : Int)
    (hf : st.devices.find? (fun d => d.id = n) = none) :
    is_device_online env st (some (.byId n)) = (st, .error .notFound) := by
  simp only [is_device_online, get_device, hf]

theorem is_device_online_byId_some (env : NetEnv) (st : ShellyState) (n : Int)
    (sel : DeviceRec) (hf : st.devices.find? (fun d => d.id = n) = some sel) :
    is_device_online env st (some (.byId n)) =
      ({ st with devices := (onlineScan env st.pingAllowed (some sel) st.devices 0).1 },
        .ok (!(onlineScan env st.pingAllowed (some sel) st.devices 0).2)) := by
  simp only [is_device_online, get_device, hf]

theorem rpc_request_congr (env : NetEnv) (st st' : ShellyState) (dev dev' : DeviceRec)
    (payload : JVal) (hst : st'.staticProj = st.staticProj) (hdev : dev'.static = dev.static) :
    (rpc_request env st' dev' payload).out = (rpc_request env st dev payload).out ∧
    (rpc_request env st' dev' payload).st.staticProj = st.staticProj ∧
    (rpc_request env st dev payload).st.staticProj = st.staticProj := by
  have hping := sp_pingAllowed hst
  have hrc := sp_retryCount hst
  have hds := sp_devices hst
  have hstat' : ((onlineScan env st'.pingAllowed (some dev') st'.devices 0).1).map
      DeviceRec.static = st'.devices.map DeviceRec.static :=
    onlineScan_map_static env st'.pingAllowed (some dev') st'.devices 0
  have hstat : ((onlineScan env st.pingAllowed (some dev) st.devices 0).1).map
      DeviceRec.static = st.devices.map DeviceRec.static :=
    onlineScan_map_static env st.pingAllowed (some dev) st.devices 0
  have hsnd' : (onlineScan env st'.pingAllowed (some dev') st'.devices 0).2 =
      (onlineScan env st.pingAllowed (some dev) st.devices 0).2 := by
    rw [hping]
    exact onlineScan_snd_congr env st.pingAllowed dev dev' (static_index hdev)
      st.devices st'.devices 0 hds
  have hreq : requestLoop (env.rpc (dev.hostname.getD "") dev.port payload) rpcParse
      st'.retryCount 0 0 =
      requestLoop (env.rpc (dev.hostname.getD "") dev.port payload) rpcParse
      st.retryCount 0 0 := by rw [hrc]
  unfold rpc_request
  rw [is_device_online_ref_eval, is_device_online_ref_eval,
      static_hostname hdev, static_port hdev, hsnd']
  cases hb : (onlineScan env st.pingAllowed (some dev) st.devices 0).2 with
  | true =>
      exact ⟨rfl,
        staticProj_update st st' _ st'.inputs st'.outputs st'.meters hst hstat' rfl rfl rfl,
        staticProj_update st st _ st.inputs st.outputs st.meters rfl hstat rfl rfl rfl⟩
  | false =>
      simp only [Bool.not_false]
      rw [hreq]
      cases hr : (requestLoop (env.rpc (dev.hostname.getD "") dev.port payload) rpcParse
          st.retryCount 0 0).1 with
      | error e =>
          exact ⟨rfl,
            staticProj_update st st' _ st'.inputs st'.outputs st'.meters hst hstat' rfl rfl rfl,
            staticProj_update st st _ st.inputs st.outputs st.meters rfl hstat rfl rfl rfl⟩
      | ok dataV =>
          exact ⟨rfl,
            staticProj_update st st' _ st'.inputs st'.outputs st'.meters hst hstat' rfl rfl rfl,
            staticProj_update st st _ st.inputs st.outputs st.meters rfl hstat rfl rfl rfl⟩

theorem rest_request_congr (env : NetEnv) (st st' : ShellyState) (dev dev' : DeviceRec)
    (urlArgs : String) (hst : st'.staticProj = st.staticProj) (hdev : dev'.static = dev.static) :
    (rest_request env st' dev' urlArgs).out = (rest_request env st dev urlArgs).out ∧
    (rest_request env st' dev' urlArgs).st.staticProj = st.staticProj ∧
    (rest_request env st dev urlArgs).st.staticProj = st.staticProj := by
  have hping := sp_pingAllowed hst
  have hrc := sp_retryCount hst
  have hds := sp_devices hst
  have hfind := find_byId_map_static dev.id st.devices st'.devices hds
  have hreq : requestLoop (env.rest (dev.hostname.getD "") dev.port urlArgs) restParse
      st'.retryCount 0 0 =
      requestLoop (env.rest (dev.hostname.getD "") dev.port urlArgs) restParse
      st.retryCount 0 0 := by rw [hrc]
  unfold rest_request
  rw [static_id hdev, static_hostname hdev, static_port hdev]
  cases hf : st.devices.find? (fun d => d.id = dev.id) with
  | none =>
      have hf' : st'.devices.find? (fun d => d.id = dev.id) = none := by
        rw [hf] at hfind
        cases hg : st'.devices.find? (fun d => d.id = dev.id) with
        | none => rfl
        | some x => rw [hg] at hfind; simp at hfind
      rw [is_device_online_byId_none env st dev.id hf,
          is_device_online_byId_none env st' dev.id hf']
      exact ⟨rfl, hst, rfl⟩
  | some sel =>
      rw [hf] at hfind
      cases hg : st'.devices.find? (fun d => d.id = dev.id) with
      | none => rw [hg] at hfind; simp at hfind
      | some sel' =>
          rw [hg] at hfind
          have hss : sel'.static = sel.static := by simpa using hfind
          rw [is_device_online_byId_some env st dev.id sel hf,
              is_device_online_byId_some env st' dev.id sel' hg]
          have hstat' : ((onlineScan env st'.pingAllowed (some sel') st'.devices 0).1).map
              DeviceRec.static = st'.devices.map DeviceRec.static :=
            onlineScan_map_static env st'.pingAllowed (some sel') st'.devices 0
          have hstat : ((onlineScan env st.pingAllowed (some sel) st.devices 0).1).map
              DeviceRec.static = st.devices.map DeviceRec.static :=
            onlineScan_map_static env st.pingAllowed (some sel) st.devices 0
          have hsnd' : (onlineScan env st'.pingAllowed (some sel') st'.devices 0).2 =
              (onlineScan env st.pingAllowed (some sel) st.devices 0).2 := by
            rw [hping]
            exact onlineScan_snd_congr env st.pingAllowed sel sel' (static_index hss)
              st.devices st'.devices 0 hds
          rw [hsnd']
          cases hb : (onlineScan env st.pingAllowed (some sel) st.devices 0).2 with
          | true =>
              exact ⟨rfl,
                staticProj_update st st' _ st'.inputs st'.outputs st'.meters hst hstat'
                  rfl rfl rfl,
                staticProj_update st st _ st.inputs st.outputs st.meters rfl hstat rfl rfl rfl⟩
          | false =>
              simp only [Bool.not_false]
              rw [hreq]
              cases hr : (requestLoop (env.rest (dev.hostname.getD "") dev.port urlArgs)
                  restParse st.retryCount 0 0).1 with
              | error e =>
                  exact ⟨rfl,
                    staticProj_update st st' _ st'.inputs st'.outputs st'.meters hst hstat'
                      rfl rfl rfl,
                    staticProj_update st st _ st.inputs st.outputs st.meters rfl hstat
                      rfl rfl rfl⟩
              | ok dataV =>
                  exact ⟨rfl,
                    staticProj_update st st' _ st'.inputs st'.outputs st'.meters hst hstat'
                      rfl rfl rfl,
                    staticProj_update st st _ st.inputs st.outputs st.meters rfl hstat
                      rfl rfl rfl⟩

theorem emLoop_congr (env : NetEnv) (dev dev' : DeviceRec) (hdev : dev'.static = dev.static) :
    ∀ (n i : Nat) (st st' : ShellyState) (em emd : List JVal),
      st'.staticProj = st.staticProj →
      (emLoop env dev' n i st' em emd).2 = (emLoop env dev n i st em emd).2 ∧
      (emLoop env dev' n i st' em emd).1.staticProj = st.staticProj ∧
      (emLoop env dev n i st em emd).1.staticProj = st.staticProj := by
  intro n
  induction n with
  | zero =>
      intro i st st' em emd hst
      exact ⟨rfl, hst, rfl⟩
  | succ m ih =>
      intro i st st' em emd hst
      obtain ⟨ho1, hs1', hs1⟩ := rpc_request_congr env st st' dev dev'
        (emPayload "EM1.GetStatus" i) hst hdev
      simp only [emLoop]
      cases hr1 : (rpc_request env st dev (emPayload "EM1.GetStatus" i)).out with
      | error e =>
          rw [hr1] at ho1
          rw [ho1]
          exact ⟨rfl, hs1', hs1⟩
      | ok p =>
          obtain ⟨ok1, d1⟩ := p
          rw [hr1] at ho1
          rw [ho1]
          dsimp only
          obtain ⟨ho2, hs2', hs2⟩ := rpc_request_congr env
            (rpc_request env st dev (emPayload "EM1.GetStatus" i)).st
            (rpc_request env st' dev' (emPayload "EM1.GetStatus" i)).st dev dev'
            (emPayload "EM1Data.GetStatus" i) (hs1'.trans hs1.symm) hdev
          cases hr2 : (rpc_request env
              (rpc_request env st dev (emPayload "EM1.GetStatus" i)).st dev
              (emPayload "EM1Data.GetStatus" i)).out with
          | error e2 =>
              rw [hr2] at ho2
              rw [ho2]
              exact ⟨rfl, hs2'.trans hs1, hs2.trans hs1⟩
          | ok p2 =>
              obtain ⟨ok2, d2⟩ := p2
              rw [hr2] at ho2
              rw [ho2]
              dsimp only
              obtain ⟨t1, t2, t3⟩ := ih (i + 1)
                (rpc_request env (rpc_request env st dev
                  (emPayload "EM1.GetStatus" i)).st dev (emPayload "EM1Data.GetStatus" i)).st
                (rpc_request env (rpc_request env st' dev'
                  (emPayload "EM1.GetStatus" i)).st dev' (emPayload "EM1Data.GetStatus" i)).st
                (if ok1 then em ++ [d1] else em) (if ok2 then emd ++ [d2] else emd)
                (hs2'.trans hs2.symm)
              exact ⟨t1, t2.trans (hs2.trans hs1), t3.trans (hs2.trans hs1)⟩

theorem fetchPhase_congr (env : NetEnv) (st st' : ShellyState) (dev dev' : DeviceRec)
    (hst : st'.staticProj = st.staticProj) (hdev : dev'.static = dev.static) :
    (fetchPhase env st' dev').2 = (fetchPhase env st dev).2 ∧
    (fetchPhase env st' dev').1.staticProj = st.staticProj ∧
    (fetchPhase env st dev).1.staticProj = st.staticProj := by
  unfold fetchPhase
  rw [static_protocol hdev, static_metersSeperate hdev, static_metersCount hdev]
  by_cases hp : dev.protocol = "RPC"
  · rw [if_pos hp, if_pos hp]
    obtain ⟨ho, hsa', hsa⟩ := rpc_request_congr env st st' dev dev' rpcStatusPayload hst hdev
    dsimp only
    cases hr : (rpc_request env st dev rpcStatusPayload).out with
    | error e =>
        rw [hr] at ho
        rw [ho]
        exact ⟨rfl, hsa', hsa⟩
    | ok p =>
        obtain ⟨res, body⟩ := p
        rw [hr] at ho
        rw [ho]
        dsimp only
        by_cases hms : dev.metersSeperate = true
        · rw [if_pos hms, if_pos hms]
          rcases hem : emLoop env dev dev.metersCount 0
            (rpc_request env st dev rpcStatusPayload).st [] [] with ⟨stA, outA⟩
          rcases hem' : emLoop env dev' dev.metersCount 0
            (rpc_request env st' dev' rpcStatusPayload).st [] [] with ⟨stA', outA'⟩
          obtain ⟨e1, e2', e2⟩ := emLoop_congr env dev dev' hdev dev.metersCount 0
            (rpc_request env st dev rpcStatusPayload).st
            (rpc_request env st' dev' rpcStatusPayload).st [] [] (hsa'.trans hsa.symm)
          rw [hem'] at e1 e2'
          rw [hem] at e1 e2
          have e1' : outA' = outA := e1
          have f2' : stA'.staticProj = st.staticProj := Eq.trans e2' hsa
          have f2 : stA.staticProj = st.staticProj := Eq.trans e2 hsa
          rw [e1']
          cases outA with
          | error e3 => exact ⟨rfl, f2', f2⟩
          | ok pem =>
              obtain ⟨em, emd⟩ := pem
              exact ⟨rfl, f2', f2⟩
        · rw [if_neg hms, if_neg hms]
          exact ⟨rfl, hsa', hsa⟩
  · rw [if_neg hp, if_neg hp]
    by_cases hp2 : dev.protocol = "REST"
    · rw [if_pos hp2, if_pos hp2]
      obtain ⟨ho, hsa', hsa⟩ := rest_request_congr env st st' dev dev' "status" hst hdev
      dsimp only
      cases hr : (rest_request env st dev "status").out with
      | error e =>
          rw [hr] at ho
          rw [ho]
          exact ⟨rfl, hsa', hsa⟩
      | ok p =>
          obtain ⟨res, body⟩ := p
          rw [hr] at ho
          rw [ho]
          dsimp only
          by_cases hms : dev.metersSeperate = false
          · rw [if_pos hms, if_pos hms]
            exact ⟨rfl, hsa', hsa⟩
          · rw [if_neg hms, if_neg hms]
            exact ⟨rfl, hsa', hsa⟩
    · rw [if_neg hp2, if_neg hp2]
      exact ⟨rfl, hst, rfl⟩

theorem set_same {α : Type} (l : List α) (i : Nat) (a : α)
    (h : l.get? i = some a) : l.set i a = l := by
  induction l generalizing i with
  | nil => simp at h
  | cons x xs ih =>
      cases i with
      | zero =>
          have hx : x = a := by simpa using h
          rw [List.set_cons_zero, hx]
      | succ n =>
          have h2 : xs.get? n = some a := by simpa using h
          rw [List.set_cons_succ, ih n h2]

theorem mapM_rel {α : Type} (sf : α → α) (f f' : α → Except TFail α)
    (hf : ∀ x' x, sf x' = sf x → ExceptRel sf (f' x') (f x)) :
    ∀ (l l' : List α), l'.map sf = l.map sf →
      ExceptRelL sf (l'.mapM f') (l.mapM f) := by
  intro l
  induction l with
  | nil =>
      intro l' h
      have : l' = [] := by
        cases l' with
        | nil => rfl
        | cons a t => simp at h
      subst this
      simp only [List.mapM_nil]
      exact rfl
  | cons x t ih =>
      intro l' h
      cases l' with
      | nil => simp at h
      | cons x' t' =>
          simp only [List.map_cons, List.cons.injEq] at h
          have hx := hf x' x h.1
          have ht := ih t' h.2
          simp only [List.mapM_cons]
          cases hfx' : f' x' with
          | error e =>
              cases hfx : f x with
              | error e2 =>
                  rw [hfx', hfx] at hx
                  have he : e = e2 := hx
                  subst he
                  exact rfl
              | ok y =>
                  rw [hfx', hfx] at hx
                  exact hx.elim
          | ok y' =>
              cases hfx : f x with
              | error e2 =>
                  rw [hfx', hfx] at hx
                  exact hx.elim
              | ok y =>
                  rw [hfx', hfx] at hx
                  have hy : sf y' = sf y := hx
                  cases hmt' : t'.mapM f' with
                  | error e =>
                      cases hmt : t.mapM f with
                      | error e2 =>
                          rw [hmt', hmt] at ht
                          have he : e = e2 := ht
                          subst he
                          exact rfl
                      | ok ys =>
                          rw [hmt', hmt] at ht
                          exact ht.elim
                  | ok ys' =>
                      cases hmt : t.mapM f with
                      | error e2 =>
                          rw [hmt', hmt] at ht
                          exact ht.elim
                      | ok ys =>
                          rw [hmt', hmt] at ht
                          have hys : ys'.map sf = ys.map sf := ht
                          show (y' :: ys').map sf = (y :: ys).map sf
                          simp only [List.map_cons]
                          rw [hy, hys]

theorem mapM_pres {α : Type} (sf : α → α) (f : α → Except TFail α)
    (hf : ∀ x y, f x = .ok y → sf y = sf x) :
    ∀ (l l2 : List α), l.mapM f = .ok l2 → l2.map sf = l.map sf := by
  intro l
  induction l with
  | nil =>
      intro l2 h
      simp only [List.mapM_nil] at h
      have : l2 = [] := by
        have h2 : (Except.ok [] : Except TFail (List α)) = .ok l2 := h
        exact (Except.ok.inj h2).symm
      subst this
      rfl
  | cons x t ih =>
      intro l2 h
      simp only [List.mapM_cons] at h
      cases hfx : f x with
      | error e => rw [hfx] at h; exact absurd h (by simp [Bind.bind, Except.bind])
      | ok y =>
          rw [hfx] at h
          cases hmt : t.mapM f with
          | error e => rw [hmt] at h; exact absurd h (by simp [Bind.bind, Except.bind])
          | ok ys =>
              rw [hmt] at h
              have h2 : (Except.ok (y :: ys) : Except TFail (List α)) = .ok l2 := h
              have : l2 = y :: ys := (Except.ok.inj h2).symm
              subst this
              simp only [List.map_cons]
              rw [hf x y hfx, ih ys hmt]

theorem calc_static (st : ShellyState) (d : DeviceRec) :
    (calculate_device_totals st d).static = d.static := by
  obtain ⟨tq, tp, te, h⟩ := calc_totals_shape st d
  rw [h]
  rfl

theorem reconcileDeviceRPC_congr (dev dev' : DeviceRec) (body : JVal)
    (hdev : dev'.static = dev.static) :
    ExceptRel DeviceRec.static (reconcileDeviceRPC dev' body) (reconcileDeviceRPC dev body) := by
  unfold reconcileDeviceRPC
  cases body.getObjD "sys" with
  | none => exact rfl
  | some sys => exact hdev

theorem reconcileDeviceRPC_static (dev d1 : DeviceRec) (body : JVal)
    (h : reconcileDeviceRPC dev body = .ok d1) : d1.static = dev.static := by
  unfold reconcileDeviceRPC at h
  cases hs : body.getObjD "sys" with
  | none => rw [hs] at h; exact absurd h (by simp)
  | some sys =>
      rw [hs] at h
      have := Except.ok.inj h
      rw [← this]
      rfl

theorem reconcileInputRPC_congr (dev dev' : DeviceRec) (body : JVal) (inp inp' : InputRec)
    (hdev : dev'.static = dev.static) (hinp : inp'.static = inp.static) :
    ExceptRel InputRec.static (reconcileInputRPC dev' body inp')
      (reconcileInputRPC dev body inp) := by
  have hdi : inp'.deviceIndex = inp.deviceIndex := istatic_deviceIndex hinp
  have hci : inp'.componentIndex = inp.componentIndex := istatic_componentIndex hinp
  have hix : dev'.index = dev.index := static_index hdev
  unfold reconcileInputRPC
  rw [show ("input:" ++ toString inp'.componentIndex) =
    ("input:" ++ toString inp.componentIndex) from by rw [hci]]
  by_cases hc : inp.deviceIndex = dev.index
  · rw [if_pos hc, if_pos (show inp'.deviceIndex = dev'.index from by rw [hdi, hix]; exact hc)]
    cases body.getObjD ("input:" ++ toString inp.componentIndex) with
    | none => exact rfl
    | some o => exact hinp
  · rw [if_neg hc,
        if_neg (show ¬ inp'.deviceIndex = dev'.index from by rw [hdi, hix]; exact hc)]
    exact hinp

theorem reconcileInputRPC_static (dev : DeviceRec) (body : JVal) (inp y : InputRec)
    (h : reconcileInputRPC dev body inp = .ok y) : y.static = inp.static := by
  unfold reconcileInputRPC at h
  by_cases hc : inp.deviceIndex = dev.index
  · rw [if_pos hc] at h
    cases hs : body.getObjD ("input:" ++ toString inp.componentIndex) with
    | none => rw [hs] at h; exact absurd h (by simp)
    | some o =>
        rw [hs] at h
        have := Except.ok.inj h
        rw [← this]
        rfl
  · rw [if_neg hc] at h
    have := Except.ok.inj h
    rw [← this]

theorem reconcileOutputRPC_congr (dev dev' : DeviceRec) (body : JVal) (o o' : OutputRec)
    (hdev : dev'.static = dev.static) (ho : o'.static = o.static) :
    ExceptRel OutputRec.static (reconcileOutputRPC dev' body o')
      (reconcileOutputRPC dev body o) := by
  have hdi : o'.deviceIndex = o.deviceIndex := ostatic_deviceIndex ho
  have hci : o'.componentIndex = o.componentIndex := ostatic_componentIndex ho
  have hix : dev'.index = dev.index := static_index hdev
  unfold reconcileOutputRPC
  rw [show ("switch:" ++ toString o'.componentIndex) =
    ("switch:" ++ toString o.componentIndex) from by rw [hci], static_tempMon hdev]
  by_cases hc : o.deviceIndex = dev.index
  · rw [if_pos hc, if_pos (show o'.deviceIndex = dev'.index from by rw [hdi, hix]; exact hc)]
    cases body.getObjD ("switch:" ++ toString o.componentIndex) with
    | none => exact rfl
    | some sw =>
        dsimp only
        by_cases ht : dev.temperatureMonitoring = true
        · rw [if_pos ht, if_pos ht]
          cases objGetObjD sw "temperature" with
          | none => exact rfl
          | some t => exact ho
        · rw [if_neg ht, if_neg ht]
          exact ho
  · rw [if_neg hc,
        if_neg (show ¬ o'.deviceIndex = dev'.index from by rw [hdi, hix]; exact hc)]
    exact ho

theorem reconcileOutputRPC_static (dev : DeviceRec) (body : JVal) (o y : OutputRec)
    (h : reconcileOutputRPC dev body o = .ok y) : y.static = o.static := by
  unfold reconcileOutputRPC at h
  by_cases hc : o.deviceIndex = dev.index
  · rw [if_pos hc] at h
    cases hs : body.getObjD ("switch:" ++ toString o.componentIndex) with
    | none => rw [hs] at h; exact absurd h (by simp)
    | some sw =>
        rw [hs] at h
        dsimp only at h
        by_cases ht : dev.temperatureMonitoring = true
        · rw [if_pos ht] at h
          cases hg : objGetObjD sw "temperature" with
          | none => rw [hg] at h; exact absurd h (by simp)
          | some t =>
              rw [hg] at h
              have := Except.ok.inj h
              rw [← this]
              rfl
        · rw [if_neg ht] at h
          have := Except.ok.inj h
          rw [← this]
          rfl
  · rw [if_neg hc] at h
    have := Except.ok.inj h
    rw [← this]

theorem reconcileMeterRPC_congr (dev dev' : DeviceRec) (body : JVal) (em emd : List JVal)
    (m m' : MeterRec) (hdev : dev'.static = dev.static) (hm : m'.static = m.static) :
    ExceptRel MeterRec.static (reconcileMeterRPC dev' body em emd m')
      (reconcileMeterRPC dev body em emd m) := by
  have hdi : m'.deviceIndex = m.deviceIndex := mstatic_deviceIndex hm
  have hci : m'.componentIndex = m.componentIndex := mstatic_componentIndex hm
  have hix : dev'.index = dev.index := static_index hdev
  unfold reconcileMeterRPC
  rw [show ("switch:" ++ toString m'.componentIndex) =
        ("switch:" ++ toString m.componentIndex) from by rw [hci],
      show emd.get? m'.componentIndex = emd.get? m.componentIndex from by rw [hci],
      static_metersSeperate hdev, static_metersCount hdev]
  by_cases hc : m.deviceIndex = dev.index
  · rw [if_pos hc, if_pos (show m'.deviceIndex = dev'.index from by rw [hdi, hix]; exact hc)]
    by_cases hsep : dev.metersSeperate = true
    · rw [if_pos hsep, if_pos hsep]
      by_cases hlen : em.length ≤ dev.metersCount ∨ emd.length ≤ dev.metersCount
      · rw [if_pos hlen, if_pos hlen]
        exact rfl
      · rw [if_neg hlen, if_neg hlen]
        cases body.getObjD "params" with
        | none => exact rfl
        | some p =>
            dsimp only
            cases emd.get? m.componentIndex with
            | none => exact rfl
            | some ev =>
                dsimp only
                cases ev.getObjD "params" with
                | none => exact rfl
                | some ep => exact hm
    · rw [if_neg hsep, if_neg hsep]
      cases body.getObjD ("switch:" ++ toString m.componentIndex) with
      | none => exact rfl
      | some sw =>
          dsimp only
          cases objGetObjD sw "aenergy" with
          | none => exact rfl
          | some ae => exact hm
  · rw [if_neg hc,
        if_neg (show ¬ m'.deviceIndex = dev'.index from by rw [hdi, hix]; exact hc)]
    exact hm

theorem reconcileMeterRPC_static (dev : DeviceRec) (body : JVal) (em emd : List JVal)
    (m y : MeterRec) (h : reconcileMeterRPC dev body em emd m = .ok y) :
    y.static = m.static := by
  unfold reconcileMeterRPC at h
  by_cases hc : m.deviceIndex = dev.index
  · rw [if_pos hc] at h
    by_cases hsep : dev.metersSeperate = true
    · rw [if_pos hsep] at h
      by_cases hlen : em.length ≤ dev.metersCount ∨ emd.length ≤ dev.metersCount
      · rw [if_pos hlen] at h
        exact absurd h (by simp)
      · rw [if_neg hlen] at h
        cases hs : body.getObjD "params" with
        | none => rw [hs] at h; exact absurd h (by simp)
        | some p =>
            rw [hs] at h
            dsimp only at h
            cases hg : emd.get? m.componentIndex with
            | none => rw [hg] at h; exact absurd h (by simp)
            | some ev =>
                rw [hg] at h
                dsimp only at h
                cases hg2 : ev.getObjD "params" with
                | none => rw [hg2] at h; exact absurd h (by simp)
                | some ep =>
                    rw [hg2] at h
                    have := Except.ok.inj h
                    rw [← this]
                    rfl
    · rw [if_neg hsep] at h
      cases hs : body.getObjD ("switch:" ++ toString m.componentIndex) with
      | none => rw [hs] at h; exact absurd h (by simp)
      | some sw =>
          rw [hs] at h
          dsimp only at h
          cases hg : objGetObjD sw "aenergy" with
          | none => rw [hg] at h; exact absurd h (by simp)
          | some ae =>
              rw [hg] at h
              have := Except.ok.inj h
              rw [← this]
              rfl
  · rw [if_neg hc] at h
    have := Except.ok.inj h
    rw [← this]

theorem reconcileDeviceREST_congr (dev dev' : DeviceRec) (body : JVal)
    (hdev : dev'.static = dev.static) :
    ExceptRel DeviceRec.static (reconcileDeviceREST dev' body)
      (reconcileDeviceREST dev body) := by
  unfold reconcileDeviceREST
  cases body with
  | obj kvs =>
      dsimp only
      cases objGetObjD kvs "update" with
      | none => exact rfl
      | some up =>
          dsimp only
          by_cases ht : dev.temperatureMonitoring = true
          · rw [if_pos ht, if_pos (show dev'.temperatureMonitoring = true from by
              rw [static_tempMon hdev]; exact ht)]
            exact hdev
          · rw [if_neg ht, if_neg (show ¬ dev'.temperatureMonitoring = true from by
              rw [static_tempMon hdev]; exact ht)]
            exact hdev
  | null => exact rfl
  | bool b => exact rfl
  | num q => exact rfl
  | str s2 => exact rfl
  | arr xs => exact rfl

theorem reconcileDeviceREST_static (dev d1 : DeviceRec) (body : JVal)
    (h : reconcileDeviceREST dev body = .ok d1) : d1.static = dev.static := by
  unfold reconcileDeviceREST at h
  cases body with
  | obj kvs =>
      dsimp only at h
      cases hu : objGetObjD kvs "update" with
      | none => rw [hu] at h; exact absurd h (by simp)
      | some up =>
          rw [hu] at h
          dsimp only at h
          have := Except.ok.inj h
          rw [← this]
          by_cases ht : dev.temperatureMonitoring = true
          · rw [if_pos ht]
            rfl
          · rw [if_neg ht]
            rfl
  | null => exact absurd h (by simp)
  | bool b => exact absurd h (by simp)
  | num q => exact absurd h (by simp)
  | str s2 => exact absurd h (by simp)
  | arr xs => exact absurd h (by simp)

theorem reconcileInputREST_congr (dev dev' : DeviceRec) (kvs : List (String × JVal))
    (inp inp' : InputRec) (hdev : dev'.static = dev.static) (hinp : inp'.static = inp.static) :
    ExceptRel InputRec.static (reconcileInputREST dev' kvs inp')
      (reconcileInputREST dev kvs inp) := by
  have hdi : inp'.deviceIndex = inp.deviceIndex := istatic_deviceIndex hinp
  have hix : dev'.index = dev.index := static_index hdev
  unfold reconcileInputREST
  by_cases hc : inp.deviceIndex = dev.index
  · rw [if_pos hc, if_pos (show inp'.deviceIndex = dev'.index from by rw [hdi, hix]; exact hc)]
    cases jfind kvs "inputs" with
    | none => exact rfl
    | some v =>
        cases v with
        | obj o => exact hinp
        | null => exact rfl
        | bool b => exact rfl
        | num q => exact rfl
        | str s2 => exact rfl
        | arr xs => exact rfl
  · rw [if_neg hc,
        if_neg (show ¬ inp'.deviceIndex = dev'.index from by rw [hdi, hix]; exact hc)]
    exact hinp

theorem reconcileInputREST_static (dev : DeviceRec) (kvs : List (String × JVal))
    (inp y : InputRec) (h : reconcileInputREST dev kvs inp = .ok y) : y.static = inp.static := by
  unfold reconcileInputREST at h
  by_cases hc : inp.deviceIndex = dev.index
  · rw [if_pos hc] at h
    cases hs : jfind kvs "inputs" with
    | none => rw [hs] at h; exact absurd h (by simp)
    | some v =>
        rw [hs] at h
        cases v with
        | obj o =>
            have := Except.ok.inj h
            rw [← this]
            rfl
        | null => exact absurd h (by simp)
        | bool b => exact absurd h (by simp)
        | num q => exact absurd h (by simp)
        | str s2 => exact absurd h (by simp)
        | arr xs => exact absurd h (by simp)
  · rw [if_neg hc] at h
    have := Except.ok.inj h
    rw [← this]

theorem reconcileOutputREST_congr (dev dev' : DeviceRec) (kvs : List (String × JVal))
    (o o' : OutputRec) (hdev : dev'.static = dev.static) (ho : o'.static = o.static) :
    ExceptRel OutputRec.static (reconcileOutputREST dev' kvs o')
      (reconcileOutputREST dev kvs o) := by
  have hdi : o'.deviceIndex = o.deviceIndex := ostatic_deviceIndex ho
  have hci : o'.componentIndex = o.componentIndex := ostatic_componentIndex ho
  have hix : dev'.index = dev.index := static_index hdev
  unfold reconcileOutputREST
  rw [show pyIndex ((jfind kvs "relays").getD (.arr [])) o'.componentIndex =
        pyIndex ((jfind kvs "relays").getD (.arr [])) o.componentIndex from by rw [hci],
      static_tempMon hdev]
  by_cases hc : o.deviceIndex = dev.index
  · rw [if_pos hc, if_pos (show o'.deviceIndex = dev'.index from by rw [hdi, hix]; exact hc)]
    cases pyIndex ((jfind kvs "relays").getD (.arr [])) o.componentIndex with
    | error e => exact rfl
    | ok elem =>
        dsimp only
        cases elemFields elem with
        | error e => exact rfl
        | ok ef =>
            dsimp only
            by_cases ht : dev.temperatureMonitoring = true
            · rw [if_pos ht, if_pos ht]
              exact ho
            · rw [if_neg ht, if_neg ht]
              exact ho
  · rw [if_neg hc,
        if_neg (show ¬ o'.deviceIndex = dev'.index from by rw [hdi, hix]; exact hc)]
    exact ho

theorem reconcileOutputREST_static (dev : DeviceRec) (kvs : List (String × JVal))
    (o y : OutputRec) (h : reconcileOutputREST dev kvs o = .ok y) : y.static = o.static := by
  unfold reconcileOutputREST at h
  by_cases hc : o.deviceIndex = dev.index
  · rw [if_pos hc] at h
    cases hpi : pyIndex ((jfind kvs "relays").getD (.arr [])) o.componentIndex with
    | error e => rw [hpi] at h; exact absurd h (by simp)
    | ok elem =>
        rw [hpi] at h
        dsimp only at h
        cases hef : elemFields elem with
        | error e => rw [hef] at h; exact absurd h (by simp)
        | ok ef =>
            rw [hef] at h
            dsimp only at h
            have := Except.ok.inj h
            rw [← this]
            by_cases ht : dev.temperatureMonitoring = true
            · rw [if_pos ht]
              rfl
            · rw [if_neg ht]
              rfl
  · rw [if_neg hc] at h
    have := Except.ok.inj h
    rw [← this]

theorem reconcileMeterREST_congr (dev dev' : DeviceRec) (kvs : List (String × JVal))
    (m m' : MeterRec) (hdev : dev'.static = dev.static) (hm : m'.static = m.static) :
    ExceptRel MeterRec.static (reconcileMeterREST dev' kvs m')
      (reconcileMeterREST dev kvs m) := by
  have hdi : m'.deviceIndex = m.deviceIndex := mstatic_deviceIndex hm
  have hci : m'.componentIndex = m.componentIndex := mstatic_componentIndex hm
  have hix : dev'.index = dev.index := static_index hdev
  unfold reconcileMeterREST
  by_cases hc : m.deviceIndex = dev.index
  · rw [if_pos hc, if_pos (show m'.deviceIndex = dev'.index from by rw [hdi, hix]; exact hc)]
    cases pyLen ((jfind kvs "emeters").getD (.arr [])) with
    | error e => exact rfl
    | ok n =>
        dsimp only
        rw [show pyIndex ((jfind kvs (if n > 0 then "emeters" else "meters")).getD (.arr []))
              m'.componentIndex =
            pyIndex ((jfind kvs (if n > 0 then "emeters" else "meters")).getD (.arr []))
              m.componentIndex from by rw [hci]]
        cases pyIndex ((jfind kvs (if n > 0 then "emeters" else "meters")).getD (.arr []))
            m.componentIndex with
        | error e => exact rfl
        | ok elem =>
            dsimp only
            cases elemFields elem with
            | error e => exact rfl
            | ok ef => exact hm
  · rw [if_neg hc,
        if_neg (show ¬ m'.deviceIndex = dev'.index from by rw [hdi, hix]; exact hc)]
    exact hm

theorem reconcileMeterREST_static (dev : DeviceRec) (kvs : List (String × JVal))
    (m y : MeterRec) (h : reconcileMeterREST dev kvs m = .ok y) : y.static = m.static := by
  unfold reconcileMeterREST at h
  by_cases hc : m.deviceIndex = dev.index
  · rw [if_pos hc] at h
    cases hl : pyLen ((jfind kvs "emeters").getD (.arr [])) with
    | error e => rw [hl] at h; exact absurd h (by simp)
    | ok n =>
        rw [hl] at h
        dsimp only at h
        cases hpi : pyIndex ((jfind kvs (if n > 0 then "emeters" else "meters")).getD (.arr []))
            m.componentIndex with
        | error e => rw [hpi] at h; exact absurd h (by simp)
        | ok elem =>
            rw [hpi] at h
            dsimp only at h
            cases hef : elemFields elem with
            | error e => rw [hef] at h; exact absurd h (by simp)
            | ok ef =>
                rw [hef] at h
                have := Except.ok.inj h
                rw [← this]
                rfl
  · rw [if_neg hc] at h
    have := Except.ok.inj h
    rw [← this]

theorem except_bind_ok {α β : Type} (a : α) (f : α → Except TFail β) :
    (Except.ok a >>= f) = f a := rfl

theorem except_bind_error {α β : Type} (e : TFail) (f : α → Except TFail β) :
    ((Except.error e : Except TFail α) >>= f) = Except.error e := rfl

theorem reconcileSuccess_staticProj (st0 st : ShellyState) (dev : DeviceRec)
    (d1 : DeviceRec) (ins : List InputRec) (outs : List OutputRec) (ms : List MeterRec)
    (hst : st.staticProj = st0.staticProj)
    (hreg : (st0.devices.map DeviceRec.static).get? dev.index = some dev.static)
    (hd1 : d1.static = dev.static)
    (hins : ins.map InputRec.static = st.inputs.map InputRec.static)
    (houts : outs.map OutputRec.static = st.outputs.map OutputRec.static)
    (hms : ms.map MeterRec.static = st.meters.map MeterRec.static) :
    ({ st with
        devices := setDeviceAt (setDeviceAt st.devices dev.index d1) dev.index
          (calculate_device_totals
            { st with devices := setDeviceAt st.devices dev.index d1,
                      inputs := ins, outputs := outs, meters := ms } d1),
        inputs := ins, outputs := outs, meters := ms } : ShellyState).staticProj
      = st0.staticProj := by
  refine staticProj_update st0 st _ ins outs ms hst ?_ hins houts hms
  rw [setDeviceAt_setDeviceAt]
  show ((st.devices.set dev.index _).map DeviceRec.static) = st.devices.map DeviceRec.static
  rw [List.map_set, calc_static, hd1, sp_devices hst]
  exact set_same _ _ _ hreg

theorem reconcilePhase_congr (st st' : ShellyState) (dev dev' : DeviceRec) (body : JVal)
    (em emd : List JVal)
    (hst : st'.staticProj = st.staticProj) (hdev : dev'.static = dev.static)
    (hreg : (st.devices.map DeviceRec.static).get? dev.index = some dev.static) :
    (reconcilePhase st' dev' body em emd).2 = (reconcilePhase st dev body em emd).2 ∧
    (reconcilePhase st' dev' body em emd).1.staticProj = st.staticProj ∧
    (reconcilePhase st dev body em emd).1.staticProj = st.staticProj := by
  unfold reconcilePhase
  dsimp only
  rw [static_protocol hdev]
  by_cases hp : dev.protocol = "RPC"
  · rw [if_pos hp, if_pos hp]
    have hd1rel0 := reconcileDeviceRPC_congr dev dev' body hdev
    cases hd1p : reconcileDeviceRPC dev' body with
    | error ed1p =>
        cases hd1u : reconcileDeviceRPC dev body with
        | error ed1u =>
            rw [hd1p, hd1u] at hd1rel0
            have hee : ed1p = ed1u := hd1rel0
            subst hee
            simp only [except_bind_error]
            exact ⟨trivial, hst, trivial⟩
        | ok d1u =>
            rw [hd1p, hd1u] at hd1rel0
            exact (show False from hd1rel0).elim
    | ok d1p =>
        cases hd1u : reconcileDeviceRPC dev body with
        | error ed1u =>
            rw [hd1p, hd1u] at hd1rel0
            exact (show False from hd1rel0).elim
        | ok d1u =>
            rw [hd1p, hd1u] at hd1rel0
            have d1presu := reconcileDeviceRPC_static dev d1u body hd1u
            have d1presp := Eq.trans (reconcileDeviceRPC_static dev' d1p body hd1p) hdev
            have hd1rel : d1p.static = d1u.static := hd1rel0
            simp only [except_bind_ok]
            have hinsrel0 := mapM_rel InputRec.static (reconcileInputRPC dev body) (reconcileInputRPC dev' body) (fun x2 x1 hx => reconcileInputRPC_congr dev dev' body x1 x2 hdev hx) st.inputs st'.inputs (sp_inputs hst)
            cases hinsp : st'.inputs.mapM (reconcileInputRPC dev' body) with
            | error einsp =>
                cases hinsu : st.inputs.mapM (reconcileInputRPC dev body) with
                | error einsu =>
                    rw [hinsp, hinsu] at hinsrel0
                    have hee : einsp = einsu := hinsrel0
                    subst hee
                    simp only [except_bind_error]
                    exact ⟨trivial, hst, trivial⟩
                | ok insu =>
                    rw [hinsp, hinsu] at hinsrel0
                    exact (show False from hinsrel0).elim
            | ok insp =>
                cases hinsu : st.inputs.mapM (reconcileInputRPC dev body) with
                | error einsu =>
                    rw [hinsp, hinsu] at hinsrel0
                    exact (show False from hinsrel0).elim
                | ok insu =>
                    rw [hinsp, hinsu] at hinsrel0
                    have insespresu := mapM_pres InputRec.static (reconcileInputRPC dev body) (fun x y h2 => reconcileInputRPC_static dev body x y h2) st.inputs insu hinsu
                    have insespresp := mapM_pres InputRec.static (reconcileInputRPC dev' body) (fun x y h2 => reconcileInputRPC_static dev' body x y h2) st'.inputs insp hinsp
                    simp only [except_bind_ok]
                    have houtsrel0 := mapM_rel OutputRec.static (reconcileOutputRPC dev body) (reconcileOutputRPC dev' body) (fun x2 x1 hx => reconcileOutputRPC_congr dev dev' body x1 x2 hdev hx) st.outputs st'.outputs (sp_outputs hst)
                    cases houtsp : st'.outputs.mapM (reconcileOutputRPC dev' body) with
                    | error eoutsp =>
                        cases houtsu : st.outputs.mapM (reconcileOutputRPC dev body) with
                        | error eoutsu =>
                            rw [houtsp, houtsu] at houtsrel0
                            have hee : eoutsp = eoutsu := houtsrel0
                            subst hee
                            simp only [except_bind_error]
                            exact ⟨trivial, hst, trivial⟩
                        | ok outsu =>
                            rw [houtsp, houtsu] at houtsrel0
                            exact (show False from houtsrel0).elim
                    | ok outsp =>
                        cases houtsu : st.outputs.mapM (reconcileOutputRPC dev body) with
                        | error eoutsu =>
                            rw [houtsp, houtsu] at houtsrel0
                            exact (show False from houtsrel0).elim
                        | ok outsu =>
                            rw [houtsp, houtsu] at houtsrel0
                            have outspresu := mapM_pres OutputRec.static (reconcileOutputRPC dev body) (fun x y h2 => reconcileOutputRPC_static dev body x y h2) st.outputs outsu houtsu
                            have outspresp := mapM_pres OutputRec.static (reconcileOutputRPC dev' body) (fun x y h2 => reconcileOutputRPC_static dev' body x y h2) st'.outputs outsp houtsp
                            simp only [except_bind_ok]
                            have hmsrel0 := mapM_rel MeterRec.static (reconcileMeterRPC dev body em emd) (reconcileMeterRPC dev' body em emd) (fun x2 x1 hx => reconcileMeterRPC_congr dev dev' body em emd x1 x2 hdev hx) st.meters st'.meters (sp_meters hst)
                            cases hmsp : st'.meters.mapM (reconcileMeterRPC dev' body em emd) with
                            | error emsp =>
                                cases hmsu : st.meters.mapM (reconcileMeterRPC dev body em emd) with
                                | error emsu =>
                                    rw [hmsp, hmsu] at hmsrel0
                                    have hee : emsp = emsu := hmsrel0
                                    subst hee
                                    simp only [except_bind_error]
                                    exact ⟨trivial, hst, trivial⟩
                                | ok msu =>
                                    rw [hmsp, hmsu] at hmsrel0
                                    exact (show False from hmsrel0).elim
                            | ok msp =>
                                cases hmsu : st.meters.mapM (reconcileMeterRPC dev body em emd) with
                                | error emsu =>
                                    rw [hmsp, hmsu] at hmsrel0
                                    exact (show False from hmsrel0).elim
                                | ok msu =>
                                    rw [hmsp, hmsu] at hmsrel0
                                    have mspresu := mapM_pres MeterRec.static (reconcileMeterRPC dev body em emd) (fun x y h2 => reconcileMeterRPC_static dev body em emd x y h2) st.meters msu hmsu
                                    have mspresp := mapM_pres MeterRec.static (reconcileMeterRPC dev' body em emd) (fun x y h2 => reconcileMeterRPC_static dev' body em emd x y h2) st'.meters msp hmsp
                                    simp only [except_bind_ok]
                                    refine ⟨rfl, ?_, ?_⟩
                                    · exact reconcileSuccess_staticProj st st' dev' d1p insp outsp msp hst
                                        (by rw [static_index hdev, hdev]; exact hreg) (d1presp.trans hdev.symm) insespresp
                                        outspresp mspresp
                                    · exact reconcileSuccess_staticProj st st dev d1u insu outsu msu rfl hreg
                                        d1presu insespresu outspresu mspresu
  · rw [if_neg hp, if_neg hp]
    cases body with
    | obj kvs =>
      have hd1rel0 := reconcileDeviceREST_congr dev dev' (JVal.obj kvs) hdev
      cases hd1p : reconcileDeviceREST dev' (JVal.obj kvs) with
      | error ed1p =>
          cases hd1u : reconcileDeviceREST dev (JVal.obj kvs) with
          | error ed1u =>
              rw [hd1p, hd1u] at hd1rel0
              have hee : ed1p = ed1u := hd1rel0
              subst hee
              simp only [except_bind_error]
              exact ⟨trivial, hst, trivial⟩
          | ok d1u =>
              rw [hd1p, hd1u] at hd1rel0
              exact (show False from hd1rel0).elim
      | ok d1p =>
          cases hd1u : reconcileDeviceREST dev (JVal.obj kvs) with
          | error ed1u =>
              rw [hd1p, hd1u] at hd1rel0
              exact (show False from hd1rel0).elim
          | ok d1u =>
              rw [hd1p, hd1u] at hd1rel0
              have d1presu := reconcileDeviceREST_static dev d1u (JVal.obj kvs) hd1u
              have d1presp := Eq.trans (reconcileDeviceREST_static dev' d1p (JVal.obj kvs) hd1p) hdev
              have hd1rel : d1p.static = d1u.static := hd1rel0
              simp only [except_bind_ok]
              have hinsrel0 := mapM_rel InputRec.static (reconcileInputREST d1u kvs) (reconcileInputREST d1p kvs) (fun x2 x1 hx => reconcileInputREST_congr d1u d1p kvs x1 x2 hd1rel hx) st.inputs st'.inputs (sp_inputs hst)
              cases hinsp : st'.inputs.mapM (reconcileInputREST d1p kvs) with
              | error einsp =>
                  cases hinsu : st.inputs.mapM (reconcileInputREST d1u kvs) with
                  | error einsu =>
                      rw [hinsp, hinsu] at hinsrel0
                      have hee : einsp = einsu := hinsrel0
                      subst hee
                      simp only [except_bind_error]
                      exact ⟨trivial, hst, trivial⟩
                  | ok insu =>
                      rw [hinsp, hinsu] at hinsrel0
                      exact (show False from hinsrel0).elim
              | ok insp =>
                  cases hinsu : st.inputs.mapM (reconcileInputREST d1u kvs) with
                  | error einsu =>
                      rw [hinsp, hinsu] at hinsrel0
                      exact (show False from hinsrel0).elim
                  | ok insu =>
                      rw [hinsp, hinsu] at hinsrel0
                      have insespresu := mapM_pres InputRec.static (reconcileInputREST d1u kvs) (fun x y h2 => reconcileInputREST_static d1u kvs x y h2) st.inputs insu hinsu
                      have insespresp := mapM_pres InputRec.static (reconcileInputREST d1p kvs) (fun x y h2 => reconcileInputREST_static d1p kvs x y h2) st'.inputs insp hinsp
                      simp only [except_bind_ok]
                      have houtsrel0 := mapM_rel OutputRec.static (reconcileOutputREST d1u kvs) (reconcileOutputREST d1p kvs) (fun x2 x1 hx => reconcileOutputREST_congr d1u d1p kvs x1 x2 hd1rel hx) st.outputs st'.outputs (sp_outputs hst)
                      cases houtsp : st'.outputs.mapM (reconcileOutputREST d1p kvs) with
                      | error eoutsp =>
                          cases houtsu : st.outputs.mapM (reconcileOutputREST d1u kvs) with
                          | error eoutsu =>
                              rw [houtsp, houtsu] at houtsrel0
                              have hee : eoutsp = eoutsu := houtsrel0
                              subst hee
                              simp only [except_bind_error]
                              exact ⟨trivial, hst, trivial⟩
                          | ok outsu =>
                              rw [houtsp, houtsu] at houtsrel0
                              exact (show False from houtsrel0).elim
                      | ok outsp =>
                          cases houtsu : st.outputs.mapM (reconcileOutputREST d1u kvs) with
                          | error eoutsu =>
                              rw [houtsp, houtsu] at houtsrel0
                              exact (show False from houtsrel0).elim
                          | ok outsu =>
                              rw [houtsp, houtsu] at houtsrel0
                              have outspresu := mapM_pres OutputRec.static (reconcileOutputREST d1u kvs) (fun x y h2 => reconcileOutputREST_static d1u kvs x y h2) st.outputs outsu houtsu
                              have outspresp := mapM_pres OutputRec.static (reconcileOutputREST d1p kvs) (fun x y h2 => reconcileOutputREST_static d1p kvs x y h2) st'.outputs outsp houtsp
                              simp only [except_bind_ok]
                              have hmsrel0 := mapM_rel MeterRec.static (reconcileMeterREST d1u kvs) (reconcileMeterREST d1p kvs) (fun x2 x1 hx => reconcileMeterREST_congr d1u d1p kvs x1 x2 hd1rel hx) st.meters st'.meters (sp_meters hst)
                              cases hmsp : st'.meters.mapM (reconcileMeterREST d1p kvs) with
                              | error emsp =>
                                  cases hmsu : st.meters.mapM (reconcileMeterREST d1u kvs) with
                                  | error emsu =>
                                      rw [hmsp, hmsu] at hmsrel0
                                      have hee : emsp = emsu := hmsrel0
                                      subst hee
                                      simp only [except_bind_error]
                                      exact ⟨trivial, hst, trivial⟩
                                  | ok msu =>
                                      rw [hmsp, hmsu] at hmsrel0
                                      exact (show False from hmsrel0).elim
                              | ok msp =>
                                  cases hmsu : st.meters.mapM (reconcileMeterREST d1u kvs) with
                                  | error emsu =>
                                      rw [hmsp, hmsu] at hmsrel0
                                      exact (show False from hmsrel0).elim
                                  | ok msu =>
                                      rw [hmsp, hmsu] at hmsrel0
                                      have mspresu := mapM_pres MeterRec.static (reconcileMeterREST d1u kvs) (fun x y h2 => reconcileMeterREST_static d1u kvs x y h2) st.meters msu hmsu
                                      have mspresp := mapM_pres MeterRec.static (reconcileMeterREST d1p kvs) (fun x y h2 => reconcileMeterREST_static d1p kvs x y h2) st'.meters msp hmsp
                                      simp only [except_bind_ok]
                                      refine ⟨rfl, ?_, ?_⟩
                                      · exact reconcileSuccess_staticProj st st' dev' d1p insp outsp msp hst
                                          (by rw [static_index hdev, hdev]; exact hreg) (d1presp.trans hdev.symm) insespresp
                                          outspresp mspresp
                                      · exact reconcileSuccess_staticProj st st dev d1u insu outsu msu rfl hreg
                                          d1presu insespresu outspresu mspresu
    | null => exact ⟨rfl, hst, rfl⟩
    | bool b => exact ⟨rfl, hst, rfl⟩
    | num q => exact ⟨rfl, hst, rfl⟩
    | str s2 => exact ⟨rfl, hst, rfl⟩
    | arr xs => exact ⟨rfl, hst, rfl⟩

theorem get_device_status_ref_congr (env : NetEnv) (st st' : ShellyState)
    (dev dev' : DeviceRec)
    (hst : st'.staticProj = st.staticProj) (hdev : dev'.static = dev.static)
    (hsim : dev.simulate = false)
    (hreg : (st.devices.map DeviceRec.static).get? dev.index = some dev.static) :
    (get_device_status env st' (.ref dev')).2 = (get_device_status env st (.ref dev)).2 ∧
    (get_device_status env st' (.ref dev')).1.staticProj = st.staticProj ∧
    (get_device_status env st (.ref dev)).1.staticProj = st.staticProj := by
  unfold get_device_status
  dsimp only [get_device]
  rw [if_neg (show ¬ dev'.simulate = true by
        rw [static_simulate hdev, hsim]; exact Bool.false_ne_true),
      if_neg (show ¬ dev.simulate = true by rw [hsim]; exact Bool.false_ne_true)]
  rcases hfp : fetchPhase env st dev with ⟨stA, outA⟩
  rcases hfp' : fetchPhase env st' dev' with ⟨stA', outA'⟩
  obtain ⟨hfo, hfs', hfs⟩ := fetchPhase_congr env st st' dev dev' hst hdev
  rw [hfp'] at hfo hfs'
  rw [hfp] at hfo hfs
  have ho : outA' = outA := hfo
  have f2' : stA'.staticProj = st.staticProj := hfs'
  have f2 : stA.staticProj = st.staticProj := hfs
  rw [ho]
  cases outA with
  | error e => exact ⟨rfl, f2', f2⟩
  | ok p =>
      obtain ⟨res, body, em, emd⟩ := p
      cases res with
      | false => exact ⟨rfl, f2', f2⟩
      | true =>
          have hds' := sp_devices f2'
          have hds := sp_devices f2
          have hg : (stA.devices.get? dev.index).map DeviceRec.static = some dev.static := by
            rw [← List.get?_map, hds]
            exact hreg
          have hg' : (stA'.devices.get? dev'.index).map DeviceRec.static =
              some dev.static := by
            rw [static_index hdev, ← List.get?_map, hds']
            exact hreg
          cases hc : stA.devices.get? dev.index with
          | none => rw [hc] at hg; simp at hg
          | some dcur =>
              rw [hc] at hg
              have hdcur : dcur.static = dev.static := by simpa using hg
              cases hc' : stA'.devices.get? dev'.index with
              | none => rw [hc'] at hg'; simp at hg'
              | some dcur2 =>
                  rw [hc'] at hg'
                  have hdcur2 : dcur2.static = dev.static := by simpa using hg'
                  obtain ⟨r1, r2, r3⟩ := reconcilePhase_congr stA stA' dcur dcur2 body em emd
                    (f2'.trans f2.symm) (hdcur2.trans hdcur.symm)
                    (by rw [static_index hdcur, hdcur, hds]; exact hreg)
                  refine ⟨?_, ?_, ?_⟩
                  · show (reconcilePhase stA' ((stA'.devices.get? dev'.index).getD dev')
                        body em emd).2 =
                      (reconcilePhase stA ((stA.devices.get? dev.index).getD dev)
                        body em emd).2
                    rw [hc, hc']
                    exact r1
                  · show (reconcilePhase stA' ((stA'.devices.get? dev'.index).getD dev')
                        body em emd).1.staticProj = st.staticProj
                    rw [hc']
                    exact r2.trans f2
                  · show (reconcilePhase stA ((stA.devices.get? dev.index).getD dev)
                        body em emd).1.staticProj = st.staticProj
                    rw [hc]
                    exact r3.trans f2

theorem change_output_live_eval_rpc (env : NetEnv) (st : ShellyState) (oi : Nat) (b : Bool)
    (outp : OutputRec) (device : DeviceRec) (stA : ShellyState) (dv : JVal)
    (hlt : oi < st.outputs.length)
    (h1 : st.outputs.get? oi = some outp)
    (h2 : st.devices.get? outp.deviceIndex = some device)
    (hsim : device.simulate = false)
    (hgds : get_device_status env st (.ref device) = (stA, .ok true))
    (device1 : DeviceRec)
    (hgd1 : stA.devices.get? outp.deviceIndex = some device1)
    (hprot : device1.protocol = "RPC")
    (hro : (rpc_request env stA device1 (switchSetPayload outp.componentIndex b)).out =
      .ok (true, dv)) :
    change_output env st (.ref oi) b =
      ({ (rpc_request env stA device1 (switchSetPayload outp.componentIndex b)).st with
          outputs := setOutputState
            (rpc_request env stA device1 (switchSetPayload outp.componentIndex b)).st.outputs
            oi b },
        .ok (true, decide (b ≠ outp.state))) := by
  unfold change_output
  dsimp only [get_output_component]
  rw [if_pos hlt]
  dsimp only
  rw [h1]
  dsimp only
  rw [h2]
  dsimp only
  rw [if_neg (show ¬ device.simulate = true by rw [hsim]; exact Bool.false_ne_true)]
  rw [hgds]
  dsimp only
  rw [hgd1]
  dsimp only [Option.getD]
  rw [if_pos hprot]
  rw [hro]
  dsimp only
  unfold finishChange
  rw [if_neg Bool.false_ne_true]

theorem change_output_live_eval_rest (env : NetEnv) (st : ShellyState) (oi : Nat) (b : Bool)
    (outp : OutputRec) (device : DeviceRec) (stA : ShellyState) (dv : JVal)
    (hlt : oi < st.outputs.length)
    (h1 : st.outputs.get? oi = some outp)
    (h2 : st.devices.get? outp.deviceIndex = some device)
    (hsim : device.simulate = false)
    (hgds : get_device_status env st (.ref device) = (stA, .ok true))
    (device1 : DeviceRec)
    (hgd1 : stA.devices.get? outp.deviceIndex = some device1)
    (hnot : ¬ device1.protocol = "RPC")
    (hprot : device1.protocol = "REST")
    (hro : (rest_request env stA device1 (relayArgs outp.componentIndex b)).out =
      .ok (true, dv)) :
    change_output env st (.ref oi) b =
      ({ (rest_request env stA device1 (relayArgs outp.componentIndex b)).st with
          outputs := setOutputState
            (rest_request env stA device1 (relayArgs outp.componentIndex b)).st.outputs
            oi b },
        .ok (true, decide (b ≠ outp.state))) := by
  unfold change_output
  dsimp only [get_output_component]
  rw [if_pos hlt]
  dsimp only
  rw [h1]
  dsimp only
  rw [h2]
  dsimp only
  rw [if_neg (show ¬ device.simulate = true by rw [hsim]; exact Bool.false_ne_true)]
  rw [hgds]
  dsimp only
  rw [hgd1]
  dsimp only [Option.getD]
  rw [if_neg hnot, if_pos hprot]
  rw [hro]
  dsimp only
  unfold finishChange
  rw [if_neg Bool.false_ne_true]

/-- C1: `change_output` is idempotent on the reported change flag: in a
registry whose devices sit at their own index, if a first call targeting an
output succeeds (reporting success and some change flag), a second call with
the same target state also succeeds and reports that the output state did
not change, both for simulated devices — where the prior state is read back
from the simulation file — and for live devices, whose deterministic
transport oracle answers the repeated probe, status fetch and mutate
command exactly as before. -/
theorem change_output_idempotent (env : NetEnv) (st : ShellyState) (oi : Nat) (b : Bool)
    (st₁ : ShellyState) (c : Bool)
    (hcoh : ∀ i d, st.devices.get? i = some d → d.index = i)
    (h : change_output env st (.ref oi) b = (st₁, .ok (true, c))) :
    ∃ st₂, change_output env st₁ (.ref oi) b = (st₂, .ok (true, false)) := by
  have hlt : oi < st.outputs.length := by
    by_contra hlt
    unfold change_output at h
    dsimp only [get_output_component] at h
    rw [if_neg hlt] at h
    dsimp only at h
    exact absurd (congrArg Prod.snd h) (by simp)
  obtain ⟨outp, h1⟩ : ∃ o, st.outputs.get? oi = some o := by
    cases hq : st.outputs.get? oi with
    | none =>
        rw [List.get?_eq_none] at hq
        exact absurd hlt (by omega)
    | some o => exact ⟨o, rfl⟩
  unfold change_output at h
  dsimp only [get_output_component] at h
  rw [if_pos hlt] at h
  dsimp only at h
  rw [h1] at h
  dsimp only at h
  cases h2c : st.devices.get? outp.deviceIndex with
  | none =>
      rw [h2c] at h
      dsimp only at h
      exact absurd (congrArg Prod.snd h) (by simp)
  | some device =>
      rw [h2c] at h
      dsimp only at h
      have hidx : device.index = outp.deviceIndex := hcoh _ _ h2c
      by_cases hsimb : device.simulate = true
      · rw [if_pos hsimb] at h
        unfold finishChange at h
        dsimp only at h
        rw [if_pos rfl] at h
        rw [h2c] at h
        dsimp only at h
        unfold export_device_information_to_json at h
        rw [if_neg (show ¬ device.simulate = false by rw [hsimb]; simp)] at h
        cases hf : device.simulationFile with
        | none =>
            rw [hf] at h
            dsimp only at h
            exact absurd (congrArg Prod.snd h) (by simp)
        | some p =>
            rw [hf] at h
            dsimp only at h
            have hst1 : st₁ = { st with
                outputs := setOutputState st.outputs oi b,
                files := fileWrite st.files p (encodeDeviceInfo
                  { st with outputs := setOutputState st.outputs oi b } device) } :=
              (congrArg Prod.fst h).symm
            have hsnd : (change_output env st₁ (.ref oi) b).2 = .ok (true, false) := by
              rw [hst1, change_output_sim_eval env ({ st with outputs := setOutputState st.outputs oi b, files := fileWrite st.files p (encodeDeviceInfo { st with outputs := setOutputState st.outputs oi b } device) } : ShellyState) oi b { outp with state := b } device p (setOutputState_get_self st.outputs oi outp b h1) h2c hsimb hf]
              simp
            exact ⟨(change_output env st₁ (.ref oi) b).1, Prod.ext rfl hsnd⟩
      · rw [if_neg hsimb] at h
        have hsim : device.simulate = false := by simpa using hsimb
        rcases hgds : get_device_status env st (.ref device) with ⟨stA, outA⟩
        rw [hgds] at h
        cases outA with
        | error e =>
            dsimp only at h
            exact absurd (congrArg Prod.snd h) (by simp)
        | ok bres =>
            cases bres with
            | false =>
                dsimp only at h
                exact absurd (congrArg Prod.snd h) (by simp)
            | true =>
                dsimp only at h
                have hreg : (st.devices.map DeviceRec.static).get? device.index =
                    some device.static := by
                  rw [hidx, List.get?_map, h2c]
                  rfl
                obtain ⟨-, -, gpres⟩ := get_device_status_ref_congr env st st device device
                  rfl rfl hsim hreg
                rw [hgds] at gpres
                have hstA : stA.staticProj = st.staticProj := gpres
                have hd1g : (stA.devices.get? outp.deviceIndex).map DeviceRec.static =
                    some device.static := by
                  rw [← List.get?_map, sp_devices hstA, ← hidx]
                  exact hreg
                cases hgd1 : stA.devices.get? outp.deviceIndex with
                | none => rw [hgd1] at hd1g; simp at hd1g
                | some device1 =>
                    rw [hgd1] at hd1g
                    have hdev1 : device1.static = device.static := by simpa using hd1g
                    rw [hgd1] at h
                    dsimp only [Option.getD] at h
                    by_cases hprot : device1.protocol = "RPC"
                    · rw [if_pos hprot] at h
                      cases hro : (rpc_request env stA device1
                          (switchSetPayload outp.componentIndex b)).out with
                      | error e =>
                          rw [hro] at h
                          dsimp only at h
                          exact absurd (congrArg Prod.snd h) (by simp)
                      | ok pr =>
                          obtain ⟨okb, dv⟩ := pr
                          cases okb with
                          | false =>
                              rw [hro] at h
                              dsimp only at h
                              exact absurd (congrArg Prod.snd h) (by simp)
                          | true =>
                              rw [hro] at h
                              dsimp only at h
                              unfold finishChange at h
                              rw [if_neg Bool.false_ne_true] at h
                              have hst1 : st₁ = { (rpc_request env stA device1
                                  (switchSetPayload outp.componentIndex b)).st with
                                  outputs := setOutputState (rpc_request env stA device1
                                    (switchSetPayload outp.componentIndex b)).st.outputs
                                    oi b } :=
                                (congrArg Prod.fst h).symm
                              obtain ⟨-, -, rpres⟩ := rpc_request_congr env stA stA device1 device1
                                (switchSetPayload outp.componentIndex b) rfl rfl
                              have hRst : (rpc_request env stA device1 (switchSetPayload outp.componentIndex b)).st.staticProj =
                                  st.staticProj := rpres.trans hstA
                              have hS : st₁.staticProj = st.staticProj := by
                                rw [hst1]
                                exact staticProj_update st (rpc_request env stA device1 (switchSetPayload outp.componentIndex b)).st
                                  (rpc_request env stA device1 (switchSetPayload outp.componentIndex b)).st.devices
                                  (rpc_request env stA device1 (switchSetPayload outp.componentIndex b)).st.inputs
                                  (setOutputState (rpc_request env stA device1 (switchSetPayload outp.componentIndex b)).st.outputs oi b)
                                  (rpc_request env stA device1 (switchSetPayload outp.componentIndex b)).st.meters
                                  hRst rfl rfl (setOutputState_map_static _ _ _) rfl
                              obtain ⟨q, hqe⟩ : ∃ q, (rpc_request env stA device1
                                  (switchSetPayload outp.componentIndex b)).st.outputs.get? oi = some q := by
                                cases hqq : (rpc_request env stA device1
                                    (switchSetPayload outp.componentIndex b)).st.outputs.get? oi with
                                | none =>
                                    rw [List.get?_eq_none] at hqq
                                    have hl := congrArg List.length (sp_outputs hRst)
                                    rw [List.length_map, List.length_map] at hl
                                    exact absurd hlt (by omega)
                                | some q => exact ⟨q, rfl⟩
                              have h1b : st₁.outputs.get? oi = some { q with state := b } := by
                                rw [hst1]
                                exact setOutputState_get_self _ oi q b hqe
                              have houtmap : st₁.outputs.map OutputRec.static = st.outputs.map OutputRec.static :=
                                sp_outputs hS
                              have hqs : q.static = outp.static := by
                                have e1 := get?_map_congr OutputRec.static houtmap oi
                                rw [h1b, h1] at e1
                                simpa using e1
                              have hlen2 : oi < st₁.outputs.length := by
                                have e := congrArg List.length houtmap
                                rw [List.length_map, List.length_map] at e
                                rw [e]
                                exact hlt
                              have hd2g : (st₁.devices.get? q.deviceIndex).map DeviceRec.static =
                                  some device.static := by
                                rw [ostatic_deviceIndex hqs, ← List.get?_map, sp_devices hS, ← hidx]
                                exact hreg
                              cases hgd2 : st₁.devices.get? q.deviceIndex with
                              | none => rw [hgd2] at hd2g; simp at hd2g
                              | some device2 =>
                                  rw [hgd2] at hd2g
                                  have hdev2 : device2.static = device.static := by simpa using hd2g
                                  have hsim2 : device2.simulate = false := by
                                    rw [static_simulate hdev2]
                                    exact hsim
                                  obtain ⟨g1, g2, -⟩ := get_device_status_ref_congr env st st₁ device device2
                                    hS hdev2 hsim hreg
                                  rw [hgds] at g1
                                  rcases hgds2 : get_device_status env st₁ (.ref device2) with ⟨stB, outB⟩
                                  rw [hgds2] at g1 g2
                                  have houtB : outB = Except.ok true := g1
                                  subst houtB
                                  have hstB : stB.staticProj = st.staticProj := g2
                                  have hd3g : (stB.devices.get? q.deviceIndex).map DeviceRec.static =
                                      some device.static := by
                                    rw [ostatic_deviceIndex hqs, ← List.get?_map, sp_devices hstB, ← hidx]
                                    exact hreg
                                  cases hgd3 : stB.devices.get? q.deviceIndex with
                                  | none => rw [hgd3] at hd3g; simp at hd3g
                                  | some device3 =>
                                      rw [hgd3] at hd3g
                                      have hdev3 : device3.static = device.static := by simpa using hd3g
                                      have hprot3 : device3.protocol = "RPC" := by
                                        rw [static_protocol hdev3, ← static_protocol hdev1]
                                        exact hprot
                                      obtain ⟨ro2, -, -⟩ := rpc_request_congr env stA stB device1 device3
                                        (switchSetPayload outp.componentIndex b) (hstB.trans hstA.symm) (hdev3.trans hdev1.symm)
                                      rw [hro] at ro2
                                      have ro2' : (rpc_request env stB device3
                                          (switchSetPayload q.componentIndex b)).out = .ok (true, dv) := by
                                        rw [ostatic_componentIndex hqs]
                                        exact ro2
                                      have hsnd : (change_output env st₁ (.ref oi) b).2 =
                                          .ok (true, false) := by
                                        rw [change_output_live_eval_rpc env st₁ oi b
                                          { q with state := b } device2 stB dv
                                          hlen2 h1b hgd2 hsim2 hgds2 device3 hgd3 hprot3 ro2']
                                        simp
                                      exact ⟨(change_output env st₁ (.ref oi) b).1,
                                        Prod.ext rfl hsnd⟩
                    · by_cases hprot2 : device1.protocol = "REST"
                      · rw [if_neg hprot, if_pos hprot2] at h
                        cases hro : (rest_request env stA device1
                            (relayArgs outp.componentIndex b)).out with
                        | error e =>
                            rw [hro] at h
                            dsimp only at h
                            exact absurd (congrArg Prod.snd h) (by simp)
                        | ok pr =>
                            obtain ⟨okb, dv⟩ := pr
                            cases okb with
                            | false =>
                                rw [hro] at h
                                dsimp only at h
                                exact absurd (congrArg Prod.snd h) (by simp)
                            | true =>
                                rw [hro] at h
                                dsimp only at h
                                unfold finishChange at h
                                rw [if_neg Bool.false_ne_true] at h
                                have hst1 : st₁ = { (rest_request env stA device1
                                    (relayArgs outp.componentIndex b)).st with
                                    outputs := setOutputState (rest_request env stA device1
                                      (relayArgs outp.componentIndex b)).st.outputs
                                      oi b } :=
                                  (congrArg Prod.fst h).symm
                                obtain ⟨-, -, rpres⟩ := rest_request_congr env stA stA device1 device1
                                  (relayArgs outp.componentIndex b) rfl rfl
                                have hRst : (rest_request env stA device1 (relayArgs outp.componentIndex b)).st.staticProj =
                                    st.staticProj := rpres.trans hstA
                                have hS : st₁.staticProj = st.staticProj := by
                                  rw [hst1]
                                  exact staticProj_update st (rest_request env stA device1 (relayArgs outp.componentIndex b)).st
                                    (rest_request env stA device1 (relayArgs outp.componentIndex b)).st.devices
                                    (rest_request env stA device1 (relayArgs outp.componentIndex b)).st.inputs
                                    (setOutputState (rest_request env stA device1 (relayArgs outp.componentIndex b)).st.outputs oi b)
                                    (rest_request env stA device1 (relayArgs outp.componentIndex b)).st.meters
                                    hRst rfl rfl (setOutputState_map_static _ _ _) rfl
                                obtain ⟨q, hqe⟩ : ∃ q, (rest_request env stA device1
                                    (relayArgs outp.componentIndex b)).st.outputs.get? oi = some q := by
                                  cases hqq : (rest_request env stA device1
                                      (relayArgs outp.componentIndex b)).st.outputs.get? oi with
                                  | none =>
                                      rw [List.get?_eq_none] at hqq
                                      have hl := congrArg List.length (sp_outputs hRst)
                                      rw [List.length_map, List.length_map] at hl
                                      exact absurd hlt (by omega)
                                  | some q => exact ⟨q, rfl⟩
                                have h1b : st₁.outputs.get? oi = some { q with state := b } := by
                                  rw [hst1]
                                  exact setOutputState_get_self _ oi q b hqe
                                have houtmap : st₁.outputs.map OutputRec.static = st.outputs.map OutputRec.static :=
                                  sp_outputs hS
                                have hqs : q.static = outp.static := by
                                  have e1 := get?_map_congr OutputRec.static houtmap oi
                                  rw [h1b, h1] at e1
                                  simpa using e1
                                have hlen2 : oi < st₁.outputs.length := by
                                  have e := congrArg List.length houtmap
                                  rw [List.length_map, List.length_map] at e
                                  rw [e]
                                  exact hlt
                                have hd2g : (st₁.devices.get? q.deviceIndex).map DeviceRec.static =
                                    some device.static := by
                                  rw [ostatic_deviceIndex hqs, ← List.get?_map, sp_devices hS, ← hidx]
                                  exact hreg
                                cases hgd2 : st₁.devices.get? q.deviceIndex with
                                | none => rw [hgd2] at hd2g; simp at hd2g
                                | some device2 =>
                                    rw [hgd2] at hd2g
                                    have hdev2 : device2.static = device.static := by simpa using hd2g
                                    have hsim2 : device2.simulate = false := by
                                      rw [static_simulate hdev2]
                                      exact hsim
                                    obtain ⟨g1, g2, -⟩ := get_device_status_ref_congr env st st₁ device device2
                                      hS hdev2 hsim hreg
                                    rw [hgds] at g1
                                    rcases hgds2 : get_device_status env st₁ (.ref device2) with ⟨stB, outB⟩
                                    rw [hgds2] at g1 g2
                                    have houtB : outB = Except.ok true := g1
                                    subst houtB
                                    have hstB : stB.staticProj = st.staticProj := g2
                                    have hd3g : (stB.devices.get? q.deviceIndex).map DeviceRec.static =
                                        some device.static := by
                                      rw [ostatic_deviceIndex hqs, ← List.get?_map, sp_devices hstB, ← hidx]
                                      exact hreg
                                    cases hgd3 : stB.devices.get? q.deviceIndex with
                                    | none => rw [hgd3] at hd3g; simp at hd3g
                                    | some device3 =>
                                        rw [hgd3] at hd3g
                                        have hdev3 : device3.static = device.static := by simpa using hd3g
                                        have hprot3 : device3.protocol = "REST" := by
                                          rw [static_protocol hdev3, ← static_protocol hdev1]
                                          exact hprot2
                                        have hnot3 : ¬ device3.protocol = "RPC" := by
                                          rw [static_protocol hdev3, ← static_protocol hdev1]
                                          exact hprot
                                        obtain ⟨ro2, -, -⟩ := rest_request_congr env stA stB device1 device3
                                          (relayArgs outp.componentIndex b) (hstB.trans hstA.symm) (hdev3.trans hdev1.symm)
                                        rw [hro] at ro2
                                        have ro2' : (rest_request env stB device3
                                            (relayArgs q.componentIndex b)).out = .ok (true, dv) := by
                                          rw [ostatic_componentIndex hqs]
                                          exact ro2
                                        have hsnd : (change_output env st₁ (.ref oi) b).2 =
                                            .ok (true, false) := by
                                          rw [change_output_live_eval_rest env st₁ oi b
                                            { q with state := b } device2 stB dv
                                            hlen2 h1b hgd2 hsim2 hgds2 device3 hgd3 hnot3
                                            hprot3 ro2']
                                          simp
                                        exact ⟨(change_output env st₁ (.ref oi) b).1,
                                          Prod.ext rfl hsnd⟩
                      · rw [if_neg hprot, if_neg hprot2] at h
                        exact absurd (congrArg Prod.snd h) (by simp)

/-- Witness of C1: on the simulated fixture a first `change_output` reports
`(True, True)`; the repeated call then reports `(True, False)`. -/
theorem change_output_idempotent_witness :
    ∃ st₂, change_output envDead (change_output envDead stSim (.ref 0) true).1 (.ref 0) true =
      (st₂, .ok (true, false)) :=
  change_output_idempotent envDead stSim 0 true
    (change_output envDead stSim (.ref 0) true).1 true
    (by
      intro i d hd
      cases i with
      | zero =>
          have hd' : some devSim = some d := hd
          rw [← Option.some.inj hd']
          rfl
      | succ n => exact Option.noConfusion (show (none : Option DeviceRec) = some d from hd))
    rfl


/-! ## Lemmas about registry construction (C6) -/

theorem any_eq_of_forall {α : Type} {l : List α} {p q : α → Bool}
    (h : ∀ a ∈ l, p a = q a) : l.any p = l.any q := by
  induction l with
  | nil => rfl
  | cons a as ih =>
      rw [List.any_cons, List.any_cons, h a (List.mem_cons_self a as),
        ih (fun b hb => h b (List.mem_cons_of_mem a hb))]

theorem any_map_general {α β : Type} (f : α → β) (l : List α) (p : β → Bool) :
    (l.map f).any p = l.any (fun a => p (f a)) := by
  induction l with
  | nil => rfl
  | cons a as ih => rw [List.map_cons, List.any_cons, List.any_cons, ih]

theorem contains_map_eq_any {α β : Type} [BEq β] [LawfulBEq β] [DecidableEq β]
    (f : α → β) (l : List α) (c : β) :
    (l.map f).contains c = l.any (fun a => decide (f a = c)) := by
  induction l with
  | nil => rfl
  | cons a as ih =>
      rw [List.map_cons, List.contains_cons, List.any_cons, ih]
      by_cases h : f a = c
      · rw [h]
        simp
      · rw [beq_false_of_ne (fun e => h e.symm), decide_eq_false h]

theorem find?_files_none (files : List (String × JVal)) (p : String)
    (h : ∀ kv ∈ files, kv.1 ≠ p) :
    files.find? (fun kv => kv.1 = p) = none :=
  List.find?_eq_none.mpr (fun kv hkv => by simpa using h kv hkv)

theorem fileLookup_none_of_fresh (files : List (String × JVal)) (p : String)
    (h : ∀ kv ∈ files, kv.1 ≠ p) : fileLookup files p = none := by
  unfold fileLookup
  rw [find?_files_none files p h]
  rfl

theorem fileWrite_fresh (files : List (String × JVal)) (p : String) (v : JVal)
    (h : ∀ kv ∈ files, kv.1 ≠ p) : fileWrite files p v = files ++ [(p, v)] := by
  unfold fileWrite
  rw [find?_files_none files p h]
  rfl

theorem get?_lt_length {α : Type} {l : List α} {n : Nat} {a : α} (h : l.get? n = some a) :
    n < l.length := by
  by_contra hge
  rw [List.get?_eq_getElem?, List.getElem?_eq_none (Nat.le_of_not_lt hge)] at h
  exact Option.noConfusion h

theorem mem_take_enum {α : Type} {cfgs : List α} {i : Nat} {p : Nat × α}
    (hp : p ∈ (cfgs.take i).enum) : p.1 < i ∧ cfgs.get? p.1 = some p.2 := by
  rw [List.mem_enum_iff_getElem?] at hp
  have hp' : (cfgs.take i).get? p.1 = some p.2 := by
    rw [List.get?_eq_getElem?]
    exact hp
  have hlt : p.1 < (cfgs.take i).length := get?_lt_length hp'
  rw [List.length_take] at hlt
  have h1 : p.1 < i := lt_of_lt_of_le hlt (min_le_left _ _)
  rw [List.get?_take h1] at hp'
  exact ⟨h1, hp'⟩

theorem builtDevices_length (models : List ModelEntry) (cfgs : List DeviceConfig) (i : Nat)
    (h : i ≤ cfgs.length) : (builtDevices models cfgs i).length = i := by
  unfold builtDevices
  rw [List.length_map, List.enum_length, List.length_take]
  omega

theorem builtInputs_length (models : List ModelEntry) (cfgs : List DeviceConfig) (i : Nat) :
    (builtInputs models cfgs i).length = specTotalBefore models cfgs i .inputs := by
  unfold builtInputs specTotalBefore
  rw [List.length_flatMap]
  congr 1
  rw [show (List.length ∘ fun p : Nat × DeviceConfig =>
        (List.range (specDeclCount models p.2 CompType.inputs)).map
          (mkBuiltInput models cfgs p)) =
      ((fun c => specDeclCount models c CompType.inputs) ∘ Prod.snd) from
    funext (fun p => by
      simp only [Function.comp_apply]
      rw [List.length_map, List.length_range])]
  rw [← List.map_map, List.enum_map_snd]

theorem builtOutputs_length (models : List ModelEntry) (cfgs : List DeviceConfig) (i : Nat) :
    (builtOutputs models cfgs i).length = specTotalBefore models cfgs i .outputs := by
  unfold builtOutputs specTotalBefore
  rw [List.length_flatMap]
  congr 1
  rw [show (List.length ∘ fun p : Nat × DeviceConfig =>
        (List.range (specDeclCount models p.2 CompType.outputs)).map
          (mkBuiltOutput models cfgs p)) =
      ((fun c => specDeclCount models c CompType.outputs) ∘ Prod.snd) from
    funext (fun p => by
      simp only [Function.comp_apply]
      rw [List.length_map, List.length_range])]
  rw [← List.map_map, List.enum_map_snd]

theorem builtMeters_length (models : List ModelEntry) (cfgs : List DeviceConfig) (i : Nat) :
    (builtMeters models cfgs i).length = specTotalBefore models cfgs i .meters := by
  unfold builtMeters specTotalBefore
  rw [List.length_flatMap]
  congr 1
  rw [show (List.length ∘ fun p : Nat × DeviceConfig =>
        (List.range (specDeclCount models p.2 CompType.meters)).map
          (mkBuiltMeter models cfgs p)) =
      ((fun c => specDeclCount models c CompType.meters) ∘ Prod.snd) from
    funext (fun p => by
      simp only [Function.comp_apply]
      rw [List.length_map, List.length_range])]
  rw [← List.map_map, List.enum_map_snd]

theorem take_succ_eq {α : Type} (l : List α) (i : Nat) (a : α)
    (h : l.get? i = some a) : l.take (i+1) = l.take i ++ [a] := by
  rw [List.take_succ]
  rw [show l[i]?.toList = [a] from by rw [← List.get?_eq_getElem?, h]; rfl]

theorem enum_take_succ {α : Type} (l : List α) (i : Nat) (a : α)
    (h : l.get? i = some a) :
    (l.take (i+1)).enum = (l.take i).enum ++ [(i, a)] := by
  rw [take_succ_eq l i a h, List.enum_append]
  rw [show (l.take i).length = i from by
    rw [List.length_take]
    have := get?_lt_length h
    omega]
  rfl

theorem builtDevices_succ (models : List ModelEntry) (cfgs : List DeviceConfig) (i : Nat)
    (cfg : DeviceConfig) (h : cfgs.get? i = some cfg) :
    builtDevices models cfgs (i+1) =
      builtDevices models cfgs i ++ [builtDevice models i cfg] := by
  unfold builtDevices
  rw [enum_take_succ cfgs i cfg h, List.map_append]
  rfl

theorem builtInputs_succ (models : List ModelEntry) (cfgs : List DeviceConfig) (i : Nat)
    (cfg : DeviceConfig) (h : cfgs.get? i = some cfg) :
    builtInputs models cfgs (i+1) =
      builtInputs models cfgs i ++
        (List.range (specDeclCount models cfg .inputs)).map (mkBuiltInput models cfgs (i, cfg)) := by
  unfold builtInputs
  rw [enum_take_succ cfgs i cfg h, List.flatMap_append]
  congr 1
  rw [List.flatMap_cons, List.flatMap_nil, List.append_nil]

theorem builtOutputs_succ (models : List ModelEntry) (cfgs : List DeviceConfig) (i : Nat)
    (cfg : DeviceConfig) (h : cfgs.get? i = some cfg) :
    builtOutputs models cfgs (i+1) =
      builtOutputs models cfgs i ++
        (List.range (specDeclCount models cfg .outputs)).map (mkBuiltOutput models cfgs (i, cfg)) := by
  unfold builtOutputs
  rw [enum_take_succ cfgs i cfg h, List.flatMap_append]
  congr 1
  rw [List.flatMap_cons, List.flatMap_nil, List.append_nil]

theorem builtMeters_succ (models : List ModelEntry) (cfgs : List DeviceConfig) (i : Nat)
    (cfg : DeviceConfig) (h : cfgs.get? i = some cfg) :
    builtMeters models cfgs (i+1) =
      builtMeters models cfgs i ++
        (List.range (specDeclCount models cfg .meters)).map (mkBuiltMeter models cfgs (i, cfg)) := by
  unfold builtMeters
  rw [enum_take_succ cfgs i cfg h, List.flatMap_append]
  congr 1
  rw [List.flatMap_cons, List.flatMap_nil, List.append_nil]

theorem enumFrom_findSome_scan (models : List ModelEntry) (validHost : String → Bool)
    (cfgs : List DeviceConfig) :
    ∀ (rest : List DeviceConfig) (i : Nat),
      (List.enumFrom i rest).findSome?
          (fun p => specDeviceFullErr models validHost cfgs p.1 p.2) =
        specErrScan models validHost cfgs i rest := by
  intro rest
  induction rest with
  | nil => intro i; rfl
  | cons c cs ih =>
      intro i
      rw [List.enumFrom_cons, List.findSome?_cons, ih (i+1)]
      dsimp only
      rw [show specErrScan models validHost cfgs i (c :: cs) =
          (specDeviceFullErr models validHost cfgs i c).orElse
            (fun _ => specErrScan models validHost cfgs (i+1) cs) from rfl]
      cases h : specDeviceFullErr models validHost cfgs i c with
      | some e => rfl
      | none => rfl

theorem specFirstError_eq_scan (models : List ModelEntry) (validHost : String → Bool)
    (cfgs : List DeviceConfig) :
    specFirstError models validHost cfgs = specErrScan models validHost cfgs 0 cfgs := by
  unfold specFirstError
  rw [show cfgs.enum = List.enumFrom 0 cfgs from rfl]
  exact enumFrom_findSome_scan models validHost cfgs cfgs 0


theorem get_device_attributes_ok (models : List ModelEntry) (i n : Nat) (key : String)
    (entry : ModelEntry) (hemp : models.isEmpty = false)
    (hent : modelEntryFor models key = some entry)
    (hmis : ¬(entry.metersSeperate.getD false = false ∧
        entry.meters.getD 0 ≠ entry.outputs.getD 1)) :
    get_device_attributes models i n key = .ok (attrsOf entry n key) := by
  unfold get_device_attributes
  rw [if_neg (by rw [hemp]; exact Bool.false_ne_true), hent]
  dsimp only
  rw [if_neg hmis]
  rfl

theorem mkConfiguredDevice_simulate (attrs : DeviceRec) (i : Nat) (cfg : DeviceConfig) :
    (mkConfiguredDevice attrs i cfg).simulate = cfg.simulate.getD false := by
  unfold mkConfiguredDevice; dsimp only; split <;> rfl

theorem mkConfiguredDevice_simFile (attrs : DeviceRec) (i : Nat) (cfg : DeviceConfig)
    (h : cfg.simulate.getD false = true) :
    (mkConfiguredDevice attrs i cfg).simulationFile =
      some (simulationFileName (specEffName i cfg) (specEffId i cfg)) := by
  unfold mkConfiguredDevice
  dsimp only
  rw [if_pos h]
  rfl

theorem mkConfiguredDevice_inputsCount (attrs : DeviceRec) (i : Nat) (cfg : DeviceConfig) :
    (mkConfiguredDevice attrs i cfg).inputsCount = attrs.inputsCount := by
  unfold mkConfiguredDevice; dsimp only; split <;> rfl

theorem mkConfiguredDevice_outputsCount (attrs : DeviceRec) (i : Nat) (cfg : DeviceConfig) :
    (mkConfiguredDevice attrs i cfg).outputsCount = attrs.outputsCount := by
  unfold mkConfiguredDevice; dsimp only; split <;> rfl

theorem mkConfiguredDevice_metersCount (attrs : DeviceRec) (i : Nat) (cfg : DeviceConfig) :
    (mkConfiguredDevice attrs i cfg).metersCount = attrs.metersCount := by
  unfold mkConfiguredDevice; dsimp only; split <;> rfl

theorem mkConfiguredDevice_metersSeperate (attrs : DeviceRec) (i : Nat) (cfg : DeviceConfig) :
    (mkConfiguredDevice attrs i cfg).metersSeperate = attrs.metersSeperate := by
  unfold mkConfiguredDevice; dsimp only; split <;> rfl

theorem specDeclCount_inputs_of_entry (models : List ModelEntry) (cfg : DeviceConfig)
    (entry : ModelEntry) (hent : modelEntryFor models (modelKeyOf cfg) = some entry) :
    specDeclCount models cfg .inputs = entry.inputs.getD 1 := by
  unfold specDeclCount; rw [hent]

theorem specDeclCount_outputs_of_entry (models : List ModelEntry) (cfg : DeviceConfig)
    (entry : ModelEntry) (hent : modelEntryFor models (modelKeyOf cfg) = some entry) :
    specDeclCount models cfg .outputs = entry.outputs.getD 1 := by
  unfold specDeclCount; rw [hent]

theorem specDeclCount_meters_of_entry (models : List ModelEntry) (cfg : DeviceConfig)
    (entry : ModelEntry) (hent : modelEntryFor models (modelKeyOf cfg) = some entry) :
    specDeclCount models cfg .meters = entry.meters.getD 0 := by
  unfold specDeclCount; rw [hent]

theorem specMetersSep_of_entry (models : List ModelEntry) (cfg : DeviceConfig)
    (entry : ModelEntry) (hent : modelEntryFor models (modelKeyOf cfg) = some entry) :
    specMetersSep models cfg = entry.metersSeperate.getD false := by
  unfold specMetersSep; rw [hent]

theorem builtDevice_eq (models : List ModelEntry) (i : Nat) (cfg : DeviceConfig)
    (entry : ModelEntry) (hemp : models.isEmpty = false)
    (hent : modelEntryFor models (modelKeyOf cfg) = some entry)
    (hmis : ¬(entry.metersSeperate.getD false = false ∧
        entry.meters.getD 0 ≠ entry.outputs.getD 1)) :
    builtDevice models i cfg = mkConfiguredDevice (attrsOf entry i (modelKeyOf cfg)) i cfg := by
  unfold builtDevice
  rw [get_device_attributes_ok models i i (modelKeyOf cfg) entry hemp hent hmis]

theorem specDeviceErr_none_attrs (models : List ModelEntry) (validHost : String → Bool)
    (cfgs : List DeviceConfig) (j : Nat) (cfgj : DeviceConfig)
    (hnone : specDeviceErr models validHost cfgs j cfgj = none) :
    models.isEmpty = false ∧
    ∃ entry, modelEntryFor models (modelKeyOf cfgj) = some entry ∧
      ¬(entry.metersSeperate.getD false = false ∧
          entry.meters.getD 0 ≠ entry.outputs.getD 1) := by
  unfold specDeviceErr at hnone
  by_cases hemp : models.isEmpty = true
  · rw [if_pos hemp] at hnone
    exact Option.noConfusion hnone
  · have hemp2 : models.isEmpty = false := by
      cases h : models.isEmpty
      · rfl
      · exact absurd h hemp
    rw [if_neg hemp] at hnone
    cases hent : modelEntryFor models (modelKeyOf cfgj) with
    | none =>
        rw [hent] at hnone
        exact Option.noConfusion hnone
    | some entry =>
        rw [hent] at hnone
        dsimp only at hnone
        refine ⟨hemp2, entry, rfl, ?_⟩
        intro hmis
        rw [if_pos hmis] at hnone
        exact Option.noConfusion hnone

theorem builtDevice_name_id (models : List ModelEntry) (validHost : String → Bool)
    (cfgs : List DeviceConfig) (j : Nat) (cfgj : DeviceConfig)
    (hnone : specDeviceErr models validHost cfgs j cfgj = none) :
    (builtDevice models j cfgj).clientName = specEffName j cfgj ∧
    (builtDevice models j cfgj).id = specEffId j cfgj := by
  obtain ⟨hemp, entry, hent, hmis⟩ :=
    specDeviceErr_none_attrs models validHost cfgs j cfgj hnone
  rw [builtDevice_eq models j cfgj entry hemp hent hmis]
  exact ⟨mkConfiguredDevice_clientName _ _ _, mkConfiguredDevice_id _ _ _⟩

theorem builtDevices_any_name (models : List ModelEntry) (validHost : String → Bool)
    (cfgs : List DeviceConfig) (i : Nat) (cn : String)
    (hprev : ∀ j cfgj, j < i → cfgs.get? j = some cfgj →
      specDeviceErr models validHost cfgs j cfgj = none) :
    ((builtDevices models cfgs i).any (fun d => d.clientName = cn)) =
      ((cfgs.take i).enum.any (fun p => specEffName p.1 p.2 = cn)) := by
  unfold builtDevices
  rw [any_map_general]
  apply any_eq_of_forall
  intro p hp
  obtain ⟨hlt, hj⟩ := mem_take_enum hp
  rw [decide_eq_decide]
  rw [(builtDevice_name_id models validHost cfgs p.1 p.2 (hprev p.1 p.2 hlt hj)).1]

theorem builtDevices_any_id (models : List ModelEntry) (validHost : String → Bool)
    (cfgs : List DeviceConfig) (i : Nat) (cn : Int)
    (hprev : ∀ j cfgj, j < i → cfgs.get? j = some cfgj →
      specDeviceErr models validHost cfgs j cfgj = none) :
    ((builtDevices models cfgs i).any (fun d => d.id = cn)) =
      ((cfgs.take i).enum.any (fun p => specEffId p.1 p.2 = cn)) := by
  unfold builtDevices
  rw [any_map_general]
  apply any_eq_of_forall
  intro p hp
  obtain ⟨hlt, hj⟩ := mem_take_enum hp
  rw [decide_eq_decide]
  rw [(builtDevice_name_id models validHost cfgs p.1 p.2 (hprev p.1 p.2 hlt hj)).2]

theorem componentChecks_spec (models : List ModelEntry) (cfgs : List DeviceConfig)
    (t : CompType) (i : Nat) (cfg : DeviceConfig) (k : Nat)
    (names : List String) (ids : List Int)
    (hn : names = (specPrevIdents models cfgs t i cfg k).map (fun p => p.2))
    (hi : ids = (specPrevIdents models cfgs t i cfg k).map (fun p => p.1)) :
    componentChecks i t k names ids (specCompIdent models cfgs t i cfg k).1
        (specCompIdent models cfgs t i cfg k).2 =
      specCompErrAt models cfgs t i cfg k := by
  subst hn hi
  unfold componentChecks specCompErrAt
  dsimp only
  rw [contains_map_eq_any (fun p : Int × String => p.2)
      (specPrevIdents models cfgs t i cfg k) (specCompIdent models cfgs t i cfg k).2,
    contains_map_eq_any (fun p : Int × String => p.1)
      (specPrevIdents models cfgs t i cfg k) (specCompIdent models cfgs t i cfg k).1]

theorem prevInputs_names (models : List ModelEntry) (cfgs : List DeviceConfig)
    (i : Nat) (cfg : DeviceConfig) (k : Nat) :
    ((builtInputs models cfgs i ++
        (List.range k).map (mkBuiltInput models cfgs (i, cfg))).map (fun c => c.name)) =
      (specPrevIdents models cfgs .inputs i cfg k).map (fun p => p.2) := by
  unfold builtInputs specPrevIdents
  simp only [List.map_append, List.map_flatMap, List.map_map]
  rfl

theorem prevInputs_ids (models : List ModelEntry) (cfgs : List DeviceConfig)
    (i : Nat) (cfg : DeviceConfig) (k : Nat) :
    ((builtInputs models cfgs i ++
        (List.range k).map (mkBuiltInput models cfgs (i, cfg))).map (fun c => c.id)) =
      (specPrevIdents models cfgs .inputs i cfg k).map (fun p => p.1) := by
  unfold builtInputs specPrevIdents
  simp only [List.map_append, List.map_flatMap, List.map_map]
  rfl

theorem prevOutputs_names (models : List ModelEntry) (cfgs : List DeviceConfig)
    (i : Nat) (cfg : DeviceConfig) (k : Nat) :
    ((builtOutputs models cfgs i ++
        (List.range k).map (mkBuiltOutput models cfgs (i, cfg))).map (fun c => c.name)) =
      (specPrevIdents models cfgs .outputs i cfg k).map (fun p => p.2) := by
  unfold builtOutputs specPrevIdents
  simp only [List.map_append, List.map_flatMap, List.map_map]
  rfl

theorem prevOutputs_ids (models : List ModelEntry) (cfgs : List DeviceConfig)
    (i : Nat) (cfg : DeviceConfig) (k : Nat) :
    ((builtOutputs models cfgs i ++
        (List.range k).map (mkBuiltOutput models cfgs (i, cfg))).map (fun c => c.id)) =
      (specPrevIdents models cfgs .outputs i cfg k).map (fun p => p.1) := by
  unfold builtOutputs specPrevIdents
  simp only [List.map_append, List.map_flatMap, List.map_map]
  rfl

theorem prevMeters_names (models : List ModelEntry) (cfgs : List DeviceConfig)
    (i : Nat) (cfg : DeviceConfig) (k : Nat) :
    ((builtMeters models cfgs i ++
        (List.range k).map (mkBuiltMeter models cfgs (i, cfg))).map (fun c => c.name)) =
      (specPrevIdents models cfgs .meters i cfg k).map (fun p => p.2) := by
  unfold builtMeters specPrevIdents
  simp only [List.map_append, List.map_flatMap, List.map_map]
  rfl

theorem prevMeters_ids (models : List ModelEntry) (cfgs : List DeviceConfig)
    (i : Nat) (cfg : DeviceConfig) (k : Nat) :
    ((builtMeters models cfgs i ++
        (List.range k).map (mkBuiltMeter models cfgs (i, cfg))).map (fun c => c.id)) =
      (specPrevIdents models cfgs .meters i cfg k).map (fun p => p.1) := by
  unfold builtMeters specPrevIdents
  simp only [List.map_append, List.map_flatMap, List.map_map]
  rfl

theorem addInputsLoop_run (models : List ModelEntry) (cfgs : List DeviceConfig)
    (i : Nat) (cfg : DeviceConfig) :
    ∀ (n k : Nat) (acc : List InputRec),
      acc = builtInputs models cfgs i ++
          (List.range k).map (mkBuiltInput models cfgs (i, cfg)) →
      k + n = specDeclCount models cfg .inputs →
      addInputsLoop i cfg.inputs n k acc =
        match (List.range' k n).findSome?
            (fun j => specCompErrAt models cfgs .inputs i cfg j) with
        | some e => .error e
        | none => .ok (builtInputs models cfgs i ++
            (List.range (specDeclCount models cfg .inputs)).map
              (mkBuiltInput models cfgs (i, cfg))) := by
  intro n
  induction n with
  | zero =>
      intro k acc hacc hk
      have hkd : k = specDeclCount models cfg .inputs := by omega
      subst hkd
      subst hacc
      rfl
  | succ m ih =>
      intro k acc hacc hk
      have hlen : acc.length = specTotalBefore models cfgs i .inputs + k := by
        rw [hacc, List.length_append, builtInputs_length, List.length_map, List.length_range]
      have hident : componentIdentity "Input" acc.length
          (cfg.inputs.bind (fun l => l.get? k)) =
          specCompIdent models cfgs .inputs i cfg k := by
        rw [hlen]
        rfl
      have hnames : acc.map (fun c => c.name) =
          (specPrevIdents models cfgs .inputs i cfg k).map (fun p => p.2) := by
        rw [hacc]
        exact prevInputs_names models cfgs i cfg k
      have hids : acc.map (fun c => c.id) =
          (specPrevIdents models cfgs .inputs i cfg k).map (fun p => p.1) := by
        rw [hacc]
        exact prevInputs_ids models cfgs i cfg k
      have hchk : componentChecks i .inputs k (acc.map (fun c => c.name))
          (acc.map (fun c => c.id))
          (componentIdentity "Input" acc.length (cfg.inputs.bind (fun l => l.get? k))).1
          (componentIdentity "Input" acc.length (cfg.inputs.bind (fun l => l.get? k))).2 =
          specCompErrAt models cfgs .inputs i cfg k := by
        rw [hident]
        exact componentChecks_spec models cfgs .inputs i cfg k _ _ hnames hids
      have hacc2 : acc ++ [{ deviceIndex := i, componentIndex := k, id := (componentIdentity "Input" acc.length (cfg.inputs.bind (fun l => l.get? k))).1, name := (componentIdentity "Input" acc.length (cfg.inputs.bind (fun l => l.get? k))).2, state := false }] =
          builtInputs models cfgs i ++
            (List.range (k+1)).map (mkBuiltInput models cfgs (i, cfg)) := by
        rw [hident, hacc, List.range_succ, List.map_append, List.append_assoc]
        rfl
      rw [show addInputsLoop i cfg.inputs (m+1) k acc =
          (match componentChecks i .inputs k (acc.map (fun c => c.name))
              (acc.map (fun c => c.id))
              (componentIdentity "Input" acc.length (cfg.inputs.bind (fun l => l.get? k))).1
              (componentIdentity "Input" acc.length (cfg.inputs.bind (fun l => l.get? k))).2 with
           | some e => Except.error e
           | none => addInputsLoop i cfg.inputs m (k+1) (acc ++ [{ deviceIndex := i, componentIndex := k, id := (componentIdentity "Input" acc.length (cfg.inputs.bind (fun l => l.get? k))).1, name := (componentIdentity "Input" acc.length (cfg.inputs.bind (fun l => l.get? k))).2, state := false }])) from rfl]
      rw [hchk, List.range'_succ, List.findSome?_cons]
      cases herr : specCompErrAt models cfgs .inputs i cfg k with
      | some e => rfl
      | none => exact ih (k+1) _ hacc2 (by omega)

theorem addOutputsLoop_run (models : List ModelEntry) (cfgs : List DeviceConfig)
    (i : Nat) (cfg : DeviceConfig) :
    ∀ (n k : Nat) (acc : List OutputRec),
      acc = builtOutputs models cfgs i ++
          (List.range k).map (mkBuiltOutput models cfgs (i, cfg)) →
      k + n = specDeclCount models cfg .outputs →
      addOutputsLoop i (specMetersSep models cfg) cfg.outputs n k acc =
        match (List.range' k n).findSome?
            (fun j => specCompErrAt models cfgs .outputs i cfg j) with
        | some e => .error e
        | none => .ok (builtOutputs models cfgs i ++
            (List.range (specDeclCount models cfg .outputs)).map
              (mkBuiltOutput models cfgs (i, cfg))) := by
  intro n
  induction n with
  | zero =>
      intro k acc hacc hk
      have hkd : k = specDeclCount models cfg .outputs := by omega
      subst hkd
      subst hacc
      rfl
  | succ m ih =>
      intro k acc hacc hk
      have hlen : acc.length = specTotalBefore models cfgs i .outputs + k := by
        rw [hacc, List.length_append, builtOutputs_length, List.length_map, List.length_range]
      have hident : componentIdentity "Output" acc.length
          (cfg.outputs.bind (fun l => l.get? k)) =
          specCompIdent models cfgs .outputs i cfg k := by
        rw [hlen]
        rfl
      have hnames : acc.map (fun c => c.name) =
          (specPrevIdents models cfgs .outputs i cfg k).map (fun p => p.2) := by
        rw [hacc]
        exact prevOutputs_names models cfgs i cfg k
      have hids : acc.map (fun c => c.id) =
          (specPrevIdents models cfgs .outputs i cfg k).map (fun p => p.1) := by
        rw [hacc]
        exact prevOutputs_ids models cfgs i cfg k
      have hchk : componentChecks i .outputs k (acc.map (fun c => c.name))
          (acc.map (fun c => c.id))
          (componentIdentity "Output" acc.length (cfg.outputs.bind (fun l => l.get? k))).1
          (componentIdentity "Output" acc.length (cfg.outputs.bind (fun l => l.get? k))).2 =
          specCompErrAt models cfgs .outputs i cfg k := by
        rw [hident]
        exact componentChecks_spec models cfgs .outputs i cfg k _ _ hnames hids
      have hacc2 : acc ++ [{ deviceIndex := i, componentIndex := k, id := (componentIdentity "Output" acc.length (cfg.outputs.bind (fun l => l.get? k))).1, name := (componentIdentity "Output" acc.length (cfg.outputs.bind (fun l => l.get? k))).2, hasMeter := !(specMetersSep models cfg), state := false, temperature := none }] =
          builtOutputs models cfgs i ++
            (List.range (k+1)).map (mkBuiltOutput models cfgs (i, cfg)) := by
        rw [hident, hacc, List.range_succ, List.map_append, List.append_assoc]
        rfl
      rw [show addOutputsLoop i (specMetersSep models cfg) cfg.outputs (m+1) k acc =
          (match componentChecks i .outputs k (acc.map (fun c => c.name))
              (acc.map (fun c => c.id))
              (componentIdentity "Output" acc.length (cfg.outputs.bind (fun l => l.get? k))).1
              (componentIdentity "Output" acc.length (cfg.outputs.bind (fun l => l.get? k))).2 with
           | some e => Except.error e
           | none => addOutputsLoop i (specMetersSep models cfg) cfg.outputs m (k+1) (acc ++ [{ deviceIndex := i, componentIndex := k, id := (componentIdentity "Output" acc.length (cfg.outputs.bind (fun l => l.get? k))).1, name := (componentIdentity "Output" acc.length (cfg.outputs.bind (fun l => l.get? k))).2, hasMeter := !(specMetersSep models cfg), state := false, temperature := none }])) from rfl]
      rw [hchk, List.range'_succ, List.findSome?_cons]
      cases herr : specCompErrAt models cfgs .outputs i cfg k with
      | some e => rfl
      | none => exact ih (k+1) _ hacc2 (by omega)

theorem addMetersLoop_run (models : List ModelEntry) (cfgs : List DeviceConfig)
    (i : Nat) (cfg : DeviceConfig) :
    ∀ (n k : Nat) (acc : List MeterRec),
      acc = builtMeters models cfgs i ++
          (List.range k).map (mkBuiltMeter models cfgs (i, cfg)) →
      k + n = specDeclCount models cfg .meters →
      addMetersLoop i (specMetersSep models cfg) cfg.meters n k acc =
        match (List.range' k n).findSome?
            (fun j => specCompErrAt models cfgs .meters i cfg j) with
        | some e => .error e
        | none => .ok (builtMeters models cfgs i ++
            (List.range (specDeclCount models cfg .meters)).map
              (mkBuiltMeter models cfgs (i, cfg))) := by
  intro n
  induction n with
  | zero =>
      intro k acc hacc hk
      have hkd : k = specDeclCount models cfg .meters := by omega
      subst hkd
      subst hacc
      rfl
  | succ m ih =>
      intro k acc hacc hk
      have hlen : acc.length = specTotalBefore models cfgs i .meters + k := by
        rw [hacc, List.length_append, builtMeters_length, List.length_map, List.length_range]
      have hident : componentIdentity "Meter" acc.length
          (cfg.meters.bind (fun l => l.get? k)) =
          specCompIdent models cfgs .meters i cfg k := by
        rw [hlen]
        rfl
      have hnames : acc.map (fun c => c.name) =
          (specPrevIdents models cfgs .meters i cfg k).map (fun p => p.2) := by
        rw [hacc]
        exact prevMeters_names models cfgs i cfg k
      have hids : acc.map (fun c => c.id) =
          (specPrevIdents models cfgs .meters i cfg k).map (fun p => p.1) := by
        rw [hacc]
        exact prevMeters_ids models cfgs i cfg k
      have hchk : componentChecks i .meters k (acc.map (fun c => c.name))
          (acc.map (fun c => c.id))
          (componentIdentity "Meter" acc.length (cfg.meters.bind (fun l => l.get? k))).1
          (componentIdentity "Meter" acc.length (cfg.meters.bind (fun l => l.get? k))).2 =
          specCompErrAt models cfgs .meters i cfg k := by
        rw [hident]
        exact componentChecks_spec models cfgs .meters i cfg k _ _ hnames hids
      have hacc2 : acc ++ [{ deviceIndex := i, componentIndex := k, id := (componentIdentity "Meter" acc.length (cfg.meters.bind (fun l => l.get? k))).1, name := (componentIdentity "Meter" acc.length (cfg.meters.bind (fun l => l.get? k))).2, onOutput := !(specMetersSep models cfg), state := false, power := none, voltage := none, current := none, powerFactor := none, energy := none }] =
          builtMeters models cfgs i ++
            (List.range (k+1)).map (mkBuiltMeter models cfgs (i, cfg)) := by
        rw [hident, hacc, List.range_succ, List.map_append, List.append_assoc]
        rfl
      rw [show addMetersLoop i (specMetersSep models cfg) cfg.meters (m+1) k acc =
          (match componentChecks i .meters k (acc.map (fun c => c.name))
              (acc.map (fun c => c.id))
              (componentIdentity "Meter" acc.length (cfg.meters.bind (fun l => l.get? k))).1
              (componentIdentity "Meter" acc.length (cfg.meters.bind (fun l => l.get? k))).2 with
           | some e => Except.error e
           | none => addMetersLoop i (specMetersSep models cfg) cfg.meters m (k+1) (acc ++ [{ deviceIndex := i, componentIndex := k, id := (componentIdentity "Meter" acc.length (cfg.meters.bind (fun l => l.get? k))).1, name := (componentIdentity "Meter" acc.length (cfg.meters.bind (fun l => l.get? k))).2, onOutput := !(specMetersSep models cfg), state := false, power := none, voltage := none, current := none, powerFactor := none, energy := none }])) from rfl]
      rw [hchk, List.range'_succ, List.findSome?_cons]
      cases herr : specCompErrAt models cfgs .meters i cfg k with
      | some e => rfl
      | none => exact ih (k+1) _ hacc2 (by omega)

theorem add_device_components_run_inputs (models : List ModelEntry) (cfgs : List DeviceConfig)
    (i : Nat) (cfg : DeviceConfig) (st : ShellyState) (dev1 : DeviceRec)
    (hget : st.devices.get? i = some dev1)
    (hcnt : dev1.inputsCount = specDeclCount models cfg .inputs)
    (hlist : st.inputs = builtInputs models cfgs i) :
    add_device_components st i .inputs cfg.inputs =
      match specCompTypeErr models cfgs i cfg .inputs with
      | some e => .error e
      | none => .ok { st with inputs := builtInputs models cfgs i ++ (List.range (specDeclCount models cfg .inputs)).map (mkBuiltInput models cfgs (i, cfg)) } := by
  unfold add_device_components specCompTypeErr
  rw [hget]
  dsimp only [specCompCfg]
  rw [hcnt]
  by_cases hbad : (match cfg.inputs with
    | none => false
    | some l => decide (l.length ≠ specDeclCount models cfg CompType.inputs)) = true
  · rw [if_pos hbad, if_pos hbad]
  · rw [if_neg hbad, if_neg hbad]
    rw [hlist]
    rw [addInputsLoop_run models cfgs i cfg (specDeclCount models cfg .inputs) 0
        (builtInputs models cfgs i)
        (by rw [List.range_zero, List.map_nil, List.append_nil]) (by omega)]
    rw [show (List.range (specDeclCount models cfg CompType.inputs)).findSome?
        (fun k => specCompErrAt models cfgs CompType.inputs i cfg k) =
      (List.range' 0 (specDeclCount models cfg CompType.inputs)).findSome?
        (fun j => specCompErrAt models cfgs CompType.inputs i cfg j) from by
      rw [List.range_eq_range']]
    cases hfs : (List.range' 0 (specDeclCount models cfg CompType.inputs)).findSome?
        (fun j => specCompErrAt models cfgs CompType.inputs i cfg j) with
    | some e => rfl
    | none => rfl

theorem add_device_components_run_outputs (models : List ModelEntry) (cfgs : List DeviceConfig)
    (i : Nat) (cfg : DeviceConfig) (st : ShellyState) (dev1 : DeviceRec)
    (hget : st.devices.get? i = some dev1)
    (hms : dev1.metersSeperate = specMetersSep models cfg)
    (hcnt : dev1.outputsCount = specDeclCount models cfg .outputs)
    (hlist : st.outputs = builtOutputs models cfgs i) :
    add_device_components st i .outputs cfg.outputs =
      match specCompTypeErr models cfgs i cfg .outputs with
      | some e => .error e
      | none => .ok { st with outputs := builtOutputs models cfgs i ++ (List.range (specDeclCount models cfg .outputs)).map (mkBuiltOutput models cfgs (i, cfg)) } := by
  unfold add_device_components specCompTypeErr
  rw [hget]
  dsimp only [specCompCfg]
  rw [hcnt]
  rw [hms]
  by_cases hbad : (match cfg.outputs with
    | none => false
    | some l => decide (l.length ≠ specDeclCount models cfg CompType.outputs)) = true
  · rw [if_pos hbad, if_pos hbad]
  · rw [if_neg hbad, if_neg hbad]
    rw [hlist]
    rw [addOutputsLoop_run models cfgs i cfg (specDeclCount models cfg .outputs) 0
        (builtOutputs models cfgs i)
        (by rw [List.range_zero, List.map_nil, List.append_nil]) (by omega)]
    rw [show (List.range (specDeclCount models cfg CompType.outputs)).findSome?
        (fun k => specCompErrAt models cfgs CompType.outputs i cfg k) =
      (List.range' 0 (specDeclCount models cfg CompType.outputs)).findSome?
        (fun j => specCompErrAt models cfgs CompType.outputs i cfg j) from by
      rw [List.range_eq_range']]
    cases hfs : (List.range' 0 (specDeclCount models cfg CompType.outputs)).findSome?
        (fun j => specCompErrAt models cfgs CompType.outputs i cfg j) with
    | some e => rfl
    | none => rfl

theorem add_device_components_run_meters (models : List ModelEntry) (cfgs : List DeviceConfig)
    (i : Nat) (cfg : DeviceConfig) (st : ShellyState) (dev1 : DeviceRec)
    (hget : st.devices.get? i = some dev1)
    (hms : dev1.metersSeperate = specMetersSep models cfg)
    (hcnt : dev1.metersCount = specDeclCount models cfg .meters)
    (hlist : st.meters = builtMeters models cfgs i) :
    add_device_components st i .meters cfg.meters =
      match specCompTypeErr models cfgs i cfg .meters with
      | some e => .error e
      | none => .ok { st with meters := builtMeters models cfgs i ++ (List.range (specDeclCount models cfg .meters)).map (mkBuiltMeter models cfgs (i, cfg)) } := by
  unfold add_device_components specCompTypeErr
  rw [hget]
  dsimp only [specCompCfg]
  rw [hcnt]
  rw [hms]
  by_cases hbad : (match cfg.meters with
    | none => false
    | some l => decide (l.length ≠ specDeclCount models cfg CompType.meters)) = true
  · rw [if_pos hbad, if_pos hbad]
  · rw [if_neg hbad, if_neg hbad]
    rw [hlist]
    rw [addMetersLoop_run models cfgs i cfg (specDeclCount models cfg .meters) 0
        (builtMeters models cfgs i)
        (by rw [List.range_zero, List.map_nil, List.append_nil]) (by omega)]
    rw [show (List.range (specDeclCount models cfg CompType.meters)).findSome?
        (fun k => specCompErrAt models cfgs CompType.meters i cfg k) =
      (List.range' 0 (specDeclCount models cfg CompType.meters)).findSome?
        (fun j => specCompErrAt models cfgs CompType.meters i cfg j) from by
      rw [List.range_eq_range']]
    cases hfs : (List.range' 0 (specDeclCount models cfg CompType.meters)).findSome?
        (fun j => specCompErrAt models cfgs CompType.meters i cfg j) with
    | some e => rfl
    | none => rfl

theorem import_noop (st4 : ShellyState) (dev1 : DeviceRec) (c : Bool)
    (hs : dev1.simulate = false) :
    import_device_information_from_json st4 dev1 c = (st4, .ok false) := by
  unfold import_device_information_from_json
  rw [if_pos hs]

theorem import_sim_fresh (st4 : ShellyState) (dev1 : DeviceRec) (p : String)
    (hs : dev1.simulate = true) (hsf : dev1.simulationFile = some p)
    (hlook : fileLookup st4.files p = none) :
    import_device_information_from_json st4 dev1 true =
      ({ st4 with files := fileWrite st4.files p (encodeDeviceInfo st4 dev1) }, .ok true) := by
  unfold import_device_information_from_json
  rw [if_neg (show ¬(dev1.simulate = false) from by
    rw [hs]; exact fun h => Bool.noConfusion h), hsf]
  dsimp only
  rw [hlook]
  dsimp only
  rw [if_pos rfl]
  unfold export_device_information_to_json
  rw [if_neg (show ¬(dev1.simulate = false) from by
    rw [hs]; exact fun h => Bool.noConfusion h), hsf]

theorem specDeviceFullErr_none_dev (models : List ModelEntry) (validHost : String → Bool)
    (cfgs : List DeviceConfig) (i : Nat) (cfg : DeviceConfig)
    (h : specDeviceFullErr models validHost cfgs i cfg = none) :
    specDeviceErr models validHost cfgs i cfg = none := by
  unfold specDeviceFullErr at h
  cases hd : specDeviceErr models validHost cfgs i cfg with
  | none => rfl
  | some e =>
      rw [hd] at h
      exact Option.noConfusion (show some e = none from h)

theorem add_device_run (models : List ModelEntry) (validHost : String → Bool)
    (cfgs : List DeviceConfig) (i : Nat) (cfg : DeviceConfig) (st : ShellyState)
    (hi : cfgs.get? i = some cfg)
    (hinv : BuildInv models cfgs i st)
    (hprev : ∀ j cfgj, j < i → cfgs.get? j = some cfgj →
      specDeviceErr models validHost cfgs j cfgj = none)
    (hdist : DistinctSimFiles cfgs) :
    ∃ st2, (add_device models validHost st cfg =
        match specDeviceFullErr models validHost cfgs i cfg with
        | some e => .error e
        | none => .ok st2) ∧
      (specDeviceFullErr models validHost cfgs i cfg = none →
        BuildInv models cfgs (i+1) st2) := by
  obtain ⟨hdevs, hins, houts, hmets, hfilesI⟩ := hinv
  have hilen : i < cfgs.length := get?_lt_length hi
  have hlen : st.devices.length = i := by
    rw [hdevs]
    exact builtDevices_length models cfgs i (le_of_lt hilen)
  unfold add_device specDeviceFullErr specDeviceErr
  rw [hlen]
  dsimp only
  by_cases hemp : models.isEmpty = true
  · rw [show get_device_attributes models i i (modelKeyOf cfg) =
        .error (.noModels i) from by
      unfold get_device_attributes
      rw [if_pos hemp]]
    rw [if_pos hemp]
    exact ⟨st, rfl, fun hn => Option.noConfusion (show some (BuildErr.noModels i) = none from hn)⟩
  · have hemp2 : models.isEmpty = false := by
      cases hh : models.isEmpty
      · rfl
      · exact absurd hh hemp
    rw [if_neg hemp]
    cases hent : modelEntryFor models (modelKeyOf cfg) with
    | none =>
        rw [show get_device_attributes models i i (modelKeyOf cfg) =
            .error (.modelNotFound i) from by
          unfold get_device_attributes
          rw [if_neg hemp, hent]]
        exact ⟨st, rfl,
          fun hn => Option.noConfusion (show some (BuildErr.modelNotFound i) = none from hn)⟩
    | some entry =>
        dsimp only
        by_cases hmis : (entry.metersSeperate.getD false = false ∧
            entry.meters.getD 0 ≠ entry.outputs.getD 1)
        · rw [if_pos hmis]
          rw [show get_device_attributes models i i (modelKeyOf cfg) =
              .error (.metersMismatch i) from by
            unfold get_device_attributes
            rw [if_neg hemp, hent]
            dsimp only
            rw [if_pos hmis]]
          exact ⟨st, rfl,
            fun hn => Option.noConfusion (show some (BuildErr.metersMismatch i) = none from hn)⟩
        · rw [if_neg hmis]
          rw [get_device_attributes_ok models i i (modelKeyOf cfg) entry hemp2 hent hmis]
          dsimp only
          by_cases hhm : (cfg.simulate.getD false = false ∧ cfg.hostname.getD "" = "")
          · rw [if_pos hhm, if_pos hhm]
            exact ⟨st, rfl,
              fun hn => Option.noConfusion (show some (BuildErr.hostnameMissing i) = none from hn)⟩
          · rw [if_neg hhm, if_neg hhm]
            by_cases hhv : (cfg.hostname.getD "" ≠ "" ∧
                validHost (cfg.hostname.getD "") = false)
            · rw [if_pos hhv, if_pos hhv]
              exact ⟨st, rfl,
                fun hn => Option.noConfusion (show some (BuildErr.hostnameInvalid i) = none from hn)⟩
            · rw [if_neg hhv, if_neg hhv]
              have hname : (st.devices.any (fun d => d.clientName =
                  cfg.name.getD ("Shelly Device " ++ toString (i + 1)))) =
                  ((cfgs.take i).enum.any
                    (fun p => specEffName p.1 p.2 = specEffName i cfg)) := by
                rw [hdevs]
                exact builtDevices_any_name models validHost cfgs i (specEffName i cfg) hprev
              rw [hname]
              by_cases hdn : ((cfgs.take i).enum.any
                  (fun p => specEffName p.1 p.2 = specEffName i cfg)) = true
              · rw [if_pos hdn, if_pos hdn]
                exact ⟨st, rfl,
                  fun hn => Option.noConfusion (show some (BuildErr.deviceNameDup i) = none from hn)⟩
              · rw [if_neg hdn, if_neg hdn]
                have hid : (st.devices.any (fun d => d.id = cfg.id.getD ((i : Int) + 1))) =
                    ((cfgs.take i).enum.any
                      (fun p => specEffId p.1 p.2 = specEffId i cfg)) := by
                  rw [hdevs]
                  exact builtDevices_any_id models validHost cfgs i (specEffId i cfg) hprev
                rw [hid]
                by_cases hdi : ((cfgs.take i).enum.any
                    (fun p => specEffId p.1 p.2 = specEffId i cfg)) = true
                · rw [if_pos hdi, if_pos hdi]
                  exact ⟨st, rfl,
                    fun hn => Option.noConfusion (show some (BuildErr.deviceIdDup i) = none from hn)⟩
                · rw [if_neg hdi, if_neg hdi]
                  by_cases hpr : (specEffId i cfg = 0 ∧ specEffName i cfg = "")
                  · rw [if_pos (show (cfg.id.getD ((i : Int) + 1) = 0 ∧
                        cfg.name.getD ("Shelly Device " ++ toString (i + 1)) = "") from hpr),
                      if_pos hpr]
                    exact ⟨st, rfl,
                      fun hn => Option.noConfusion (show some (BuildErr.devicePresence i) = none from hn)⟩
                  · rw [if_neg (show ¬(cfg.id.getD ((i : Int) + 1) = 0 ∧
                        cfg.name.getD ("Shelly Device " ++ toString (i + 1)) = "") from hpr),
                      if_neg hpr]
                    have hsome : ((st.devices ++ [mkConfiguredDevice (attrsOf entry i (modelKeyOf cfg)) i cfg]).get? i) = some (mkConfiguredDevice (attrsOf entry i (modelKeyOf cfg)) i cfg) := by
                      have h0 := List.get?_concat_length st.devices (mkConfiguredDevice (attrsOf entry i (modelKeyOf cfg)) i cfg)
                      rw [hlen] at h0
                      exact h0
                    have hcnt1 : (mkConfiguredDevice (attrsOf entry i (modelKeyOf cfg)) i cfg).inputsCount = specDeclCount models cfg .inputs := by
                      rw [mkConfiguredDevice_inputsCount]
                      rw [show (attrsOf entry i (modelKeyOf cfg)).inputsCount =
                        entry.inputs.getD 1 from rfl]
                      rw [specDeclCount_inputs_of_entry models cfg entry hent]
                    have hcnt2 : (mkConfiguredDevice (attrsOf entry i (modelKeyOf cfg)) i cfg).outputsCount = specDeclCount models cfg .outputs := by
                      rw [mkConfiguredDevice_outputsCount]
                      rw [show (attrsOf entry i (modelKeyOf cfg)).outputsCount =
                        entry.outputs.getD 1 from rfl]
                      rw [specDeclCount_outputs_of_entry models cfg entry hent]
                    have hcnt3 : (mkConfiguredDevice (attrsOf entry i (modelKeyOf cfg)) i cfg).metersCount = specDeclCount models cfg .meters := by
                      rw [mkConfiguredDevice_metersCount]
                      rw [show (attrsOf entry i (modelKeyOf cfg)).metersCount =
                        entry.meters.getD 0 from rfl]
                      rw [specDeclCount_meters_of_entry models cfg entry hent]
                    have hms : (mkConfiguredDevice (attrsOf entry i (modelKeyOf cfg)) i cfg).metersSeperate = specMetersSep models cfg := by
                      rw [mkConfiguredDevice_metersSeperate]
                      rw [show (attrsOf entry i (modelKeyOf cfg)).metersSeperate =
                        entry.metersSeperate.getD false from rfl]
                      rw [specMetersSep_of_entry models cfg entry hent]
                    rw [add_device_components_run_inputs models cfgs i cfg
                      { devices := st.devices ++ [mkConfiguredDevice (attrsOf entry i (modelKeyOf cfg)) i cfg], inputs := st.inputs, outputs := st.outputs, meters := st.meters, responseTimeout := st.responseTimeout, retryCount := st.retryCount, retryDelay := st.retryDelay, pingAllowed := st.pingAllowed, files := st.files } (mkConfiguredDevice (attrsOf entry i (modelKeyOf cfg)) i cfg) hsome hcnt1 hins]
                    cases hce1 : specCompTypeErr models cfgs i cfg CompType.inputs with
                    | some e =>
                        exact ⟨st, rfl, fun hn => Option.noConfusion (show some e = none from hn)⟩
                    | none =>
                        dsimp only
                        rw [add_device_components_run_outputs models cfgs i cfg
                          { devices := st.devices ++ [mkConfiguredDevice (attrsOf entry i (modelKeyOf cfg)) i cfg], inputs := builtInputs models cfgs i ++ (List.range (specDeclCount models cfg .inputs)).map (mkBuiltInput models cfgs (i, cfg)), outputs := st.outputs, meters := st.meters, responseTimeout := st.responseTimeout, retryCount := st.retryCount, retryDelay := st.retryDelay, pingAllowed := st.pingAllowed, files := st.files } (mkConfiguredDevice (attrsOf entry i (modelKeyOf cfg)) i cfg) hsome hms hcnt2 houts]
                        cases hce2 : specCompTypeErr models cfgs i cfg CompType.outputs with
                        | some e =>
                            exact ⟨st, rfl,
                              fun hn => Option.noConfusion (show some e = none from hn)⟩
                        | none =>
                            dsimp only
                            rw [add_device_components_run_meters models cfgs i cfg
                              { devices := st.devices ++ [mkConfiguredDevice (attrsOf entry i (modelKeyOf cfg)) i cfg], inputs := builtInputs models cfgs i ++ (List.range (specDeclCount models cfg .inputs)).map (mkBuiltInput models cfgs (i, cfg)), outputs := builtOutputs models cfgs i ++ (List.range (specDeclCount models cfg .outputs)).map (mkBuiltOutput models cfgs (i, cfg)), meters := st.meters, responseTimeout := st.responseTimeout, retryCount := st.retryCount, retryDelay := st.retryDelay, pingAllowed := st.pingAllowed, files := st.files } (mkConfiguredDevice (attrsOf entry i (modelKeyOf cfg)) i cfg) hsome hms hcnt3 hmets]
                            cases hce3 : specCompTypeErr models cfgs i cfg CompType.meters with
                            | some e =>
                                exact ⟨st, rfl,
                                  fun hn => Option.noConfusion (show some e = none from hn)⟩
                            | none =>
                                dsimp only
                                cases hsim : cfg.simulate.getD false with
                                | false =>
                                    have hs4 : (mkConfiguredDevice (attrsOf entry i (modelKeyOf cfg)) i cfg).simulate = false := by
                                      rw [mkConfiguredDevice_simulate]
                                      exact hsim
                                    rw [import_noop { devices := st.devices ++ [mkConfiguredDevice (attrsOf entry i (modelKeyOf cfg)) i cfg], inputs := builtInputs models cfgs i ++ (List.range (specDeclCount models cfg .inputs)).map (mkBuiltInput models cfgs (i, cfg)), outputs := builtOutputs models cfgs i ++ (List.range (specDeclCount models cfg .outputs)).map (mkBuiltOutput models cfgs (i, cfg)), meters := builtMeters models cfgs i ++ (List.range (specDeclCount models cfg .meters)).map (mkBuiltMeter models cfgs (i, cfg)), responseTimeout := st.responseTimeout, retryCount := st.retryCount, retryDelay := st.retryDelay, pingAllowed := st.pingAllowed, files := st.files } (mkConfiguredDevice (attrsOf entry i (modelKeyOf cfg)) i cfg) true hs4]
                                    refine ⟨_, rfl, fun _ => ⟨?_, ?_, ?_, ?_, ?_⟩⟩
                                    · show st.devices ++ [mkConfiguredDevice (attrsOf entry i (modelKeyOf cfg)) i cfg] = builtDevices models cfgs (i+1)
                                      rw [builtDevices_succ models cfgs i cfg hi, hdevs,
                                        builtDevice_eq models i cfg entry hemp2 hent hmis]
                                    · show builtInputs models cfgs i ++ (List.range (specDeclCount models cfg .inputs)).map (mkBuiltInput models cfgs (i, cfg)) = builtInputs models cfgs (i+1)
                                      exact (builtInputs_succ models cfgs i cfg hi).symm
                                    · show builtOutputs models cfgs i ++ (List.range (specDeclCount models cfg .outputs)).map (mkBuiltOutput models cfgs (i, cfg)) = builtOutputs models cfgs (i+1)
                                      exact (builtOutputs_succ models cfgs i cfg hi).symm
                                    · show builtMeters models cfgs i ++ (List.range (specDeclCount models cfg .meters)).map (mkBuiltMeter models cfgs (i, cfg)) = builtMeters models cfgs (i+1)
                                      exact (builtMeters_succ models cfgs i cfg hi).symm
                                    · show ∀ pv ∈ st.files, ∃ j, j < i + 1 ∧
                                        ∃ cfgj, cfgs.get? j = some cfgj ∧
                                          cfgj.simulate.getD false = true ∧
                                          pv.1 = simulationFileName (specEffName j cfgj)
                                            (specEffId j cfgj)
                                      intro pv hpv
                                      obtain ⟨j, hj, cfgj, hcj, hsm, hp⟩ := hfilesI pv hpv
                                      exact ⟨j, Nat.lt_succ_of_lt hj, cfgj, hcj, hsm, hp⟩
                                | true =>
                                    have hs4 : (mkConfiguredDevice (attrsOf entry i (modelKeyOf cfg)) i cfg).simulate = true := by
                                      rw [mkConfiguredDevice_simulate]
                                      exact hsim
                                    have hsf : (mkConfiguredDevice (attrsOf entry i (modelKeyOf cfg)) i cfg).simulationFile = some (simulationFileName (specEffName i cfg) (specEffId i cfg)) :=
                                      mkConfiguredDevice_simFile _ _ _ hsim
                                    have hfresh : ∀ kv ∈ st.files, kv.1 ≠ simulationFileName (specEffName i cfg) (specEffId i cfg) := by
                                      intro kv hkv
                                      obtain ⟨j, hj, cfgj, hcj, hsm, hp⟩ := hfilesI kv hkv
                                      rw [hp]
                                      exact hdist j i cfgj cfg hj hcj hi hsm hsim
                                    have hlook : fileLookup st.files (simulationFileName (specEffName i cfg) (specEffId i cfg)) = none :=
                                      fileLookup_none_of_fresh _ _ hfresh
                                    rw [import_sim_fresh { devices := st.devices ++ [mkConfiguredDevice (attrsOf entry i (modelKeyOf cfg)) i cfg], inputs := builtInputs models cfgs i ++ (List.range (specDeclCount models cfg .inputs)).map (mkBuiltInput models cfgs (i, cfg)), outputs := builtOutputs models cfgs i ++ (List.range (specDeclCount models cfg .outputs)).map (mkBuiltOutput models cfgs (i, cfg)), meters := builtMeters models cfgs i ++ (List.range (specDeclCount models cfg .meters)).map (mkBuiltMeter models cfgs (i, cfg)), responseTimeout := st.responseTimeout, retryCount := st.retryCount, retryDelay := st.retryDelay, pingAllowed := st.pingAllowed, files := st.files } (mkConfiguredDevice (attrsOf entry i (modelKeyOf cfg)) i cfg) (simulationFileName (specEffName i cfg) (specEffId i cfg))
                                      hs4 hsf hlook]
                                    refine ⟨_, rfl, fun _ => ⟨?_, ?_, ?_, ?_, ?_⟩⟩
                                    · show st.devices ++ [mkConfiguredDevice (attrsOf entry i (modelKeyOf cfg)) i cfg] = builtDevices models cfgs (i+1)
                                      rw [builtDevices_succ models cfgs i cfg hi, hdevs,
                                        builtDevice_eq models i cfg entry hemp2 hent hmis]
                                    · show builtInputs models cfgs i ++ (List.range (specDeclCount models cfg .inputs)).map (mkBuiltInput models cfgs (i, cfg)) = builtInputs models cfgs (i+1)
                                      exact (builtInputs_succ models cfgs i cfg hi).symm
                                    · show builtOutputs models cfgs i ++ (List.range (specDeclCount models cfg .outputs)).map (mkBuiltOutput models cfgs (i, cfg)) = builtOutputs models cfgs (i+1)
                                      exact (builtOutputs_succ models cfgs i cfg hi).symm
                                    · show builtMeters models cfgs i ++ (List.range (specDeclCount models cfg .meters)).map (mkBuiltMeter models cfgs (i, cfg)) = builtMeters models cfgs (i+1)
                                      exact (builtMeters_succ models cfgs i cfg hi).symm
                                    · show ∀ pv ∈ fileWrite st.files (simulationFileName (specEffName i cfg) (specEffId i cfg))
                                          (encodeDeviceInfo { devices := st.devices ++ [mkConfiguredDevice (attrsOf entry i (modelKeyOf cfg)) i cfg], inputs := builtInputs models cfgs i ++ (List.range (specDeclCount models cfg .inputs)).map (mkBuiltInput models cfgs (i, cfg)), outputs := builtOutputs models cfgs i ++ (List.range (specDeclCount models cfg .outputs)).map (mkBuiltOutput models cfgs (i, cfg)), meters := builtMeters models cfgs i ++ (List.range (specDeclCount models cfg .meters)).map (mkBuiltMeter models cfgs (i, cfg)), responseTimeout := st.responseTimeout, retryCount := st.retryCount, retryDelay := st.retryDelay, pingAllowed := st.pingAllowed, files := st.files } (mkConfiguredDevice (attrsOf entry i (modelKeyOf cfg)) i cfg)), ∃ j, j < i + 1 ∧
                                        ∃ cfgj, cfgs.get? j = some cfgj ∧
                                          cfgj.simulate.getD false = true ∧
                                          pv.1 = simulationFileName (specEffName j cfgj)
                                            (specEffId j cfgj)
                                      rw [fileWrite_fresh st.files (simulationFileName (specEffName i cfg) (specEffId i cfg))
                                        (encodeDeviceInfo { devices := st.devices ++ [mkConfiguredDevice (attrsOf entry i (modelKeyOf cfg)) i cfg], inputs := builtInputs models cfgs i ++ (List.range (specDeclCount models cfg .inputs)).map (mkBuiltInput models cfgs (i, cfg)), outputs := builtOutputs models cfgs i ++ (List.range (specDeclCount models cfg .outputs)).map (mkBuiltOutput models cfgs (i, cfg)), meters := builtMeters models cfgs i ++ (List.range (specDeclCount models cfg .meters)).map (mkBuiltMeter models cfgs (i, cfg)), responseTimeout := st.responseTimeout, retryCount := st.retryCount, retryDelay := st.retryDelay, pingAllowed := st.pingAllowed, files := st.files } (mkConfiguredDevice (attrsOf entry i (modelKeyOf cfg)) i cfg)) hfresh]
                                      intro pv hpv
                                      rcases List.mem_append.mp hpv with hl | hr
                                      · obtain ⟨j, hj, cfgj, hcj, hsm, hp⟩ := hfilesI pv hl
                                        exact ⟨j, Nat.lt_succ_of_lt hj, cfgj, hcj, hsm, hp⟩
                                      · rw [List.mem_singleton] at hr
                                        subst hr
                                        exact ⟨i, Nat.lt_succ_self i, cfg, hi, hsim, rfl⟩

theorem addDevicesLoop_run (models : List ModelEntry) (validHost : String → Bool)
    (cfgs : List DeviceConfig) (hdist : DistinctSimFiles cfgs) :
    ∀ (rest : List DeviceConfig) (i : Nat) (st : ShellyState),
      cfgs.drop i = rest →
      BuildInv models cfgs i st →
      (∀ j cfgj, j < i → cfgs.get? j = some cfgj →
        specDeviceErr models validHost cfgs j cfgj = none) →
      (∀ e, specErrScan models validHost cfgs i rest = some e →
        addDevicesLoop models validHost rest st = .error e) ∧
      (specErrScan models validHost cfgs i rest = none →
        ∃ st2, addDevicesLoop models validHost rest st = .ok st2 ∧
          BuildInv models cfgs cfgs.length st2) := by
  intro rest
  induction rest with
  | nil =>
      intro i st hdrop hinv hprev
      constructor
      · intro e he
        exact Option.noConfusion (show (none : Option BuildErr) = some e from he)
      · intro _
        refine ⟨st, rfl, ?_⟩
        have hge : cfgs.length ≤ i := List.drop_eq_nil_iff.mp hdrop
        obtain ⟨h1, h2, h3, h4, h5⟩ := hinv
        refine ⟨?_, ?_, ?_, ?_, ?_⟩
        · rw [h1]
          unfold builtDevices
          rw [List.take_of_length_le hge, List.take_length]
        · rw [h2]
          unfold builtInputs
          rw [List.take_of_length_le hge, List.take_length]
        · rw [h3]
          unfold builtOutputs
          rw [List.take_of_length_le hge, List.take_length]
        · rw [h4]
          unfold builtMeters
          rw [List.take_of_length_le hge, List.take_length]
        · intro pv hpv
          obtain ⟨j, hj, cfgj, hcj, hrest⟩ := h5 pv hpv
          exact ⟨j, get?_lt_length hcj, cfgj, hcj, hrest⟩
  | cons c cs ih =>
      intro i st hdrop hinv hprev
      have hget : cfgs.get? i = some c := by
        have h1 : (cfgs.drop i)[0]? = some c := by
          rw [hdrop]
          simp
        rw [List.getElem?_drop, Nat.add_zero] at h1
        rw [List.get?_eq_getElem?]
        exact h1
      have hdrop2 : cfgs.drop (i+1) = cs := by
        rw [← List.tail_drop, hdrop]
        rfl
      obtain ⟨st2, hrun, hbi⟩ := add_device_run models validHost cfgs i c st hget hinv hprev hdist
      rw [show addDevicesLoop models validHost (c :: cs) st =
          (match add_device models validHost st c with
           | .error e => .error e
           | .ok st1 => addDevicesLoop models validHost cs st1) from rfl]
      rw [hrun]
      rw [show specErrScan models validHost cfgs i (c :: cs) =
          (specDeviceFullErr models validHost cfgs i c).orElse
            (fun _ => specErrScan models validHost cfgs (i+1) cs) from rfl]
      cases hfe : specDeviceFullErr models validHost cfgs i c with
      | some e0 =>
          constructor
          · intro e he
            have hee : e0 = e := Option.some.inj (show some e0 = some e from he)
            subst hee
            rfl
          · intro hn
            exact Option.noConfusion (show some e0 = none from hn)
      | none =>
          have hprev2 : ∀ j cfgj, j < i + 1 → cfgs.get? j = some cfgj →
              specDeviceErr models validHost cfgs j cfgj = none := by
            intro j cfgj hj hcj
            by_cases hji : j = i
            · subst hji
              have hc : cfgj = c := by
                rw [hget] at hcj
                exact (Option.some.inj hcj).symm
              rw [hc]
              exact specDeviceFullErr_none_dev models validHost cfgs j c hfe
            · exact hprev j cfgj (by omega) hcj
          obtain ⟨hA, hB⟩ := ih (i+1) st2 hdrop2 (hbi hfe) hprev2
          constructor
          · intro e he
            exact hA e he
          · intro hn
            obtain ⟨stF, hF, hBI⟩ := hB hn
            exact ⟨stF, hF, hBI⟩

/-- C6 (corrected): registry construction from a configuration list is
characterized by the first violated check in source order: when the ordered
scan (device-level model, meter/output agreement, hostname, name uniqueness
before ID uniqueness before presence, then per-type component count and the
per-component name / ID / presence checks) reports a violation, construction
fails with exactly that error; when it reports none, construction succeeds
and the registry holds exactly the declared component lists, in particular
exactly the declared number of inputs, outputs and meters.  The spec's
"fails iff a §3 invariant is violated" is refuted separately: constructions
can also fail on violations outside §3, such as an unresolvable model. -/
theorem registry_construction_characterized (models : List ModelEntry)
    (validHost : String → Bool) (st : ShellyState) (cfgs : List DeviceConfig)
    (hfiles : st.files = [])
    (hdist : DistinctSimFiles cfgs) :
    (∀ e, specFirstError models validHost cfgs = some e →
      add_devices_from_config models validHost st (mkSettings cfgs) = .error e) ∧
    (specFirstError models validHost cfgs = none →
      ∃ st2, add_devices_from_config models validHost st (mkSettings cfgs) = .ok st2 ∧
        st2.devices = builtDevices models cfgs cfgs.length ∧
        st2.inputs = builtInputs models cfgs cfgs.length ∧
        st2.outputs = builtOutputs models cfgs cfgs.length ∧
        st2.meters = builtMeters models cfgs cfgs.length ∧
        st2.inputs.length = specTotalBefore models cfgs cfgs.length .inputs ∧
        st2.outputs.length = specTotalBefore models cfgs cfgs.length .outputs ∧
        st2.meters.length = specTotalBefore models cfgs cfgs.length .meters) := by
  have hinv0 : BuildInv models cfgs 0 { st with devices := [], inputs := [], outputs := [], meters := [], pingAllowed := true } := by
    refine ⟨rfl, rfl, rfl, rfl, ?_⟩
    intro pv hpv
    rw [show ({ st with devices := [], inputs := [], outputs := [], meters := [], pingAllowed := true } : ShellyState).files = st.files from rfl, hfiles] at hpv
    exact absurd hpv (List.not_mem_nil pv)
  have hprev0 : ∀ j cfgj, j < 0 → cfgs.get? j = some cfgj →
      specDeviceErr models validHost cfgs j cfgj = none :=
    fun j _ hj _ => absurd hj (Nat.not_lt_zero j)
  obtain ⟨hA, hB⟩ := addDevicesLoop_run models validHost cfgs hdist cfgs 0
    { st with devices := [], inputs := [], outputs := [], meters := [], pingAllowed := true }
    rfl hinv0 hprev0
  constructor
  · intro e he
    rw [specFirstError_eq_scan] at he
    exact hA e he
  · intro hn
    rw [specFirstError_eq_scan] at hn
    obtain ⟨st2, hok, hbi⟩ := hB hn
    obtain ⟨h1, h2, h3, h4, _⟩ := hbi
    refine ⟨st2, hok, h1, h2, h3, h4, ?_, ?_, ?_⟩
    · rw [h2, builtInputs_length]
    · rw [h3, builtOutputs_length]
    · rw [h4, builtMeters_length]

/-- C6 counterexample to the literal claim: a configuration referencing a
model absent from the catalog makes registry construction fail even though
no §3 invariant (name / ID uniqueness or presence, component counts,
hostname presence, meter/output agreement) is violated, so "construction
fails iff a §3 invariant is violated" is false. -/
theorem registry_construction_counterexample :
    add_devices_from_config modelsFix (fun _ => true) baseState (mkSettings [cfgBadModel]) =
      .error (.modelNotFound 0) ∧
    sec3Violated modelsFix [cfgBadModel] = false := by
  constructor
  · rfl
  · decide

/-- Witness of C6 on the one-device fixture: the scan reports no violation
and construction succeeds with exactly the declared component lists. -/
theorem registry_construction_witness :
    ∃ st2, add_devices_from_config modelsFix (fun _ => true) baseState (mkSettings [cfgOk]) =
        .ok st2 ∧
      st2.devices = builtDevices modelsFix [cfgOk] 1 ∧
      st2.inputs = builtInputs modelsFix [cfgOk] 1 ∧
      st2.outputs = builtOutputs modelsFix [cfgOk] 1 ∧
      st2.meters = builtMeters modelsFix [cfgOk] 1 ∧
      st2.inputs.length = specTotalBefore modelsFix [cfgOk] 1 .inputs ∧
      st2.outputs.length = specTotalBefore modelsFix [cfgOk] 1 .outputs ∧
      st2.meters.length = specTotalBefore modelsFix [cfgOk] 1 .meters :=
  (registry_construction_characterized modelsFix (fun _ => true) baseState [cfgOk]
    rfl
    (by
      intro j1 j2 c1 c2 h12 hg1 hg2 hs1 hs2
      cases j2 with
      | zero => exact absurd h12 (Nat.not_lt_zero j1)
      | succ n =>
          exact absurd (show (none : Option DeviceConfig) = some c2 from hg2)
            (fun h => Option.noConfusion h))).2 rfl

end Shelly
